import Mathlib

/-!
VulkanObj: swap-chain negotiation, memory-type selection, layout transitions, frame tick.

A shallow embedding of the decision logic of the renderer
(`VulkanApp.cpp`, `VulkanHelpers.cpp`, `XOF_Image.cpp`).
Machine integers are natural numbers, reduced modulo `2 ^ 32` where the
C++ arithmetic can wrap.  Enumerants carry the numeric values of the Vulkan
headers.  Functions that can throw `std::runtime_error` return `Except`.
-/

namespace VulkanObj

/-! ## Vulkan types and enumerants -/

abbrev VkFormat := Nat
abbrev VkColorSpaceKHR := Nat
abbrev VkPresentModeKHR := Nat

abbrev VK_FORMAT_UNDEFINED : VkFormat := 0
abbrev VK_FORMAT_R8G8B8A8_UNORM : VkFormat := 37
abbrev VK_FORMAT_B8G8R8A8_UNORM : VkFormat := 44
abbrev VK_COLOR_SPACE_SRGB_NONLINEAR_KHR : VkColorSpaceKHR := 0

abbrev VK_PRESENT_MODE_IMMEDIATE_KHR : VkPresentModeKHR := 0
abbrev VK_PRESENT_MODE_MAILBOX_KHR : VkPresentModeKHR := 1
abbrev VK_PRESENT_MODE_FIFO_KHR : VkPresentModeKHR := 2
abbrev VK_PRESENT_MODE_FIFO_RELAXED_KHR : VkPresentModeKHR := 3

/-- The largest `uint32_t`, `std::numeric_limits<uint32_t>::max()`. -/
abbrev UINT32_MAX : Nat := 2 ^ 32 - 1

structure VkSurfaceFormatKHR where
  format : VkFormat
  colorSpace : VkColorSpaceKHR
deriving DecidableEq, Repr

structure VkExtent2D where
  width : Nat
  height : Nat
deriving DecidableEq, Repr

/-- The fields of `VkSurfaceCapabilitiesKHR` read by the swap-chain code. -/
structure VkSurfaceCapabilitiesKHR where
  minImageCount : Nat
  maxImageCount : Nat
  currentExtent : VkExtent2D
  minImageExtent : VkExtent2D
  maxImageExtent : VkExtent2D
deriving DecidableEq, Repr

/-- Window size constants of `VulkanApp.cpp`. -/
abbrev INITIAL_WINDOW_WIDTH : Nat := 800
abbrev INITIAL_WINDOW_HEIGHT : Nat := 600

/-! ## Swap-chain selection policy (`VulkanApp.cpp`) -/

/-- The format the renderer prefers: 8-bit BGRA, non-linear sRGB. -/
def preferredSurfaceFormat : VkSurfaceFormatKHR :=
  { format := VK_FORMAT_B8G8R8A8_UNORM, colorSpace := VK_COLOR_SPACE_SRGB_NONLINEAR_KHR }

/-- The range-for loop of `SelectSwapChainFormat`: the first entry that is
BGRA8 with non-linear sRGB, if any. -/
def SelectSwapChainFormat.scan : List VkSurfaceFormatKHR → Option VkSurfaceFormatKHR
  | [] => none
  | f :: rest =>
    if f.format = VK_FORMAT_B8G8R8A8_UNORM ∧ f.colorSpace = VK_COLOR_SPACE_SRGB_NONLINEAR_KHR then
      some f
    else
      SelectSwapChainFormat.scan rest

/-- `VulkanApp::SelectSwapChainFormat`.  The result is `none` only for the
empty list, where the source reads `formats[0]` out of bounds. -/
def SelectSwapChainFormat (formats : List VkSurfaceFormatKHR) : Option VkSurfaceFormatKHR :=
  match formats with
  | [] => none
  | first :: _ =>
    if formats.length = 1 ∧ first.format = VK_FORMAT_UNDEFINED then
      some { format := VK_FORMAT_B8G8R8A8_UNORM, colorSpace := VK_COLOR_SPACE_SRGB_NONLINEAR_KHR }
    else
      match SelectSwapChainFormat.scan formats with
      | some f => some f
      | none => some first

/-- `VulkanApp::SelectSwapChainPresentMode`. -/
def SelectSwapChainPresentMode : List VkPresentModeKHR → VkPresentModeKHR
  | [] => VK_PRESENT_MODE_FIFO_KHR
  | presentMode :: rest =>
    if presentMode = VK_PRESENT_MODE_IMMEDIATE_KHR then presentMode
    else SelectSwapChainPresentMode rest

/-- `VulkanApp::SelectSwapChainSwapExtent`.  Both assignments of the source
write the `width` member. -/
def SelectSwapChainSwapExtent (capabilities : VkSurfaceCapabilitiesKHR) : VkExtent2D :=
  if capabilities.currentExtent.width ≠ UINT32_MAX then
    capabilities.currentExtent
  else
    let actualExtent : VkExtent2D :=
      { width := INITIAL_WINDOW_WIDTH, height := INITIAL_WINDOW_HEIGHT }
    let actualExtent : VkExtent2D :=
      { actualExtent with
        width := max capabilities.minImageExtent.width
          (min capabilities.maxImageExtent.width actualExtent.width) }
    let actualExtent : VkExtent2D :=
      { actualExtent with
        width := max capabilities.minImageExtent.height
          (min capabilities.maxImageExtent.height actualExtent.height) }
    actualExtent

/-- The window size clamped component-wise into the surface limits, in the
words of the specification. -/
def clampedWindowExtent (capabilities : VkSurfaceCapabilitiesKHR) : VkExtent2D :=
  { width := max capabilities.minImageExtent.width
      (min capabilities.maxImageExtent.width INITIAL_WINDOW_WIDTH),
    height := max capabilities.minImageExtent.height
      (min capabilities.maxImageExtent.height INITIAL_WINDOW_HEIGHT) }

/-- The image count computed at the head of `VulkanApp::CreateSwapChain`
(`uint32_t` arithmetic). -/
def CreateSwapChain.imageCount (capabilities : VkSurfaceCapabilitiesKHR) : Nat :=
  let imageCount := (capabilities.minImageCount + 1) % 2 ^ 32
  if capabilities.maxImageCount > 0 ∧ imageCount > capabilities.maxImageCount then
    capabilities.maxImageCount
  else
    imageCount

/-! ## Memory-type selection (`VulkanHelpers.cpp`) -/

structure VkMemoryType where
  propertyFlags : Nat
  heapIndex : Nat
deriving DecidableEq, Repr

/-- The record filled in by `vkGetPhysicalDeviceMemoryProperties`:
`memoryTypes` is the fixed array of `VK_MAX_MEMORY_TYPES = 32` entries, read
by position. -/
structure VkPhysicalDeviceMemoryProperties where
  memoryTypeCount : Nat
  memoryTypes : Nat → VkMemoryType

abbrev VK_MAX_MEMORY_TYPES : Nat := 32

abbrev VK_MEMORY_PROPERTY_DEVICE_LOCAL_BIT : Nat := 0x1
abbrev VK_MEMORY_PROPERTY_HOST_VISIBLE_BIT : Nat := 0x2
abbrev VK_MEMORY_PROPERTY_HOST_COHERENT_BIT : Nat := 0x4

/-- The loop of `FindMemoryType` from index `i` on, with `remaining`
iterations left before `i` reaches `memoryTypeCount`.  `1 << i` is taken as a
32-bit value. -/
def FindMemoryType.loop (typeFilter propertyFlags : Nat)
    (memProperties : VkPhysicalDeviceMemoryProperties) : Nat → Nat → Except String Nat
  | 0, _ => Except.error "Failed to find suitable memory type!"
  | remaining + 1, i =>
    if (typeFilter &&& ((1 <<< i) % 2 ^ 32)) ≠ 0 ∧
        ((memProperties.memoryTypes i).propertyFlags &&& propertyFlags) = propertyFlags then
      Except.ok i
    else
      FindMemoryType.loop typeFilter propertyFlags memProperties remaining (i + 1)

/-- `FindMemoryType` of `VulkanHelpers.cpp`; `memProperties` is what the
device reports. -/
def FindMemoryType (typeFilter propertyFlags : Nat)
    (memProperties : VkPhysicalDeviceMemoryProperties) : Except String Nat :=
  FindMemoryType.loop typeFilter propertyFlags memProperties memProperties.memoryTypeCount 0

/-- Index `i` qualifies: bit `i` of the type filter is set and every requested
property bit is present in the flags of memory type `i`. -/
def memoryTypeQualifies (typeFilter propertyFlags : Nat)
    (memProperties : VkPhysicalDeviceMemoryProperties) (i : Nat) : Prop :=
  typeFilter.testBit i = true ∧
    ∀ b : Nat, propertyFlags.testBit b = true →
      (memProperties.memoryTypes i).propertyFlags.testBit b = true

/-! ## Image layout transitions (`XOF_Image.cpp`) -/

abbrev VkImageLayout := Nat

abbrev VK_IMAGE_LAYOUT_UNDEFINED : VkImageLayout := 0
abbrev VK_IMAGE_LAYOUT_GENERAL : VkImageLayout := 1
abbrev VK_IMAGE_LAYOUT_COLOR_ATTACHMENT_OPTIMAL : VkImageLayout := 2
abbrev VK_IMAGE_LAYOUT_DEPTH_STENCIL_ATTACHMENT_OPTIMAL : VkImageLayout := 3
abbrev VK_IMAGE_LAYOUT_DEPTH_STENCIL_READ_ONLY_OPTIMAL : VkImageLayout := 4
abbrev VK_IMAGE_LAYOUT_SHADER_READ_ONLY_OPTIMAL : VkImageLayout := 5
abbrev VK_IMAGE_LAYOUT_TRANSFER_SRC_OPTIMAL : VkImageLayout := 6
abbrev VK_IMAGE_LAYOUT_TRANSFER_DST_OPTIMAL : VkImageLayout := 7
abbrev VK_IMAGE_LAYOUT_PREINITIALIZED : VkImageLayout := 8

abbrev VK_ACCESS_SHADER_READ_BIT : Nat := 0x20
abbrev VK_ACCESS_DEPTH_STENCIL_ATTACHMENT_READ_BIT : Nat := 0x200
abbrev VK_ACCESS_DEPTH_STENCIL_ATTACHMENT_WRITE_BIT : Nat := 0x400
abbrev VK_ACCESS_TRANSFER_READ_BIT : Nat := 0x800
abbrev VK_ACCESS_TRANSFER_WRITE_BIT : Nat := 0x1000
abbrev VK_ACCESS_HOST_WRITE_BIT : Nat := 0x4000

abbrev VK_IMAGE_ASPECT_COLOR_BIT : Nat := 0x1
abbrev VK_IMAGE_ASPECT_DEPTH_BIT : Nat := 0x2
abbrev VK_QUEUE_FAMILY_IGNORED : Nat := 2 ^ 32 - 1
abbrev VK_STRUCTURE_TYPE_IMAGE_MEMORY_BARRIER : Nat := 45
abbrev VK_PIPELINE_STAGE_TOP_OF_PIPE_BIT : Nat := 0x1

structure VkImageSubresourceRange where
  aspectMask : Nat
  baseMipLevel : Nat
  levelCount : Nat
  baseArrayLayer : Nat
  layerCount : Nat
deriving DecidableEq, Repr

structure VkImageMemoryBarrier where
  sType : Nat
  srcAccessMask : Nat
  dstAccessMask : Nat
  oldLayout : VkImageLayout
  newLayout : VkImageLayout
  srcQueueFamilyIndex : Nat
  dstQueueFamilyIndex : Nat
  image : Nat
  subresourceRange : VkImageSubresourceRange
deriving DecidableEq, Repr

/-- One `vkCmdPipelineBarrier` command as recorded into a command buffer. -/
structure PipelineBarrierCmd where
  srcStageMask : Nat
  dstStageMask : Nat
  dependencyFlags : Nat
  memoryBarrierCount : Nat
  bufferMemoryBarrierCount : Nat
  imageMemoryBarriers : List VkImageMemoryBarrier
deriving DecidableEq, Repr

/-- A command buffer: the commands recorded so far, oldest first. -/
abbrev CommandBuffer := List PipelineBarrierCmd

/-- The if/else-if chain of `TransitionImageLayout`: the pair
`(srcAccessMask, dstAccessMask)`, or `none` on the final `else` (the throw). -/
def TransitionImageLayout.accessMasks (oldLayout newLayout : VkImageLayout) : Option (Nat × Nat) :=
  if oldLayout = VK_IMAGE_LAYOUT_PREINITIALIZED ∧
      newLayout = VK_IMAGE_LAYOUT_TRANSFER_SRC_OPTIMAL then
    some (VK_ACCESS_HOST_WRITE_BIT, VK_ACCESS_TRANSFER_READ_BIT)
  else if oldLayout = VK_IMAGE_LAYOUT_PREINITIALIZED ∧
      newLayout = VK_IMAGE_LAYOUT_TRANSFER_DST_OPTIMAL then
    some (VK_ACCESS_HOST_WRITE_BIT, VK_ACCESS_TRANSFER_WRITE_BIT)
  else if oldLayout = VK_IMAGE_LAYOUT_TRANSFER_DST_OPTIMAL ∧
      newLayout = VK_IMAGE_LAYOUT_SHADER_READ_ONLY_OPTIMAL then
    some (VK_ACCESS_TRANSFER_WRITE_BIT, VK_ACCESS_SHADER_READ_BIT)
  else if oldLayout = VK_IMAGE_LAYOUT_UNDEFINED ∧
      newLayout = VK_IMAGE_LAYOUT_DEPTH_STENCIL_ATTACHMENT_OPTIMAL then
    some (0, VK_ACCESS_DEPTH_STENCIL_ATTACHMENT_READ_BIT ||| VK_ACCESS_DEPTH_STENCIL_ATTACHMENT_WRITE_BIT)
  else
    none

/-- `TransitionImageLayout` of `XOF_Image.cpp`: the outcome (normal return or
the thrown message) together with the command buffer afterwards. -/
def TransitionImageLayout (image : Nat) (oldLayout newLayout : VkImageLayout)
    (commandBuffer : CommandBuffer) : Except String Unit × CommandBuffer :=
  let aspectMask :=
    if newLayout = VK_IMAGE_LAYOUT_DEPTH_STENCIL_ATTACHMENT_OPTIMAL then VK_IMAGE_ASPECT_DEPTH_BIT
    else VK_IMAGE_ASPECT_COLOR_BIT
  match TransitionImageLayout.accessMasks oldLayout newLayout with
  | none => (Except.error "Failed to handle iamge layout transition!", commandBuffer)
  | some (srcAccessMask, dstAccessMask) =>
    let barrier : VkImageMemoryBarrier :=
      { sType := VK_STRUCTURE_TYPE_IMAGE_MEMORY_BARRIER,
        srcAccessMask := srcAccessMask,
        dstAccessMask := dstAccessMask,
        oldLayout := oldLayout,
        newLayout := newLayout,
        srcQueueFamilyIndex := VK_QUEUE_FAMILY_IGNORED,
        dstQueueFamilyIndex := VK_QUEUE_FAMILY_IGNORED,
        image := image,
        subresourceRange :=
          { aspectMask := aspectMask, baseMipLevel := 0, levelCount := 1,
            baseArrayLayer := 0, layerCount := 1 } }
    (Except.ok (),
      commandBuffer ++
        [{ srcStageMask := VK_PIPELINE_STAGE_TOP_OF_PIPE_BIT,
           dstStageMask := VK_PIPELINE_STAGE_TOP_OF_PIPE_BIT,
           dependencyFlags := 0,
           memoryBarrierCount := 0,
           bufferMemoryBarrierCount := 0,
           imageMemoryBarriers := [barrier] }])

/-! ## Depth-format selection (`VulkanApp.cpp`) -/

abbrev VkImageTiling := Nat
abbrev VK_IMAGE_TILING_OPTIMAL : VkImageTiling := 0
abbrev VK_IMAGE_TILING_LINEAR : VkImageTiling := 1

abbrev VK_FORMAT_D32_SFLOAT : VkFormat := 126
abbrev VK_FORMAT_D24_UNORM_S8_UINT : VkFormat := 129
abbrev VK_FORMAT_D32_SFLOAT_S8_UINT : VkFormat := 130

abbrev VK_FORMAT_FEATURE_DEPTH_STENCIL_ATTACHMENT_BIT : Nat := 0x200

structure VkFormatProperties where
  linearTilingFeatures : Nat
  optimalTilingFeatures : Nat
  bufferFeatures : Nat
deriving DecidableEq, Repr

/-- `VulkanApp::FindSuitableFormat`; `formatProperties` is the answer of
`vkGetPhysicalDeviceFormatProperties` for the selected physical device. -/
def FindSuitableFormat (formatProperties : VkFormat → VkFormatProperties) :
    List VkFormat → VkImageTiling → Nat → Except String VkFormat
  | [], _, _ => Except.error "Failed to find suitable format!"
  | format :: rest, tiling, features =>
    if tiling = VK_IMAGE_TILING_LINEAR ∧
        ((formatProperties format).linearTilingFeatures &&& features) ≠ 0 then
      Except.ok format
    else if tiling = VK_IMAGE_TILING_OPTIMAL ∧
        ((formatProperties format).optimalTilingFeatures &&& features) ≠ 0 then
      Except.ok format
    else
      FindSuitableFormat formatProperties rest tiling features

/-- `VulkanApp::SelectDepthImageFormat`. -/
def SelectDepthImageFormat (formatProperties : VkFormat → VkFormatProperties) :
    Except String VkFormat :=
  FindSuitableFormat formatProperties
    [VK_FORMAT_D32_SFLOAT, VK_FORMAT_D32_SFLOAT_S8_UINT, VK_FORMAT_D24_UNORM_S8_UINT]
    VK_IMAGE_TILING_OPTIMAL VK_FORMAT_FEATURE_DEPTH_STENCIL_ATTACHMENT_BIT

/-- A format supports depth-stencil attachment under optimal tiling: the
feature bit (bit 9) is among its optimal-tiling features. -/
def depthAttachable (formatProperties : VkFormat → VkFormatProperties) (format : VkFormat) : Prop :=
  (formatProperties format).optimalTilingFeatures.testBit 9 = true

instance (formatProperties : VkFormat → VkFormatProperties) (format : VkFormat) :
    Decidable (depthAttachable formatProperties format) := by
  unfold depthAttachable; infer_instance

/-! ## The frame tick (`VulkanApp::DrawFrame`) -/

abbrev VkResult := Int
abbrev VK_SUCCESS : VkResult := 0
abbrev VK_NOT_READY : VkResult := 1
abbrev VK_TIMEOUT : VkResult := 2
abbrev VK_ERROR_DEVICE_LOST : VkResult := -4
abbrev VK_ERROR_SURFACE_LOST_KHR : VkResult := -1000000000
abbrev VK_SUBOPTIMAL_KHR : VkResult := 1000001003
abbrev VK_ERROR_OUT_OF_DATE_KHR : VkResult := -1000001004

/-- The calls a frame tick makes, in the order it makes them. -/
inductive Call where
  | vkAcquireNextImageKHR
  | vkDeviceWaitIdle
  | CreateSwapChain
  | CreateSwapChainImageViews
  | CreateRenderPass
  | CreateGraphicsPipeline
  | SetupDepthBufferingResources
  | CreateFramebuffers
  | CreateCommandBuffers
  | vkQueueSubmit (commandBufferIndex : Nat)
  | vkQueuePresentKHR (imageIndex : Nat)
  | countFrame
deriving DecidableEq, Repr

/-- What the platform answers during one tick.  `imageIndex` is the value the
local variable `imageIndex` holds after the acquire call.  The two
`...RebuildThrows` fields say which creation steps throw during the rebuild
started from the acquire branch and from the present branch. -/
structure Driver where
  acquireResult : VkResult
  imageIndex : Nat
  acquireRebuildThrows : Call → Bool
  submitResult : VkResult
  presentResult : VkResult
  presentRebuildThrows : Call → Bool

/-- The creation steps of `RecreateSwapChain`, after `vkDeviceWaitIdle`. -/
def RecreateSwapChain.steps : List Call :=
  [Call.CreateSwapChain, Call.CreateSwapChainImageViews, Call.CreateRenderPass,
   Call.CreateGraphicsPipeline, Call.SetupDepthBufferingResources, Call.CreateFramebuffers,
   Call.CreateCommandBuffers]

/-- Run creation steps in order, appending each to the trace; a step that
throws ends the run with its exception. -/
def RecreateSwapChain.run (throws : Call → Bool) :
    List Call → List Call → Except String Unit × List Call
  | [], trace => (Except.ok (), trace)
  | step :: rest, trace =>
    if throws step then (Except.error "creation step failed", trace ++ [step])
    else RecreateSwapChain.run throws rest (trace ++ [step])

/-- `VulkanApp::RecreateSwapChain`, extending the trace of calls. -/
def RecreateSwapChain (throws : Call → Bool) (trace : List Call) :
    Except String Unit × List Call :=
  RecreateSwapChain.run throws RecreateSwapChain.steps (trace ++ [Call.vkDeviceWaitIdle])

/-- `VulkanApp::DrawFrame`: the outcome of one tick and the trace of calls it
made.  There is no `return` after the rebuild of the acquire branch. -/
def DrawFrame (d : Driver) : Except String Unit × List Call :=
  let trace := [Call.vkAcquireNextImageKHR]
  let afterAcquire : Except String Unit × List Call :=
    if d.acquireResult = VK_ERROR_OUT_OF_DATE_KHR then
      RecreateSwapChain d.acquireRebuildThrows trace
    else if d.acquireResult ≠ VK_SUCCESS ∧ d.acquireResult ≠ VK_SUBOPTIMAL_KHR then
      (Except.error "Failed to acquire swap chain image!", trace)
    else
      (Except.ok (), trace)
  match afterAcquire with
  | (Except.error e, trace) => (Except.error e, trace)
  | (Except.ok _, trace) =>
    let trace := trace ++ [Call.vkQueueSubmit d.imageIndex]
    if d.submitResult ≠ VK_SUCCESS then
      (Except.error "Failed to submit draw command buffer!", trace)
    else
      let trace := trace ++ [Call.vkQueuePresentKHR d.imageIndex]
      let afterPresent : Except String Unit × List Call :=
        if d.presentResult = VK_ERROR_OUT_OF_DATE_KHR ∨ d.presentResult = VK_SUBOPTIMAL_KHR then
          RecreateSwapChain d.presentRebuildThrows trace
        else if d.presentResult ≠ VK_SUCCESS then
          (Except.error "Failed to present swap chain image!", trace)
        else
          (Except.ok (), trace)
      match afterPresent with
      | (Except.error e, trace) => (Except.error e, trace)
      | (Except.ok _, trace) => (Except.ok (), trace ++ [Call.countFrame])

/-- The number of times a trace starts a rebuild (`RecreateSwapChain` opens
with `vkDeviceWaitIdle`, which nothing else in the tick calls). -/
def rebuildCount (trace : List Call) : Nat :=
  trace.count Call.vkDeviceWaitIdle

/-- A call that hands work to a queue: a submit or a present. -/
def Call.isSubmitOrPresent : Call → Bool
  | Call.vkQueueSubmit _ => true
  | Call.vkQueuePresentKHR _ => true
  | _ => false

/-- The command buffer `after` is `before` followed by exactly one pipeline
barrier command that carries exactly one image barrier, with the given access
masks. -/
def recordsOneBarrier (before after : CommandBuffer) (srcAccessMask dstAccessMask : Nat) : Prop :=
  ∃ cmd barrier, after = before ++ [cmd] ∧ cmd.imageMemoryBarriers = [barrier] ∧
    barrier.srcAccessMask = srcAccessMask ∧ barrier.dstAccessMask = dstAccessMask

/-- The four layout transitions the lookup of `TransitionImageLayout` knows. -/
def handledTransitions : List (VkImageLayout × VkImageLayout) :=
  [(VK_IMAGE_LAYOUT_PREINITIALIZED, VK_IMAGE_LAYOUT_TRANSFER_SRC_OPTIMAL),
   (VK_IMAGE_LAYOUT_PREINITIALIZED, VK_IMAGE_LAYOUT_TRANSFER_DST_OPTIMAL),
   (VK_IMAGE_LAYOUT_TRANSFER_DST_OPTIMAL, VK_IMAGE_LAYOUT_SHADER_READ_ONLY_OPTIMAL),
   (VK_IMAGE_LAYOUT_UNDEFINED, VK_IMAGE_LAYOUT_DEPTH_STENCIL_ATTACHMENT_OPTIMAL)]

/-- The candidate list of `SelectDepthImageFormat`, in probing order. -/
def depthCandidates : List VkFormat :=
  [VK_FORMAT_D32_SFLOAT, VK_FORMAT_D32_SFLOAT_S8_UINT, VK_FORMAT_D24_UNORM_S8_UINT]

/-- The calls of a trace that follow its first `vkQueuePresentKHR`. -/
def callsAfterPresent : List Call → List Call
  | [] => []
  | Call.vkQueuePresentKHR _ :: rest => rest
  | _ :: rest => callsAfterPresent rest

/-- A tick in which acquisition reports out-of-date and every later call
succeeds. -/
def staleAcquireDriver : Driver :=
  { acquireResult := VK_ERROR_OUT_OF_DATE_KHR, imageIndex := 0,
    acquireRebuildThrows := fun _ => false,
    submitResult := VK_SUCCESS, presentResult := VK_SUCCESS,
    presentRebuildThrows := fun _ => false }

/-- A tick that acquires image 1 and submits successfully, with the given
present result; no creation step throws. -/
def presentDriver (presentResult : VkResult) : Driver :=
  { acquireResult := VK_SUCCESS, imageIndex := 1,
    acquireRebuildThrows := fun _ => false,
    submitResult := VK_SUCCESS, presentResult := presentResult,
    presentRebuildThrows := fun _ => false }

/-! ## Adapter selection and queue families (`VulkanApp.cpp`) -/

abbrev VK_QUEUE_GRAPHICS_BIT : Nat := 0x1
abbrev VK_QUEUE_COMPUTE_BIT : Nat := 0x2
abbrev VK_QUEUE_TRANSFER_BIT : Nat := 0x4

/-- `QueueFamilyDesc` of `VulkanApp.hpp`; both members default to `-1`. -/
structure QueueFamilyDesc where
  graphicsFamily : Int := -1
  presentationFamily : Int := -1
deriving DecidableEq, Repr

/-- `QueueFamilyDesc::IsComplete`. -/
def QueueFamilyDesc.IsComplete (q : QueueFamilyDesc) : Bool :=
  decide (q.graphicsFamily ≥ 0) && decide (q.presentationFamily ≥ 0)

/-- Conversion of an `unsigned int` to `int` (two's complement, 32 bits). -/
def toInt32 (i : Nat) : Int :=
  if i % 2 ^ 32 < 2 ^ 31 then ((i % 2 ^ 32 : Nat) : Int) else ((i % 2 ^ 32 : Nat) : Int) - 2 ^ 32

/-- Conversion of an `int` to `uint32_t`. -/
def toUInt32 (z : Int) : Nat :=
  (z % 2 ^ 32).toNat

/-- One queue family of an adapter: its `VkQueueFamilyProperties` and the
answer of `vkGetPhysicalDeviceSurfaceSupportKHR` for it. -/
structure QueueFamily where
  queueFlags : Nat
  queueCount : Nat
  presentationSupport : Bool
deriving DecidableEq, Repr

/-- What the platform reports about one physical device. -/
structure PhysicalDevice where
  queueFamilies : List QueueFamily
  extensions : List String
  formats : List VkSurfaceFormatKHR
  presentationModes : List VkPresentModeKHR
deriving DecidableEq, Repr

/-- The list `gRequiredExtensions` of `VulkanApp.hpp`
(`VK_KHR_SWAPCHAIN_EXTENSION_NAME`). -/
def gRequiredExtensions : List String := ["VK_KHR_swapchain"]

/-- The loop of `FindQueueFamilies` from family index `i` on. -/
def FindQueueFamilies.loop : List QueueFamily → Nat → QueueFamilyDesc → QueueFamilyDesc
  | [], _, familyDesc => familyDesc
  | family :: rest, i, familyDesc =>
    let familyDesc : QueueFamilyDesc :=
      if family.queueCount > 0 ∧ (family.queueFlags &&& VK_QUEUE_GRAPHICS_BIT) ≠ 0 then
        { familyDesc with graphicsFamily := toInt32 i }
      else familyDesc
    let familyDesc : QueueFamilyDesc :=
      if family.queueCount > 0 ∧ family.presentationSupport = true then
        { familyDesc with presentationFamily := toInt32 i }
      else familyDesc
    if familyDesc.IsComplete = true then familyDesc
    else FindQueueFamilies.loop rest (i + 1) familyDesc

/-- `VulkanApp::FindQueueFamilies`. -/
def FindQueueFamilies (physicalDevice : PhysicalDevice) : QueueFamilyDesc :=
  FindQueueFamilies.loop physicalDevice.queueFamilies 0 {}

/-- `VulkanApp::CheckDeviceExtensionSupport` (the printing left out): every
required name is found among the supported extension names. -/
def CheckDeviceExtensionSupport (physicalDevice : PhysicalDevice) : Bool :=
  gRequiredExtensions.all fun required =>
    physicalDevice.extensions.any fun supported => supported == required

/-- `VulkanApp::IsPhysicalDeviceSuitable`. -/
def IsPhysicalDeviceSuitable (physicalDevice : PhysicalDevice) : Bool :=
  let queueFamilyDesc := FindQueueFamilies physicalDevice
  let requiredExtensionsSupported := CheckDeviceExtensionSupport physicalDevice
  let swapChainIsSuitable :=
    if requiredExtensionsSupported = true then
      !physicalDevice.formats.isEmpty && !physicalDevice.presentationModes.isEmpty
    else false
  queueFamilyDesc.IsComplete && requiredExtensionsSupported && swapChainIsSuitable

/-- The selection loop of `PickPhysicalDevice`; the second argument is the
member `mPhysicalDevice` (`none` for `VK_NULL_HANDLE`). -/
def PickPhysicalDevice.loop :
    List PhysicalDevice → Option PhysicalDevice → Option PhysicalDevice
  | [], mPhysicalDevice => mPhysicalDevice
  | physicalDevice :: rest, mPhysicalDevice =>
    if IsPhysicalDeviceSuitable physicalDevice = true then some physicalDevice
    else PickPhysicalDevice.loop rest mPhysicalDevice

/-- `VulkanApp::PickPhysicalDevice`: the new value of `mPhysicalDevice`, or the
thrown message.  `physicalDevices` is what `vkEnumeratePhysicalDevices`
returns; enumerated handles are never null. -/
def PickPhysicalDevice (physicalDevices : List PhysicalDevice)
    (mPhysicalDevice : Option PhysicalDevice) : Except String PhysicalDevice :=
  if physicalDevices.length = 0 then
    Except.error "No physical devices found!"
  else
    match PickPhysicalDevice.loop physicalDevices mPhysicalDevice with
    | none => Except.error "Couldn't find a suitable physical device!"
    | some physicalDevice => Except.ok physicalDevice

/-- Some queue family of the adapter has queues and graphics capability. -/
def hasGraphicsFamily (physicalDevice : PhysicalDevice) : Prop :=
  ∃ f ∈ physicalDevice.queueFamilies, f.queueCount > 0 ∧ f.queueFlags.testBit 0 = true

/-- Some queue family of the adapter has queues and can present to the surface. -/
def hasPresentationFamily (physicalDevice : PhysicalDevice) : Prop :=
  ∃ f ∈ physicalDevice.queueFamilies, f.queueCount > 0 ∧ f.presentationSupport = true

/-- The four conditions of adapter selection. -/
def adapterQualifies (physicalDevice : PhysicalDevice) : Prop :=
  (∀ required ∈ gRequiredExtensions, required ∈ physicalDevice.extensions) ∧
  hasGraphicsFamily physicalDevice ∧ hasPresentationFamily physicalDevice ∧
  physicalDevice.formats ≠ [] ∧ physicalDevice.presentationModes ≠ []

abbrev VK_SHARING_MODE_EXCLUSIVE : Nat := 0
abbrev VK_SHARING_MODE_CONCURRENT : Nat := 1

/-- The sharing fields of `VkSwapchainCreateInfoKHR`. -/
structure SwapChainSharing where
  imageSharingMode : Nat
  queueFamilyIndexCount : Nat
  pQueueFamilyIndices : List Nat
deriving DecidableEq, Repr

/-- The sharing-mode part of `VulkanApp::CreateSwapChain`.  The first argument
is the class member `queueFamilyDesc`; the value `FindQueueFamilies` returns
here is not stored anywhere. -/
def CreateSwapChain.sharing (queueFamilyDesc : QueueFamilyDesc)
    (mPhysicalDevice : PhysicalDevice) : SwapChainSharing :=
  let _ := FindQueueFamilies mPhysicalDevice
  let queueFamilyIndices : List Nat :=
    [toUInt32 queueFamilyDesc.graphicsFamily, toUInt32 queueFamilyDesc.presentationFamily]
  if queueFamilyDesc.graphicsFamily ≠ queueFamilyDesc.presentationFamily then
    { imageSharingMode := VK_SHARING_MODE_CONCURRENT,
      queueFamilyIndexCount := 2,
      pQueueFamilyIndices := queueFamilyIndices }
  else
    { imageSharingMode := VK_SHARING_MODE_EXCLUSIVE,
      queueFamilyIndexCount := 0,
      pQueueFamilyIndices := [] }

/-- The class member `VulkanApp::queueFamilyDesc`: default-initialised, and
assigned by no statement of the class (every other `queueFamilyDesc` in
`VulkanApp.cpp` is a local variable). -/
def VulkanApp.queueFamilyDesc : QueueFamilyDesc := {}

abbrev VK_STRUCTURE_TYPE_DEVICE_QUEUE_CREATE_INFO : Nat := 2

/-- The fields of `VkDeviceQueueCreateInfo` that `CreateLogicalDevice` sets
after clearing the entry; `pQueuePriorities` is the pointed-to priority list
(the single priority `1.f`). -/
structure VkDeviceQueueCreateInfo where
  sType : Nat
  queueFamilyIndex : Nat
  queueCount : Nat
  pQueuePriorities : List Nat
deriving DecidableEq, Repr

/-- The `std::set<int>` built from the two family indices, in iteration order. -/
def CreateLogicalDevice.uniqueQueueFamilies (queueFamilyDesc : QueueFamilyDesc) : List Int :=
  if queueFamilyDesc.graphicsFamily = queueFamilyDesc.presentationFamily then
    [queueFamilyDesc.graphicsFamily]
  else if queueFamilyDesc.graphicsFamily < queueFamilyDesc.presentationFamily then
    [queueFamilyDesc.graphicsFamily, queueFamilyDesc.presentationFamily]
  else
    [queueFamilyDesc.presentationFamily, queueFamilyDesc.graphicsFamily]

/-- The heap block `new VkDeviceQueueCreateInfo[n]`: `slots` are its `n`
entries (`none` while not written), `outOfBounds` the writes that fall outside
the block, with the index they were aimed at. -/
structure QueueCreateBlock where
  slots : List (Option VkDeviceQueueCreateInfo)
  outOfBounds : List (Int × VkDeviceQueueCreateInfo)
deriving DecidableEq, Repr

/-- The loop of `CreateLogicalDevice` that fills the queue-create array: the
entry for family `queueFamily` is written at index `queueFamily`. -/
def CreateLogicalDevice.queueCreateInfos (queueFamilyDesc : QueueFamilyDesc) : QueueCreateBlock :=
  let uniqueQueueFamies := CreateLogicalDevice.uniqueQueueFamilies queueFamilyDesc
  uniqueQueueFamies.foldl
    (fun block queueFamily =>
      let info : VkDeviceQueueCreateInfo :=
        { sType := VK_STRUCTURE_TYPE_DEVICE_QUEUE_CREATE_INFO,
          queueFamilyIndex := toUInt32 queueFamily,
          queueCount := 1,
          pQueuePriorities := [1] }
      if 0 ≤ queueFamily ∧ queueFamily.toNat < block.slots.length then
        { block with slots := block.slots.set queueFamily.toNat (some info) }
      else
        { block with outOfBounds := block.outOfBounds ++ [(queueFamily, info)] })
    { slots := List.replicate uniqueQueueFamies.length none, outOfBounds := [] }

/-- An adapter whose family 0 is graphics-only and whose family 1 can only
present. -/
def splitFamiliesDevice : PhysicalDevice :=
  { queueFamilies :=
      [{ queueFlags := VK_QUEUE_GRAPHICS_BIT, queueCount := 1, presentationSupport := false },
       { queueFlags := VK_QUEUE_TRANSFER_BIT, queueCount := 1, presentationSupport := true }],
    extensions := ["VK_KHR_swapchain"],
    formats := [⟨VK_FORMAT_B8G8R8A8_UNORM, VK_COLOR_SPACE_SRGB_NONLINEAR_KHR⟩],
    presentationModes := [VK_PRESENT_MODE_FIFO_KHR] }

/-- An adapter whose family 0 is compute-only and whose family 1 does both
graphics and presentation. -/
def secondFamilyDevice : PhysicalDevice :=
  { queueFamilies :=
      [{ queueFlags := VK_QUEUE_COMPUTE_BIT, queueCount := 1, presentationSupport := false },
       { queueFlags := VK_QUEUE_GRAPHICS_BIT, queueCount := 1, presentationSupport := true }],
    extensions := ["VK_KHR_swapchain"],
    formats := [⟨VK_FORMAT_B8G8R8A8_UNORM, VK_COLOR_SPACE_SRGB_NONLINEAR_KHR⟩],
    presentationModes := [VK_PRESENT_MODE_FIFO_KHR] }

/-- An adapter that lacks the swap-chain extension. -/
def headlessDevice : PhysicalDevice :=
  { queueFamilies :=
      [{ queueFlags := VK_QUEUE_GRAPHICS_BIT, queueCount := 1, presentationSupport := true }],
    extensions := [],
    formats := [⟨VK_FORMAT_B8G8R8A8_UNORM, VK_COLOR_SPACE_SRGB_NONLINEAR_KHR⟩],
    presentationModes := [VK_PRESENT_MODE_FIFO_KHR] }

/-! ## The swap chain and the objects derived from it (`VulkanApp.cpp`) -/

abbrev VK_NULL_HANDLE : Nat := 0

/-- `std::vector::resize(n, value)`. -/
def vectorResize {α : Type} (v : List α) (n : Nat) (value : α) : List α :=
  v.take n ++ List.replicate (n - v.length) value

/-- The platform calls made on swap-chain handles. -/
inductive ChainCall where
  | vkCreateSwapchainKHR (oldSwapchain : Nat)
  | vkDestroySwapchainKHR (swapchain : Nat)
deriving DecidableEq, Repr

/-- The members of `VulkanApp` that hold the chain and the per-image objects,
with the log of swap-chain calls made so far.  Handles are numbers, `0` being
`VK_NULL_HANDLE`. -/
structure ChainState where
  mSwapChain : Nat
  mSwapChainImages : List Nat
  mSwapChainImageViews : List Nat
  mFramebuffers : List Nat
  calls : List ChainCall
deriving DecidableEq, Repr

/-- The steps of start-up and rebuild that do not touch the members of
`ChainState`. -/
inductive OtherStep where
  | CreateRenderPass
  | CreateDescriptorSetLayout
  | LoadMesh
  | CreateGraphicsPipeline
  | SetupDepthBufferingResources
  | CreateUniformBuffer
  | CreateDescriptorPool
  | CreateDescriptorSet
  | CreateCommandBuffers
  | CreateSemaphores
deriving DecidableEq, Repr

/-- What the platform answers while the chain is built once: the result and
handle of `vkCreateSwapchainKHR`, the images `vkGetSwapchainImagesKHR` returns,
the result and handle of each `vkCreateImageView` and `vkCreateFramebuffer`
(by index), and which of the other steps throw. -/
structure ChainPlatform where
  createSwapchainResult : VkResult
  newSwapChain : Nat
  swapchainImages : List Nat
  createImageViewResult : Nat → VkResult
  imageView : Nat → Nat
  createFramebufferResult : Nat → VkResult
  framebuffer : Nat → Nat
  stepThrows : OtherStep → Bool

/-- The state of a freshly constructed `VulkanApp`: null chain, empty vectors. -/
def ChainState.initial : ChainState :=
  { mSwapChain := VK_NULL_HANDLE, mSwapChainImages := [], mSwapChainImageViews := [],
    mFramebuffers := [], calls := [] }

/-- The tail of `VulkanApp::CreateSwapChain` from `oldSwapChain = mSwapChain`
on.  `*&mSwapChain = newSwapChain` goes through `VulkanDeleter::operator&`,
whose `Cleanup` destroys a non-null held object before the new handle is
stored.  The result carries the state also when the function throws. -/
def CreateSwapChain.chain (platform : ChainPlatform) (st : ChainState) :
    Except String Unit × ChainState :=
  let oldSwapChain := st.mSwapChain
  let calls := st.calls ++ [ChainCall.vkCreateSwapchainKHR oldSwapChain]
  if platform.createSwapchainResult ≠ 0 then
    (Except.error "Failed to create swap chain!", { st with calls := calls })
  else
    let calls :=
      if st.mSwapChain ≠ VK_NULL_HANDLE then
        calls ++ [ChainCall.vkDestroySwapchainKHR st.mSwapChain]
      else calls
    (Except.ok (),
      { st with
        mSwapChain := platform.newSwapChain,
        mSwapChainImages := platform.swapchainImages,
        calls := calls })

/-- The creation loop of `CreateSwapChainImageViews` from index `i` on. -/
def CreateSwapChainImageViews.loop (platform : ChainPlatform) :
    Nat → Nat → List Nat → Except String (List Nat)
  | 0, _, views => Except.ok views
  | remaining + 1, i, views =>
    if platform.createImageViewResult i ≠ VK_SUCCESS then
      Except.error "Failed to create texture image view!"
    else
      CreateSwapChainImageViews.loop platform remaining (i + 1)
        (views.set i (platform.imageView i))

/-- `VulkanApp::CreateSwapChainImageViews`. -/
def CreateSwapChainImageViews (platform : ChainPlatform) (st : ChainState) :
    Except String ChainState :=
  let views := vectorResize st.mSwapChainImageViews st.mSwapChainImages.length VK_NULL_HANDLE
  match CreateSwapChainImageViews.loop platform st.mSwapChainImages.length 0 views with
  | Except.error e => Except.error e
  | Except.ok views => Except.ok { st with mSwapChainImageViews := views }

/-- The creation loop of `CreateFramebuffers` from index `i` on. -/
def CreateFramebuffers.loop (platform : ChainPlatform) :
    Nat → Nat → List Nat → Except String (List Nat)
  | 0, _, framebuffers => Except.ok framebuffers
  | remaining + 1, i, framebuffers =>
    if platform.createFramebufferResult i ≠ VK_SUCCESS then
      Except.error "Failed to create framebuffer!"
    else
      CreateFramebuffers.loop platform remaining (i + 1)
        (framebuffers.set i (platform.framebuffer i))

/-- `VulkanApp::CreateFramebuffers`. -/
def CreateFramebuffers (platform : ChainPlatform) (st : ChainState) :
    Except String ChainState :=
  let framebuffers := vectorResize st.mFramebuffers st.mSwapChainImageViews.length VK_NULL_HANDLE
  match CreateFramebuffers.loop platform st.mSwapChainImageViews.length 0 framebuffers with
  | Except.error e => Except.error e
  | Except.ok framebuffers => Except.ok { st with mFramebuffers := framebuffers }

/-- A step that leaves `ChainState` alone and may throw. -/
def otherStep (platform : ChainPlatform) (step : OtherStep) (st : ChainState) :
    Except String ChainState :=
  if platform.stepThrows step = true then Except.error "creation step failed" else Except.ok st

/-- `CreateSwapChain` as a step of a larger sequence: a throw ends the sequence. -/
def CreateSwapChain.step (platform : ChainPlatform) (st : ChainState) : Except String ChainState :=
  match CreateSwapChain.chain platform st with
  | (Except.error e, _) => Except.error e
  | (Except.ok _, st) => Except.ok st

/-- `VulkanApp::RecreateSwapChain` on the chain members. -/
def RecreateSwapChain.chain (platform : ChainPlatform) (st : ChainState) :
    Except String ChainState :=
  CreateSwapChain.step platform st >>=
  CreateSwapChainImageViews platform >>=
  otherStep platform OtherStep.CreateRenderPass >>=
  otherStep platform OtherStep.CreateGraphicsPipeline >>=
  otherStep platform OtherStep.SetupDepthBufferingResources >>=
  CreateFramebuffers platform >>=
  otherStep platform OtherStep.CreateCommandBuffers

/-- `VulkanApp::InitVulkan` on the chain members, from `CreateSwapChain` on
(the device set-up before it does not touch them). -/
def InitVulkan.chain (platform : ChainPlatform) (st : ChainState) : Except String ChainState :=
  CreateSwapChain.step platform st >>=
  CreateSwapChainImageViews platform >>=
  otherStep platform OtherStep.CreateRenderPass >>=
  otherStep platform OtherStep.CreateDescriptorSetLayout >>=
  otherStep platform OtherStep.LoadMesh >>=
  otherStep platform OtherStep.CreateGraphicsPipeline >>=
  otherStep platform OtherStep.SetupDepthBufferingResources >>=
  CreateFramebuffers platform >>=
  otherStep platform OtherStep.CreateUniformBuffer >>=
  otherStep platform OtherStep.CreateDescriptorPool >>=
  otherStep platform OtherStep.CreateDescriptorSet >>=
  otherStep platform OtherStep.CreateCommandBuffers >>=
  otherStep platform OtherStep.CreateSemaphores

/-- A sequence of rebuilds, one platform answer per rebuild. -/
def rebuildSequence : List ChainPlatform → ChainState → Except String ChainState
  | [], st => Except.ok st
  | platform :: rest, st => RecreateSwapChain.chain platform st >>= rebuildSequence rest

/-- Start-up followed by a sequence of rebuilds. -/
def startThenRebuild (first : ChainPlatform) (rebuilds : List ChainPlatform) :
    Except String ChainState :=
  InitVulkan.chain first ChainState.initial >>= rebuildSequence rebuilds

/-- Framebuffers, image views and presentable images are equal in number. -/
def ChainState.countsAgree (st : ChainState) : Prop :=
  st.mFramebuffers.length = st.mSwapChainImageViews.length ∧
  st.mSwapChainImageViews.length = st.mSwapChainImages.length

/-- No call answered by `platform` fails. -/
def ChainPlatform.succeeds (platform : ChainPlatform) : Prop :=
  platform.createSwapchainResult = VK_SUCCESS ∧
  (∀ i, platform.createImageViewResult i = VK_SUCCESS) ∧
  (∀ i, platform.createFramebufferResult i = VK_SUCCESS) ∧
  (∀ step, platform.stepThrows step = false)

/-- A platform on which everything succeeds and the chain has `n` images. -/
def ChainPlatform.withImages (chain n : Nat) : ChainPlatform :=
  { createSwapchainResult := VK_SUCCESS, newSwapChain := chain,
    swapchainImages := (List.range n).map (fun i => 100 + i),
    createImageViewResult := fun _ => VK_SUCCESS, imageView := fun i => 200 + i,
    createFramebufferResult := fun _ => VK_SUCCESS, framebuffer := fun i => 300 + i,
    stepThrows := fun _ => false }

/-! ## Descriptor layout and descriptor writes (`VulkanApp.cpp`, `Material.hpp`) -/

abbrev VK_DESCRIPTOR_TYPE_COMBINED_IMAGE_SAMPLER : Nat := 1
abbrev VK_DESCRIPTOR_TYPE_UNIFORM_BUFFER : Nat := 6
abbrev VK_SHADER_STAGE_VERTEX_BIT : Nat := 0x1
abbrev VK_SHADER_STAGE_FRAGMENT_BIT : Nat := 0x10
abbrev VK_STRUCTURE_TYPE_WRITE_DESCRIPTOR_SET : Nat := 35

/-- What `CreateDescriptorSet` reads from a `Texture`: its image view and its
sampler. -/
structure Texture where
  imageView : Nat
  sampler : Nat
deriving DecidableEq, Repr

/-- The texture vectors of `Material` (`Material.hpp`). -/
structure Material where
  diffuseMaps : List Texture
  normalMaps : List Texture
  specularMaps : List Texture
deriving DecidableEq, Repr

/-- `Material::GetTextureCount`, an `unsigned int`. -/
def Material.GetTextureCount (mat : Material) : Nat :=
  (mat.diffuseMaps.length + mat.normalMaps.length + mat.specularMaps.length) % 2 ^ 32

structure VkDescriptorImageInfo where
  sampler : Nat
  imageView : Nat
  imageLayout : VkImageLayout
deriving DecidableEq, Repr

structure VkDescriptorSetLayoutBinding where
  binding : Nat
  descriptorType : Nat
  descriptorCount : Nat
  stageFlags : Nat
deriving DecidableEq, Repr

/-- The array `bindings` that `CreateDescriptorSetLayout` hands to
`vkCreateDescriptorSetLayout`.  The three sampler counts are the literal `2`
of the source. -/
def CreateDescriptorSetLayout.bindings : List VkDescriptorSetLayoutBinding :=
  let uboLayoutBinding : VkDescriptorSetLayoutBinding :=
    { binding := 0, descriptorType := VK_DESCRIPTOR_TYPE_UNIFORM_BUFFER,
      descriptorCount := 1, stageFlags := VK_SHADER_STAGE_VERTEX_BIT }
  let samplerBinding0 : VkDescriptorSetLayoutBinding :=
    { binding := 1, descriptorCount := 2,
      descriptorType := VK_DESCRIPTOR_TYPE_COMBINED_IMAGE_SAMPLER,
      stageFlags := VK_SHADER_STAGE_FRAGMENT_BIT }
  let samplerBinding1 : VkDescriptorSetLayoutBinding :=
    { binding := 2, descriptorCount := 2,
      descriptorType := VK_DESCRIPTOR_TYPE_COMBINED_IMAGE_SAMPLER,
      stageFlags := VK_SHADER_STAGE_FRAGMENT_BIT }
  let samplerBinding2 : VkDescriptorSetLayoutBinding :=
    { binding := 3, descriptorCount := 2,
      descriptorType := VK_DESCRIPTOR_TYPE_COMBINED_IMAGE_SAMPLER,
      stageFlags := VK_SHADER_STAGE_FRAGMENT_BIT }
  let directionalLightBinding : VkDescriptorSetLayoutBinding :=
    { binding := 4, descriptorCount := 1,
      descriptorType := VK_DESCRIPTOR_TYPE_UNIFORM_BUFFER,
      stageFlags := VK_SHADER_STAGE_FRAGMENT_BIT }
  [uboLayoutBinding, samplerBinding0, samplerBinding1, samplerBinding2, directionalLightBinding]

/-- The layout in the words of the specification: the three sampler arrays
sized to the material's diffuse, normal and specular map counts. -/
def materialSizedLayout (mat : Material) : List VkDescriptorSetLayoutBinding :=
  [{ binding := 0, descriptorType := VK_DESCRIPTOR_TYPE_UNIFORM_BUFFER,
     descriptorCount := 1, stageFlags := VK_SHADER_STAGE_VERTEX_BIT },
   { binding := 1, descriptorType := VK_DESCRIPTOR_TYPE_COMBINED_IMAGE_SAMPLER,
     descriptorCount := mat.diffuseMaps.length, stageFlags := VK_SHADER_STAGE_FRAGMENT_BIT },
   { binding := 2, descriptorType := VK_DESCRIPTOR_TYPE_COMBINED_IMAGE_SAMPLER,
     descriptorCount := mat.normalMaps.length, stageFlags := VK_SHADER_STAGE_FRAGMENT_BIT },
   { binding := 3, descriptorType := VK_DESCRIPTOR_TYPE_COMBINED_IMAGE_SAMPLER,
     descriptorCount := mat.specularMaps.length, stageFlags := VK_SHADER_STAGE_FRAGMENT_BIT },
   { binding := 4, descriptorType := VK_DESCRIPTOR_TYPE_UNIFORM_BUFFER,
     descriptorCount := 1, stageFlags := VK_SHADER_STAGE_FRAGMENT_BIT }]

/-- The entry `CreateDescriptorSet` stores for one texture. -/
def CreateDescriptorSet.imageInfo (texture : Texture) : VkDescriptorImageInfo :=
  { imageLayout := VK_IMAGE_LAYOUT_SHADER_READ_ONLY_OPTIMAL,
    imageView := texture.imageView,
    sampler := texture.sampler }

/-- The vector `descImageInfo`, the running index `descIndex`, and the
positions written so far, in order. -/
structure ImageInfoFill where
  descImageInfo : List VkDescriptorImageInfo
  descIndex : Nat
  written : List Nat
deriving DecidableEq, Repr

/-- One of the three fill loops of `CreateDescriptorSet`: each texture of
`maps`, in order, is stored at `descIndex`, which is then incremented. -/
def CreateDescriptorSet.fillMaps (maps : List Texture) (fill : ImageInfoFill) : ImageInfoFill :=
  maps.foldl
    (fun fill texture =>
      { descImageInfo := fill.descImageInfo.set fill.descIndex (CreateDescriptorSet.imageInfo texture),
        descIndex := (fill.descIndex + 1) % 2 ^ 32,
        written := fill.written ++ [fill.descIndex] })
    fill

/-- The image-info part of `CreateDescriptorSet`: the vector is resized to
`GetTextureCount()` and filled with the diffuse, normal and specular maps. -/
def CreateDescriptorSet.imageInfos (mat : Material) : ImageInfoFill :=
  let descImageInfo : List VkDescriptorImageInfo :=
    vectorResize [] mat.GetTextureCount { sampler := 0, imageView := 0, imageLayout := 0 }
  let fill : ImageInfoFill := { descImageInfo := descImageInfo, descIndex := 0, written := [] }
  let fill := CreateDescriptorSet.fillMaps mat.diffuseMaps fill
  let fill := CreateDescriptorSet.fillMaps mat.normalMaps fill
  CreateDescriptorSet.fillMaps mat.specularMaps fill

/-- The two buffer-info records `CreateDescriptorSet` points at. -/
inductive BufferInfoRef where
  | descBufferInfo
  | directionalLightDescBufferInfo
deriving DecidableEq, Repr

/-- One `VkWriteDescriptorSet`; `pImageInfo` is the position in
`descImageInfo` the pointer is aimed at. -/
structure VkWriteDescriptorSet where
  sType : Nat
  dstBinding : Nat
  dstArrayElement : Nat
  descriptorType : Nat
  descriptorCount : Nat
  pBufferInfo : Option BufferInfoRef
  pImageInfo : Option Nat
deriving DecidableEq, Repr

/-- The array `writeDescSets` of `CreateDescriptorSet`. -/
def CreateDescriptorSet.writeDescSets (mat : Material) : List VkWriteDescriptorSet :=
  let diffuseMapCount := mat.diffuseMaps.length
  let normalMapCount := mat.normalMaps.length
  let specularMapCount := mat.specularMaps.length
  [{ sType := VK_STRUCTURE_TYPE_WRITE_DESCRIPTOR_SET, dstBinding := 0, dstArrayElement := 0,
     descriptorType := VK_DESCRIPTOR_TYPE_UNIFORM_BUFFER, descriptorCount := 1,
     pBufferInfo := some BufferInfoRef.descBufferInfo, pImageInfo := none },
   { sType := VK_STRUCTURE_TYPE_WRITE_DESCRIPTOR_SET, dstBinding := 1, dstArrayElement := 0,
     descriptorType := VK_DESCRIPTOR_TYPE_COMBINED_IMAGE_SAMPLER,
     descriptorCount := diffuseMapCount % 2 ^ 32,
     pBufferInfo := none, pImageInfo := some 0 },
   { sType := VK_STRUCTURE_TYPE_WRITE_DESCRIPTOR_SET, dstBinding := 2, dstArrayElement := 0,
     descriptorType := VK_DESCRIPTOR_TYPE_COMBINED_IMAGE_SAMPLER,
     descriptorCount := normalMapCount % 2 ^ 32,
     pBufferInfo := none, pImageInfo := some diffuseMapCount },
   { sType := VK_STRUCTURE_TYPE_WRITE_DESCRIPTOR_SET, dstBinding := 3, dstArrayElement := 0,
     descriptorType := VK_DESCRIPTOR_TYPE_COMBINED_IMAGE_SAMPLER,
     descriptorCount := specularMapCount % 2 ^ 32,
     pBufferInfo := none, pImageInfo := some (diffuseMapCount + normalMapCount) },
   { sType := VK_STRUCTURE_TYPE_WRITE_DESCRIPTOR_SET, dstBinding := 4, dstArrayElement := 0,
     descriptorType := VK_DESCRIPTOR_TYPE_UNIFORM_BUFFER, descriptorCount := 1,
     pBufferInfo := some BufferInfoRef.directionalLightDescBufferInfo, pImageInfo := none }]

/-- The `(binding, offset into descImageInfo, count)` triples of the three
image-array writes. -/
def CreateDescriptorSet.imageWrites (mat : Material) : List (Nat × Nat × Nat) :=
  (CreateDescriptorSet.writeDescSets mat).filterMap fun w =>
    match w.pImageInfo with
    | some offset => some (w.dstBinding, offset, w.descriptorCount)
    | none => none

/-- A material with two maps of each kind (the barrel model). -/
def barrelMaterial : Material :=
  { diffuseMaps := [⟨11, 21⟩, ⟨12, 22⟩],
    normalMaps := [⟨13, 23⟩, ⟨14, 24⟩],
    specularMaps := [⟨15, 25⟩, ⟨16, 26⟩] }

/-- A material with a single diffuse map. -/
def singleMapMaterial : Material :=
  { diffuseMaps := [⟨11, 21⟩], normalMaps := [], specularMaps := [] }

/-! ## The one-shot transfer command buffer (`VulkanHelpers.cpp`, `VulkanApp.cpp`) -/

abbrev VK_ERROR_OUT_OF_HOST_MEMORY : VkResult := -1

/-- The life-cycle states of a Vulkan command buffer. -/
inductive CommandBufferState where
  | initial
  | recording
  | executable
  | pending
  | invalid
deriving DecidableEq, Repr

/-- The calls made on the one-shot handle and its queue.  `vkCmd` stands for a
copy or barrier command; it carries the state the handle was in when the
command was appended. -/
inductive TransferCall where
  | vkAllocateCommandBuffers
  | vkBeginCommandBuffer
  | vkEndCommandBuffer
  | vkQueueSubmit
  | vkQueueWaitIdle
  | vkResetCommandBuffer
  | vkCmd (stateAtAppend : CommandBufferState)
deriving DecidableEq, Repr

/-- The one-shot handle: its life-cycle state and the calls made so far. -/
structure SetupHandle where
  state : CommandBufferState
  calls : List TransferCall
deriving DecidableEq, Repr

/-- Platform behaviour of `vkBeginCommandBuffer` (the pool allows implicit
reset): on success a handle that is neither recording nor pending starts
recording; otherwise the state is left as it was. -/
def vkBeginCommandBuffer (result : VkResult) (h : SetupHandle) : SetupHandle :=
  { state :=
      if result = VK_SUCCESS ∧ h.state ≠ CommandBufferState.recording ∧
          h.state ≠ CommandBufferState.pending then CommandBufferState.recording
      else h.state,
    calls := h.calls ++ [TransferCall.vkBeginCommandBuffer] }

/-- Platform behaviour of `vkEndCommandBuffer`: a recording handle becomes
executable on success and invalid on failure. -/
def vkEndCommandBuffer (result : VkResult) (h : SetupHandle) : SetupHandle :=
  { state :=
      if h.state = CommandBufferState.recording then
        (if result = VK_SUCCESS then CommandBufferState.executable
         else CommandBufferState.invalid)
      else h.state,
    calls := h.calls ++ [TransferCall.vkEndCommandBuffer] }

/-- Platform behaviour of `vkQueueSubmit`: on success an executable handle
becomes pending. -/
def vkQueueSubmit (result : VkResult) (h : SetupHandle) : SetupHandle :=
  { state :=
      if result = VK_SUCCESS ∧ h.state = CommandBufferState.executable then
        CommandBufferState.pending
      else h.state,
    calls := h.calls ++ [TransferCall.vkQueueSubmit] }

/-- Platform behaviour of `vkQueueWaitIdle`: on success the queue has drained,
and a pending one-time-submit handle has finished executing (it is invalid
until reset). -/
def vkQueueWaitIdle (result : VkResult) (h : SetupHandle) : SetupHandle :=
  { state :=
      if result = VK_SUCCESS ∧ h.state = CommandBufferState.pending then
        CommandBufferState.invalid
      else h.state,
    calls := h.calls ++ [TransferCall.vkQueueWaitIdle] }

/-- Platform behaviour of `vkResetCommandBuffer`: on success a handle that is
not pending returns to the initial state. -/
def vkResetCommandBuffer (result : VkResult) (h : SetupHandle) : SetupHandle :=
  { state :=
      if result = VK_SUCCESS ∧ h.state ≠ CommandBufferState.pending then
        CommandBufferState.initial
      else h.state,
    calls := h.calls ++ [TransferCall.vkResetCommandBuffer] }

/-- A copy or barrier command appended to the handle (`vkCmdCopyBuffer`,
`vkCmdCopyImage`, `vkCmdPipelineBarrier`). -/
def vkCmd (h : SetupHandle) : SetupHandle :=
  { h with calls := h.calls ++ [TransferCall.vkCmd h.state] }

/-- The results the platform returns to the five calls of one flush. -/
structure FlushResults where
  endResult : VkResult
  submitResult : VkResult
  waitIdleResult : VkResult
  resetResult : VkResult
  beginResult : VkResult
deriving DecidableEq, Repr

/-- `CreateCommandBuffer` of `VulkanHelpers.cpp`, and `PrepSetupCommandBuffer`
of `VulkanApp.cpp`, which has the same body: allocation is checked, the result
of `vkBeginCommandBuffer` is not. -/
def CreateCommandBuffer (allocateResult beginResult : VkResult) : Except String SetupHandle :=
  if allocateResult ≠ VK_SUCCESS then
    Except.error "Failed to allocate the SETUP command buffer!"
  else
    let commandBuffer : SetupHandle :=
      { state := CommandBufferState.initial, calls := [TransferCall.vkAllocateCommandBuffers] }
    Except.ok (vkBeginCommandBuffer beginResult commandBuffer)

/-- `FlushAndResetCommandBuffer` of `VulkanHelpers.cpp`, and
`VulkanApp::FlushSetupCommandBuffer`, which has the same body on the members
`mSetupCommandBuffer` and `mGraphicsQueue`.  Only the results of
`vkEndCommandBuffer` and `vkResetCommandBuffer` are inspected. -/
def FlushAndResetCommandBuffer (results : FlushResults) (commandBuffer : SetupHandle) :
    Except String Unit × SetupHandle :=
  let commandBuffer := vkEndCommandBuffer results.endResult commandBuffer
  if results.endResult ≠ VK_SUCCESS then
    (Except.error "Failed to create the SETUP command buffer!", commandBuffer)
  else
    let commandBuffer := vkQueueSubmit results.submitResult commandBuffer
    let commandBuffer := vkQueueWaitIdle results.waitIdleResult commandBuffer
    let commandBuffer := vkResetCommandBuffer results.resetResult commandBuffer
    if results.resetResult ≠ VK_SUCCESS then
      (Except.error "Failed to reset the SETUP command buffer!", commandBuffer)
    else
      (Except.ok (), vkBeginCommandBuffer results.beginResult commandBuffer)

/-- What a client of the transfer channel does with the handle: append a
command, or flush. -/
inductive TransferOp where
  | append
  | flush (results : FlushResults)
deriving DecidableEq, Repr

/-- A sequence of appends and flushes on the handle; a throwing flush ends it. -/
def runTransfer : List TransferOp → SetupHandle → Except String Unit × SetupHandle
  | [], h => (Except.ok (), h)
  | TransferOp.append :: rest, h => runTransfer rest (vkCmd h)
  | TransferOp.flush results :: rest, h =>
    match FlushAndResetCommandBuffer results h with
    | (Except.error e, h) => (Except.error e, h)
    | (Except.ok _, h) => runTransfer rest h

/-- The calls whose result the flush does not inspect all succeed. -/
def FlushResults.uncheckedSucceed (results : FlushResults) : Prop :=
  results.submitResult = VK_SUCCESS ∧ results.waitIdleResult = VK_SUCCESS ∧
    results.beginResult = VK_SUCCESS

/-- In every flush of the sequence the unchecked calls succeed. -/
def TransferOp.uncheckedSucceed : TransferOp → Prop
  | TransferOp.append => True
  | TransferOp.flush results => results.uncheckedSucceed

/-- Every command appended so far found the handle recording. -/
def SetupHandle.appendsWhileRecording (h : SetupHandle) : Prop :=
  ∀ s, TransferCall.vkCmd s ∈ h.calls → s = CommandBufferState.recording

/-- A flush in which every call succeeds. -/
def FlushResults.allSuccess : FlushResults :=
  { endResult := VK_SUCCESS, submitResult := VK_SUCCESS, waitIdleResult := VK_SUCCESS,
    resetResult := VK_SUCCESS, beginResult := VK_SUCCESS }

/-- The handle right after a creation in which both calls succeeded. -/
def SetupHandle.fresh : SetupHandle :=
  { state := CommandBufferState.recording,
    calls := [TransferCall.vkAllocateCommandBuffers, TransferCall.vkBeginCommandBuffer] }

/-! ## Writing to buffer memory (`XOF_Buffer.cpp`) -/

/-- A device memory allocation: its bytes, and whether its memory type is
host-visible. -/
structure DeviceMemory where
  bytes : List Nat
  hostVisible : Bool
deriving DecidableEq, Repr

abbrev VK_ERROR_MEMORY_MAP_FAILED : VkResult := -5

/-- Platform behaviour of `vkMapMemory`: the window `[offset, offset + size)`
of the allocation, provided the call succeeds, the memory is host-visible and
the window lies inside the allocation. -/
def vkMapMemory (result : VkResult) (memory : DeviceMemory) (offset size : Nat) :
    Option (List Nat) :=
  if result = VK_SUCCESS ∧ memory.hostVisible = true ∧ offset + size ≤ memory.bytes.length then
    some ((memory.bytes.drop offset).take size)
  else none

/-- `memcpy(dst, src, n)` on byte lists, defined when both hold `n` bytes. -/
def memcpy (dst src : List Nat) (n : Nat) : Option (List Nat) :=
  if n ≤ dst.length ∧ n ≤ src.length then some (src.take n ++ dst.drop n) else none

/-- `Buffer::WriteToBufferMemory`: the mapped region as it reads before the
unmap, and the memory after it.  The result of `vkMapMemory` is not inspected
by the source; when no mapping is produced the copy has no defined outcome
(`none`).  The mapping is coherent: the window is the memory itself. -/
def WriteToBufferMemory (mapResult : VkResult) (mBufferMemory : DeviceMemory)
    (data : List Nat) (size : Nat) : Option (List Nat × DeviceMemory) :=
  match vkMapMemory mapResult mBufferMemory 0 size with
  | none => none
  | some mappedRange =>
    match memcpy mappedRange data size with
    | none => none
    | some mappedRange =>
      some (mappedRange,
        { mBufferMemory with bytes := mappedRange ++ mBufferMemory.bytes.drop size })

/-! ## The handle wrapper `VulkanDeleter` and the `Buffer` that uses it
(`VulkanHelpers.hpp`, `XOF_Buffer.hpp`) -/

/-- The destroy functions installed as deleters. -/
inductive DeleteFn where
  | vkDestroyBuffer
  | vkFreeMemory
  | vkDestroyImage
  | vkDestroyImageView
  | vkDestroySwapchainKHR
deriving DecidableEq, Repr

/-- One invocation `mDeleter(mObject)`. -/
structure ReleaseCall where
  deleter : DeleteFn
  object : Nat
deriving DecidableEq, Repr

/-- `VulkanDeleter<T>`: the held handle (`0` is `VK_NULL_HANDLE`) and the
installed deleter. -/
structure VulkanDeleter where
  mObject : Nat
  mDeleter : DeleteFn
deriving DecidableEq, Repr

/-- `VulkanDeleter::Cleanup`: the wrapper afterwards and the release calls made
so far. -/
def VulkanDeleter.Cleanup (d : VulkanDeleter) (released : List ReleaseCall) :
    VulkanDeleter × List ReleaseCall :=
  let released :=
    if d.mObject ≠ VK_NULL_HANDLE then released ++ [{ deleter := d.mDeleter, object := d.mObject }]
    else released
  ({ d with mObject := VK_NULL_HANDLE }, released)

/-- `VulkanDeleter::operator&`: `Cleanup`, then the address of `mObject` is
handed out. -/
def VulkanDeleter.addressOf (d : VulkanDeleter) (released : List ReleaseCall) :
    VulkanDeleter × List ReleaseCall :=
  d.Cleanup released

/-- A creation call that stores `newObject` through the pointer obtained from
`operator&` (`vkCreate...( ..., &wrapper )`). -/
def VulkanDeleter.store (d : VulkanDeleter) (released : List ReleaseCall) (newObject : Nat) :
    VulkanDeleter × List ReleaseCall :=
  let (d, released) := d.addressOf released
  ({ d with mObject := newObject }, released)

/-- `VulkanDeleter::~VulkanDeleter`: the release calls after destruction. -/
def VulkanDeleter.destructor (d : VulkanDeleter) (released : List ReleaseCall) :
    List ReleaseCall :=
  (d.Cleanup released).2

/-- The wrapper members of `Buffer`, in declaration order. -/
structure Buffer where
  mBuffer : VulkanDeleter
  mBufferMemory : VulkanDeleter
deriving DecidableEq, Repr

/-- A `Buffer` after `Buffer::Create`: deleters installed by `Set`, handle and
memory stored. -/
def Buffer.created (buffer memory : Nat) : Buffer :=
  { mBuffer := { mObject := buffer, mDeleter := DeleteFn.vkDestroyBuffer },
    mBufferMemory := { mObject := memory, mDeleter := DeleteFn.vkFreeMemory } }

/-- `Buffer::~Buffer`: the body is empty, then the members are destroyed in
reverse order of declaration, `mBufferMemory` before `mBuffer`. -/
def Buffer.destructor (b : Buffer) (released : List ReleaseCall) : List ReleaseCall :=
  let released := b.mBufferMemory.destructor released
  let released := b.mBuffer.destructor released
  released

/-! ## Debug callback set-up (`VulkanApp.cpp`, `VulkanHelpers.cpp`) -/

abbrev VK_ERROR_EXTENSION_NOT_PRESENT : VkResult := -7

/-- `CreateDebugReportCallbackEXT` of `VulkanHelpers.cpp`.  `func` is what
`vkGetInstanceProcAddr` finds: `none` for a null pointer, otherwise the result
the extension function returns when called. -/
def CreateDebugReportCallbackEXT (func : Option VkResult) : VkResult :=
  match func with
  | some result => result
  | none => VK_ERROR_EXTENSION_NOT_PRESENT

/-- The instance extensions requested by `GetRequiredExtensions`: those of the
window system, and the debug-report extension only when the flag is set. -/
def GetRequiredExtensions (enableValidationLayers : Bool) (glfwExtensions : List String) :
    List String :=
  let extensions := glfwExtensions
  if enableValidationLayers = true then extensions ++ ["VK_EXT_debug_report"] else extensions

/-- `VulkanApp::SetupDebugCallback`: the outcome, and whether the registration
call `CreateDebugReportCallbackEXT` was made. -/
def SetupDebugCallback (enableValidationLayers : Bool) (validationLayerSupport : Bool)
    (func : Option VkResult) : Except String Unit × Bool :=
  if enableValidationLayers = true ∧ ¬ validationLayerSupport = true then
    (Except.error "Validation layers requested but not available!", false)
  else if CreateDebugReportCallbackEXT func ≠ VK_SUCCESS then
    (Except.error "Failed to setup debug callback!", true)
  else
    (Except.ok (), true)

/-! ## Asset loading failures (`XOF_Shader.cpp`, `XOF_Texture.cpp`) -/

/-- `Shader::Load`: the value returned (the new `mIsLoaded`), or the thrown
message.  `fileIsOpen` is `file.is_open()`. -/
def Shader.Load (mIsLoaded : Bool) (fileIsOpen : Bool) (createModuleResult : VkResult) :
    Except String Bool :=
  if mIsLoaded = true then Except.ok mIsLoaded
  else if ¬ fileIsOpen = true then Except.error "Failed to open shader file!"
  else if createModuleResult ≠ VK_SUCCESS then Except.error "Failed to create shader module!"
  else Except.ok true

/-- `Texture::CreateTextureImage`.  `pixelsLoaded` says whether `stbi_load`
returned data; `uploadThrows` whether a later step of the upload throws.  When
no data was returned the source executes `return false;`, which stands before
the `throw`. -/
def Texture.CreateTextureImage (pixelsLoaded : Bool) (uploadThrows : Bool) : Except String Bool :=
  if ¬ pixelsLoaded = true then Except.ok false
  else if uploadThrows = true then Except.error "Failed to create image!"
  else Except.ok true

/-- `Texture::Create`, as called by the constructor `Texture(ImageDesc&)`: the
value stored in `mIsLoaded`, or the thrown message. -/
def Texture.Create (pixelsLoaded uploadThrows : Bool) (createViewResult createSamplerResult : VkResult) :
    Except String Bool :=
  match Texture.CreateTextureImage pixelsLoaded uploadThrows with
  | Except.error e => Except.error e
  | Except.ok false => Except.ok false
  | Except.ok true =>
    if createViewResult ≠ VK_SUCCESS then Except.error "Failed to create texture image view!"
    else if createSamplerResult ≠ VK_SUCCESS then Except.error "Failed to create texture sampler!"
    else Except.ok true

/-! ## Process entry and resize notification (`main.cpp`, `VulkanApp.cpp`) -/

/-- `main`: the exit code and what is written to standard error, given how
`app.Run()` ends (`Except.error what` for a thrown `std::runtime_error`). -/
def main (run : Except String Unit) : Int × List String :=
  match run with
  | Except.ok _ => (0, [])
  | Except.error what => (0, [what])

/-- `VulkanApp::OnWindowResized`, on the trace of calls. -/
def OnWindowResized (newWidth newHeight : Int) (throws : Call → Bool) (trace : List Call) :
    Except String Unit × List Call :=
  if newWidth = 0 ∨ newHeight = 0 then (Except.ok (), trace)
  else RecreateSwapChain throws trace

/-- `VulkanApp::OnWindowResized`, on the chain members. -/
def OnWindowResized.chain (newWidth newHeight : Int) (platform : ChainPlatform)
    (st : ChainState) : Except String ChainState :=
  if newWidth = 0 ∨ newHeight = 0 then Except.ok st
  else RecreateSwapChain.chain platform st

/-- The indices of a `QueueFamilyDesc` that are set point at families of the
list that have queues and the matching capability. -/
def QueueFamilyDesc.validFor (q : QueueFamilyDesc) (families : List QueueFamily) : Prop :=
  (0 ≤ q.graphicsFamily →
    ∃ f, families[q.graphicsFamily.toNat]? = some f ∧
      f.queueCount > 0 ∧ f.queueFlags.testBit 0 = true) ∧
  (0 ≤ q.presentationFamily →
    ∃ f, families[q.presentationFamily.toNat]? = some f ∧
      f.queueCount > 0 ∧ f.presentationSupport = true)

/-! ## Pre-recorded command buffers (`VulkanApp::CreateCommandBuffers`) -/

/-- One entry of `Mesh::mSubMeshes`: `uint32_t baseIndex`, `uint32_t indexCount`,
`int textureIndex`. -/
structure SubMesh where
  baseIndex : Nat
  indexCount : Nat
  textureIndex : Int
deriving DecidableEq, Repr

/-- The commands `CreateCommandBuffers` issues on a command buffer, with the
arguments that vary: the framebuffer of the render pass, the pushed constant,
and the five numeric arguments of `vkCmdDrawIndexed`. -/
inductive RecordedCmd where
  | vkBeginCommandBuffer
  | vkCmdBeginRenderPass (framebuffer : Nat)
  | vkCmdBindPipeline
  | vkCmdBindVertexBuffers
  | vkCmdBindIndexBuffer
  | vkCmdBindDescriptorSets
  | vkCmdPushConstants (value : Int)
  | vkCmdDrawIndexed (indexCount instanceCount firstIndex : Nat) (vertexOffset : Int)
      (firstInstance : Nat)
  | vkCmdEndRenderPass
  | vkEndCommandBuffer
deriving DecidableEq, Repr

/-- The `for (submeshIndex ...)` loop of `CreateCommandBuffers`: for each submesh
a push of its `textureIndex` and an indexed draw of its range. -/
def CreateCommandBuffers.drawSubMeshes : List SubMesh → List RecordedCmd
  | [] => []
  | subMesh :: rest =>
    RecordedCmd.vkCmdPushConstants subMesh.textureIndex ::
    RecordedCmd.vkCmdDrawIndexed subMesh.indexCount 1 subMesh.baseIndex 0 0 ::
    CreateCommandBuffers.drawSubMeshes rest

/-- The commands of one iteration of the recording loop, for the framebuffer
`mFramebuffers[i]`. -/
def CreateCommandBuffers.record (framebuffer : Nat) (subMeshes : List SubMesh) :
    List RecordedCmd :=
  [RecordedCmd.vkBeginCommandBuffer,
   RecordedCmd.vkCmdBeginRenderPass framebuffer,
   RecordedCmd.vkCmdBindPipeline,
   RecordedCmd.vkCmdBindVertexBuffers,
   RecordedCmd.vkCmdBindIndexBuffer,
   RecordedCmd.vkCmdBindDescriptorSets] ++
  CreateCommandBuffers.drawSubMeshes subMeshes ++
  [RecordedCmd.vkCmdEndRenderPass, RecordedCmd.vkEndCommandBuffer]

/-- The loop `for (i = 0; i < mCommandBuffers.size(); ++i)` of
`CreateCommandBuffers`, with `remaining` iterations to go from index `i`. Each
command buffer is the list of commands issued on it; `endResult i` is the
answer of `vkEndCommandBuffer` for buffer `i`. A missing framebuffer reads as
handle `0`. -/
def CreateCommandBuffers.loop (endResult : Nat → VkResult) (subMeshes : List SubMesh)
    (mFramebuffers : List Nat) :
    Nat → Nat → List (List RecordedCmd) → Except String Unit × List (List RecordedCmd)
  | 0, _, mCommandBuffers => (.ok (), mCommandBuffers)
  | remaining + 1, i, mCommandBuffers =>
    let mCommandBuffers := mCommandBuffers.set i
      (mCommandBuffers.getD i [] ++
        CreateCommandBuffers.record (mFramebuffers.getD i 0) subMeshes)
    if endResult i ≠ VK_SUCCESS then
      (.error "Failed to create command buffers!", mCommandBuffers)
    else
      CreateCommandBuffers.loop endResult subMeshes mFramebuffers remaining (i + 1)
        mCommandBuffers

/-- Model of `VulkanApp::CreateCommandBuffers`. The result is the outcome
together with `mCommandBuffers` as the call leaves it. `allocateResult` is the
answer of `vkAllocateCommandBuffers`, which on success fills the resized vector
with fresh command buffers (nothing recorded). -/
def CreateCommandBuffers (allocateResult : VkResult) (endResult : Nat → VkResult)
    (subMeshes : List SubMesh) (mFramebuffers : List Nat)
    (mCommandBuffers : List (List RecordedCmd)) :
    Except String Unit × List (List RecordedCmd) :=
  let mCommandBuffers := vectorResize mCommandBuffers mFramebuffers.length []
  if allocateResult ≠ VK_SUCCESS then
    (.error "Failed to allocate command buffers!", mCommandBuffers)
  else
    let mCommandBuffers := mCommandBuffers.map (fun _ => [])
    CreateCommandBuffers.loop endResult subMeshes mFramebuffers mCommandBuffers.length 0
      mCommandBuffers

/-- A two-material mesh used in examples. -/
def twoSubMeshes : List SubMesh :=
  [{ baseIndex := 0, indexCount := 6, textureIndex := 0 },
   { baseIndex := 6, indexCount := 3, textureIndex := 1 }]

/-- A chain state with three images, views and framebuffers. -/
def threeImageState : ChainState :=
  { mSwapChain := 1, mSwapChainImages := [10, 11, 12], mSwapChainImageViews := [20, 21, 22],
    mFramebuffers := [30, 31, 32], calls := [] }

/-! ## Per-material index ranges (`Mesh::Load`, submesh set-up) -/

/-- The inner `while` loop of the submesh set-up in `Mesh::Load`:
`while (indexCount < material_ids.size() && material_ids[indexCount] == i) ++indexCount;`
with `indexCount` and `i` of type `unsigned int`, so that the `int` id is
converted to unsigned for the comparison. `fuel` bounds the iterations; the
caller passes `material_ids.size()`, which the loop cannot exceed while the
counter does not wrap. -/
def Mesh.Load.advance (material_ids : List Int) (i : Nat) : Nat → Nat → Nat
  | 0, indexCount => indexCount
  | fuel + 1, indexCount =>
    if indexCount < material_ids.length ∧ toUInt32 (material_ids.getD indexCount 0) = i then
      Mesh.Load.advance material_ids i fuel ((indexCount + 1) % 2 ^ 32)
    else indexCount

/-- The `for (i = 0; i < materials.size(); ++i)` loop of the submesh set-up in
`Mesh::Load`, with `remaining` iterations to go: `baseIndex = indexCount * 3`,
`textureIndex = i`, the scan, then `indexCount = indexCount * 3 - baseIndex`,
all in 32-bit unsigned arithmetic. -/
def Mesh.Load.subMeshes (material_ids : List Int) : Nat → Nat → Nat → List SubMesh
  | 0, _, _ => []
  | remaining + 1, i, indexCount =>
    let baseIndex := (indexCount * 3) % 2 ^ 32
    let indexCount := Mesh.Load.advance material_ids i material_ids.length indexCount
    { baseIndex := baseIndex,
      textureIndex := toInt32 i,
      indexCount := ((indexCount * 3) % 2 ^ 32 + 2 ^ 32 - baseIndex) % 2 ^ 32 } ::
      Mesh.Load.subMeshes material_ids remaining (i + 1) indexCount

/-- The submeshes `Mesh::Load` computes from the per-face material ids of the
first shape and the number of materials. -/
def Mesh.Load.computeSubMeshes (material_ids : List Int) (materialCount : Nat) : List SubMesh :=
  Mesh.Load.subMeshes material_ids materialCount 0 0

/-! ## Vertex de-duplication (`Mesh::Load`, vertex loop) -/

/-- The state of the vertex loop of `Mesh::Load`: the local
`std::unordered_map<Vertex, unsigned int> uniqueVertices` (as an association
list), and the members `mVertexData` and `mIndexData`. -/
structure Mesh.Load.DedupState (α : Type) where
  uniqueVertices : List (α × Nat)
  mVertexData : List α
  mIndexData : List Nat

/-- One iteration of the vertex loop of `Mesh::Load` for the face corner `v`:
`if (uniqueVertices.count(v) == 0) { uniqueVertices[v] = mVertexData.size(); mVertexData.push_back(v); }`
then `mIndexData.push_back(uniqueVertices[v])`. The type `α` stands for
`Vertex` with its `operator==`; the stored position is an `unsigned int`. -/
def Mesh.Load.addVertex {α : Type} [DecidableEq α] (st : Mesh.Load.DedupState α) (v : α) :
    Mesh.Load.DedupState α :=
  let st : Mesh.Load.DedupState α :=
    if st.uniqueVertices.lookup v = none then
      { st with
        uniqueVertices := (v, st.mVertexData.length % 2 ^ 32) :: st.uniqueVertices,
        mVertexData := st.mVertexData ++ [v] }
    else st
  { st with mIndexData := st.mIndexData ++ [(st.uniqueVertices.lookup v).getD 0] }

/-- The vertex loop of `Mesh::Load` over the face corners of all shapes, in
order, starting from a freshly constructed mesh. -/
def Mesh.Load.dedup {α : Type} [DecidableEq α] (vertices : List α) : Mesh.Load.DedupState α :=
  vertices.foldl Mesh.Load.addVertex { uniqueVertices := [], mVertexData := [], mIndexData := [] }

/-! ## Theorems: swap-chain selection policy -/

theorem SelectSwapChainFormat.scan_eq_some {formats : List VkSurfaceFormatKHR}
    {f : VkSurfaceFormatKHR} (h : SelectSwapChainFormat.scan formats = some f) :
    f = preferredSurfaceFormat ∧ f ∈ formats := by
  induction formats with
  | nil => simp [SelectSwapChainFormat.scan] at h
  | cons g rest ih =>
    unfold SelectSwapChainFormat.scan at h
    split at h
    · rename_i hg
      have hfg : g = f := Option.some.inj h
      subst hfg
      obtain ⟨fmt, cs⟩ := g
      simp only at hg
      obtain ⟨h1, h2⟩ := hg
      subst h1 h2
      exact ⟨rfl, List.mem_cons_self _ _⟩
    · exact ⟨(ih h).1, List.mem_cons_of_mem _ (ih h).2⟩

theorem SelectSwapChainFormat.scan_of_mem {formats : List VkSurfaceFormatKHR}
    (h : preferredSurfaceFormat ∈ formats) :
    SelectSwapChainFormat.scan formats = some preferredSurfaceFormat := by
  induction formats with
  | nil => simp at h
  | cons g rest ih =>
    unfold SelectSwapChainFormat.scan
    split
    · rename_i hg
      obtain ⟨fmt, cs⟩ := g
      simp only at hg
      obtain ⟨h1, h2⟩ := hg
      subst h1 h2
      rfl
    · rename_i hg
      rcases List.mem_cons.mp h with h | h
      · exact absurd (by rw [← h]; exact ⟨rfl, rfl⟩) hg
      · exact ih h

theorem SelectSwapChainFormat.scan_of_not_mem {formats : List VkSurfaceFormatKHR}
    (h : preferredSurfaceFormat ∉ formats) :
    SelectSwapChainFormat.scan formats = none := by
  cases hs : SelectSwapChainFormat.scan formats with
  | none => rfl
  | some f =>
    have := SelectSwapChainFormat.scan_eq_some hs
    exact absurd (this.1 ▸ this.2) h

/-- C1 (as stated, refuted): a list that contains the sentinel next to other
entries does not yield the preferred format; the two-entry list
`[{UNDEFINED, SRGB}, {R8G8B8A8_UNORM, SRGB}]` yields its first entry. -/
theorem SelectSwapChainFormat_sentinel_among_others :
    ¬ (∀ formats : List VkSurfaceFormatKHR, formats ≠ [] →
        (∃ f ∈ formats, f.format = VK_FORMAT_UNDEFINED) →
        SelectSwapChainFormat formats = some preferredSurfaceFormat) := by
  intro h
  have h2 := h [⟨VK_FORMAT_UNDEFINED, VK_COLOR_SPACE_SRGB_NONLINEAR_KHR⟩,
    ⟨VK_FORMAT_R8G8B8A8_UNORM, VK_COLOR_SPACE_SRGB_NONLINEAR_KHR⟩] (by simp)
    ⟨⟨VK_FORMAT_UNDEFINED, VK_COLOR_SPACE_SRGB_NONLINEAR_KHR⟩, by simp, rfl⟩
  revert h2
  decide

/-- C1 (amended): for every non-empty list of surface formats, if the list is
exactly one entry whose format is `VK_FORMAT_UNDEFINED` the result is the
preferred format; for every other non-empty list the result is the preferred
format when the list has an entry equal to it, and the first entry otherwise. -/
theorem SelectSwapChainFormat_spec (formats : List VkSurfaceFormatKHR) (hne : formats ≠ []) :
    ((∃ f, formats = [f] ∧ f.format = VK_FORMAT_UNDEFINED) →
        SelectSwapChainFormat formats = some preferredSurfaceFormat) ∧
    ((¬ ∃ f, formats = [f] ∧ f.format = VK_FORMAT_UNDEFINED) →
        (preferredSurfaceFormat ∈ formats →
          SelectSwapChainFormat formats = some preferredSurfaceFormat) ∧
        (preferredSurfaceFormat ∉ formats →
          SelectSwapChainFormat formats = formats.head?)) := by
  cases formats with
  | nil => exact absurd rfl hne
  | cons first rest =>
    refine ⟨?_, ?_⟩
    · rintro ⟨f, hf, hu⟩
      cases hf
      simp [SelectSwapChainFormat, hu, preferredSurfaceFormat]
    · intro hns
      have hguard : ¬ ((first :: rest).length = 1 ∧ first.format = VK_FORMAT_UNDEFINED) := by
        rintro ⟨hl, hu⟩
        apply hns
        refine ⟨first, ?_, hu⟩
        cases rest with
        | nil => rfl
        | cons _ _ => simp at hl
      refine ⟨?_, ?_⟩
      · intro hm
        simp only [SelectSwapChainFormat, if_neg hguard,
          SelectSwapChainFormat.scan_of_mem hm]
      · intro hm
        simp only [SelectSwapChainFormat, if_neg hguard,
          SelectSwapChainFormat.scan_of_not_mem hm, List.head?_cons]

theorem SelectSwapChainFormat_spec_witness :
    SelectSwapChainFormat [⟨VK_FORMAT_UNDEFINED, 7⟩] = some preferredSurfaceFormat ∧
    SelectSwapChainFormat
        [⟨VK_FORMAT_R8G8B8A8_UNORM, 0⟩, ⟨VK_FORMAT_B8G8R8A8_UNORM, 0⟩] =
      some preferredSurfaceFormat ∧
    SelectSwapChainFormat [⟨VK_FORMAT_UNDEFINED, 0⟩, ⟨VK_FORMAT_R8G8B8A8_UNORM, 0⟩] =
      some ⟨VK_FORMAT_UNDEFINED, 0⟩ :=
  ⟨(SelectSwapChainFormat_spec [⟨VK_FORMAT_UNDEFINED, 7⟩] (by decide)).1 ⟨_, rfl, rfl⟩,
   ((SelectSwapChainFormat_spec
      [⟨VK_FORMAT_R8G8B8A8_UNORM, 0⟩, ⟨VK_FORMAT_B8G8R8A8_UNORM, 0⟩] (by decide)).2
      (by simp)).1 (by decide),
   ((SelectSwapChainFormat_spec
      [⟨VK_FORMAT_UNDEFINED, 0⟩, ⟨VK_FORMAT_R8G8B8A8_UNORM, 0⟩] (by decide)).2
      (by simp)).2 (by decide)⟩

/-- C2 (the code at the failing input): with the current extent undefined and
surface limits `1 x 1` to `4096 x 4096`, `SelectSwapChainSwapExtent` returns
`600 x 600`, not the window size `800 x 600` clamped component-wise: the
clamped height is stored into `width`. -/
theorem SelectSwapChainSwapExtent_height_stored_in_width :
    SelectSwapChainSwapExtent
        { minImageCount := 2, maxImageCount := 0,
          currentExtent := ⟨UINT32_MAX, UINT32_MAX⟩,
          minImageExtent := ⟨1, 1⟩, maxImageExtent := ⟨4096, 4096⟩ } = ⟨600, 600⟩ ∧
    clampedWindowExtent
        { minImageCount := 2, maxImageCount := 0,
          currentExtent := ⟨UINT32_MAX, UINT32_MAX⟩,
          minImageExtent := ⟨1, 1⟩, maxImageExtent := ⟨4096, 4096⟩ } = ⟨800, 600⟩ := by
  constructor <;> decide

/-- C3: `SelectSwapChainPresentMode` returns the immediate mode when the list
offers it and FIFO otherwise; when the list offers FIFO the result is a member
of the list. -/
theorem SelectSwapChainPresentMode_spec (presentModes : List VkPresentModeKHR) :
    (VK_PRESENT_MODE_IMMEDIATE_KHR ∈ presentModes →
        SelectSwapChainPresentMode presentModes = VK_PRESENT_MODE_IMMEDIATE_KHR) ∧
    (VK_PRESENT_MODE_IMMEDIATE_KHR ∉ presentModes →
        SelectSwapChainPresentMode presentModes = VK_PRESENT_MODE_FIFO_KHR) ∧
    (VK_PRESENT_MODE_FIFO_KHR ∈ presentModes →
        SelectSwapChainPresentMode presentModes ∈ presentModes) := by
  have h1 : ∀ l : List VkPresentModeKHR, VK_PRESENT_MODE_IMMEDIATE_KHR ∈ l →
      SelectSwapChainPresentMode l = VK_PRESENT_MODE_IMMEDIATE_KHR := by
    intro l
    induction l with
    | nil => intro h; simp at h
    | cons m rest ih =>
      intro h
      unfold SelectSwapChainPresentMode
      split
      · assumption
      · rename_i hm
        rcases List.mem_cons.mp h with h | h
        · exact absurd h.symm hm
        · exact ih h
  have h2 : ∀ l : List VkPresentModeKHR, VK_PRESENT_MODE_IMMEDIATE_KHR ∉ l →
      SelectSwapChainPresentMode l = VK_PRESENT_MODE_FIFO_KHR := by
    intro l
    induction l with
    | nil => intro _; rfl
    | cons m rest ih =>
      intro h
      unfold SelectSwapChainPresentMode
      split
      · rename_i hm
        exact absurd (hm ▸ List.mem_cons_self _ _) h
      · exact ih (fun hr => h (List.mem_cons_of_mem _ hr))
  refine ⟨h1 _, h2 _, ?_⟩
  intro hf
  by_cases hi : VK_PRESENT_MODE_IMMEDIATE_KHR ∈ presentModes
  · rw [h1 _ hi]; exact hi
  · rw [h2 _ hi]; exact hf

theorem SelectSwapChainPresentMode_spec_witness :
    SelectSwapChainPresentMode
        [VK_PRESENT_MODE_FIFO_KHR, VK_PRESENT_MODE_IMMEDIATE_KHR] =
      VK_PRESENT_MODE_IMMEDIATE_KHR ∧
    SelectSwapChainPresentMode
        [VK_PRESENT_MODE_MAILBOX_KHR, VK_PRESENT_MODE_FIFO_KHR] =
      VK_PRESENT_MODE_FIFO_KHR ∧
    SelectSwapChainPresentMode [VK_PRESENT_MODE_MAILBOX_KHR, VK_PRESENT_MODE_FIFO_KHR] ∈
      [VK_PRESENT_MODE_MAILBOX_KHR, VK_PRESENT_MODE_FIFO_KHR] :=
  ⟨(SelectSwapChainPresentMode_spec
      [VK_PRESENT_MODE_FIFO_KHR, VK_PRESENT_MODE_IMMEDIATE_KHR]).1 (by decide),
   (SelectSwapChainPresentMode_spec
      [VK_PRESENT_MODE_MAILBOX_KHR, VK_PRESENT_MODE_FIFO_KHR]).2.1 (by decide),
   (SelectSwapChainPresentMode_spec
      [VK_PRESENT_MODE_MAILBOX_KHR, VK_PRESENT_MODE_FIFO_KHR]).2.2 (by decide)⟩

/-- C4: provided `minImageCount + 1` fits in 32 bits, the image count is
`minImageCount + 1` when `maxImageCount = 0` or `minImageCount + 1 <= maxImageCount`
and `maxImageCount` otherwise; `(1, 0)` gives 2, `(3, 3)` gives 3, and a
non-zero `maxImageCount` is never exceeded. -/
theorem CreateSwapChain_imageCount_spec (capabilities : VkSurfaceCapabilitiesKHR)
    (hfit : capabilities.minImageCount + 1 < 2 ^ 32) :
    ((capabilities.maxImageCount = 0 ∨
          capabilities.minImageCount + 1 ≤ capabilities.maxImageCount) →
        CreateSwapChain.imageCount capabilities = capabilities.minImageCount + 1) ∧
    (¬ (capabilities.maxImageCount = 0 ∨
          capabilities.minImageCount + 1 ≤ capabilities.maxImageCount) →
        CreateSwapChain.imageCount capabilities = capabilities.maxImageCount) ∧
    (capabilities.minImageCount = 1 → capabilities.maxImageCount = 0 →
        CreateSwapChain.imageCount capabilities = 2) ∧
    (capabilities.minImageCount = 3 → capabilities.maxImageCount = 3 →
        CreateSwapChain.imageCount capabilities = 3) ∧
    (capabilities.maxImageCount > 0 →
        CreateSwapChain.imageCount capabilities ≤ capabilities.maxImageCount) := by
  have hmod : (capabilities.minImageCount + 1) % 2 ^ 32 = capabilities.minImageCount + 1 :=
    Nat.mod_eq_of_lt hfit
  simp only [CreateSwapChain.imageCount, hmod]
  refine ⟨?_, ?_, ?_, ?_, ?_⟩
  · intro h; split <;> omega
  · intro h; split <;> omega
  · intro h1 h2; split <;> omega
  · intro h1 h2; split <;> omega
  · intro h; split <;> omega

theorem CreateSwapChain_imageCount_spec_witness :
    CreateSwapChain.imageCount ⟨1, 0, ⟨800, 600⟩, ⟨1, 1⟩, ⟨4096, 4096⟩⟩ = 2 ∧
    CreateSwapChain.imageCount ⟨3, 3, ⟨800, 600⟩, ⟨1, 1⟩, ⟨4096, 4096⟩⟩ = 3 ∧
    CreateSwapChain.imageCount ⟨5, 4, ⟨800, 600⟩, ⟨1, 1⟩, ⟨4096, 4096⟩⟩ = 4 :=
  ⟨(CreateSwapChain_imageCount_spec ⟨1, 0, ⟨800, 600⟩, ⟨1, 1⟩, ⟨4096, 4096⟩⟩
      (by decide)).2.2.1 rfl rfl,
   (CreateSwapChain_imageCount_spec ⟨3, 3, ⟨800, 600⟩, ⟨1, 1⟩, ⟨4096, 4096⟩⟩
      (by decide)).2.2.2.1 rfl rfl,
   (CreateSwapChain_imageCount_spec ⟨5, 4, ⟨800, 600⟩, ⟨1, 1⟩, ⟨4096, 4096⟩⟩
      (by decide)).2.1 (by decide)⟩

/-! ## Theorems: memory-type selection -/

theorem land_one_shiftLeft_ne_zero_iff (typeFilter i : Nat) (hi : i < 32) :
    typeFilter &&& ((1 <<< i) % 2 ^ 32) ≠ 0 ↔ typeFilter.testBit i = true := by
  have h2 : (1 <<< i) % 2 ^ 32 = 2 ^ i := by
    rw [Nat.one_shiftLeft]
    exact Nat.mod_eq_of_lt (Nat.pow_lt_pow_right (by norm_num) hi)
  have hpos : 2 ^ i ≠ 0 := by positivity
  rw [h2, Nat.and_two_pow]
  cases typeFilter.testBit i <;> simp [hpos]

theorem land_eq_right_iff (a b : Nat) :
    a &&& b = b ↔ ∀ k : Nat, b.testBit k = true → a.testBit k = true := by
  constructor
  · intro h k hk
    rw [← h, Nat.testBit_and] at hk
    simp only [Bool.and_eq_true] at hk
    exact hk.1
  · intro h
    apply Nat.eq_of_testBit_eq
    intro k
    rw [Nat.testBit_and]
    cases hb : b.testBit k
    · simp
    · simp [h k hb]

/-- The test of the loop body agrees with `memoryTypeQualifies` on every
index below 32. -/
theorem loop_test_iff (typeFilter propertyFlags : Nat)
    (memProperties : VkPhysicalDeviceMemoryProperties) (i : Nat) (hi : i < 32) :
    ((typeFilter &&& ((1 <<< i) % 2 ^ 32)) ≠ 0 ∧
        ((memProperties.memoryTypes i).propertyFlags &&& propertyFlags) = propertyFlags) ↔
      memoryTypeQualifies typeFilter propertyFlags memProperties i := by
  unfold memoryTypeQualifies
  rw [land_one_shiftLeft_ne_zero_iff typeFilter i hi, land_eq_right_iff]

theorem FindMemoryType.loop_ok (typeFilter propertyFlags : Nat)
    (memProperties : VkPhysicalDeviceMemoryProperties) (remaining i r : Nat)
    (hb : i + remaining ≤ 32)
    (h : FindMemoryType.loop typeFilter propertyFlags memProperties remaining i = Except.ok r) :
    i ≤ r ∧ r < i + remaining ∧
      memoryTypeQualifies typeFilter propertyFlags memProperties r ∧
      ∀ j, i ≤ j → j < r → ¬ memoryTypeQualifies typeFilter propertyFlags memProperties j := by
  induction remaining generalizing i with
  | zero => simp [FindMemoryType.loop] at h
  | succ n ih =>
    unfold FindMemoryType.loop at h
    split at h
    · rename_i hc
      have hr : i = r := Except.ok.inj h
      subst hr
      refine ⟨le_refl _, by omega, ?_, fun j h1 h2 => by omega⟩
      exact (loop_test_iff typeFilter propertyFlags memProperties i (by omega)).mp hc
    · rename_i hc
      obtain ⟨h1, h2, h3, h4⟩ := ih (i + 1) (by omega) h
      refine ⟨by omega, by omega, h3, ?_⟩
      intro j hj1 hj2
      rcases Nat.eq_or_lt_of_le hj1 with hj | hj
      · subst hj
        exact fun hq =>
          hc ((loop_test_iff typeFilter propertyFlags memProperties i (by omega)).mpr hq)
      · exact h4 j hj hj2

theorem FindMemoryType.loop_error (typeFilter propertyFlags : Nat)
    (memProperties : VkPhysicalDeviceMemoryProperties) (remaining i : Nat) (e : String)
    (hb : i + remaining ≤ 32)
    (h : FindMemoryType.loop typeFilter propertyFlags memProperties remaining i = Except.error e) :
    e = "Failed to find suitable memory type!" ∧
      ∀ j, i ≤ j → j < i + remaining →
        ¬ memoryTypeQualifies typeFilter propertyFlags memProperties j := by
  induction remaining generalizing i with
  | zero =>
    unfold FindMemoryType.loop at h
    exact ⟨(Except.error.inj h).symm, fun j h1 h2 => by omega⟩
  | succ n ih =>
    unfold FindMemoryType.loop at h
    split at h
    · cases h
    · rename_i hc
      obtain ⟨h1, h2⟩ := ih (i + 1) (by omega) h
      refine ⟨h1, ?_⟩
      intro j hj1 hj2
      rcases Nat.eq_or_lt_of_le hj1 with hj | hj
      · subst hj
        exact fun hq =>
          hc ((loop_test_iff typeFilter propertyFlags memProperties i (by omega)).mpr hq)
      · exact h2 j hj (by omega)

/-- C5: with at most 32 memory types, whenever `FindMemoryType` returns an
index `i`, then `i < memoryTypeCount`, bit `i` of the type filter is set, the
flags of memory type `i` contain every requested property bit, and no index
below `i` satisfies both conditions. -/
theorem FindMemoryType_returns_lowest (typeFilter propertyFlags : Nat)
    (memProperties : VkPhysicalDeviceMemoryProperties) (i : Nat)
    (hcount : memProperties.memoryTypeCount ≤ VK_MAX_MEMORY_TYPES)
    (h : FindMemoryType typeFilter propertyFlags memProperties = Except.ok i) :
    i < memProperties.memoryTypeCount ∧
      typeFilter.testBit i = true ∧
      (∀ b : Nat, propertyFlags.testBit b = true →
        (memProperties.memoryTypes i).propertyFlags.testBit b = true) ∧
      ∀ j, j < i → ¬ memoryTypeQualifies typeFilter propertyFlags memProperties j := by
  obtain ⟨_, h2, h3, h4⟩ := FindMemoryType.loop_ok typeFilter propertyFlags memProperties
    memProperties.memoryTypeCount 0 i (by simpa using hcount) h
  exact ⟨by omega, h3.1, h3.2, fun j hj => h4 j (Nat.zero_le _) hj⟩

theorem FindMemoryType_returns_lowest_witness :
    2 < 3 ∧ (6 : Nat).testBit 2 = true ∧
      (∀ b : Nat, (6 : Nat).testBit b = true → (6 : Nat).testBit b = true) ∧
      ∀ j, j < 2 → ¬ memoryTypeQualifies 6 6
        { memoryTypeCount := 3,
          memoryTypes := fun k => if k = 2 then ⟨6, 0⟩ else ⟨1, 0⟩ } j :=
  FindMemoryType_returns_lowest 6 6
    { memoryTypeCount := 3, memoryTypes := fun k => if k = 2 then ⟨6, 0⟩ else ⟨1, 0⟩ } 2
    (by decide) rfl

/-- C6: with at most 32 memory types, `FindMemoryType` throws its runtime
error exactly when no index below `memoryTypeCount` qualifies; in particular it
throws for an empty table, and it returns an index as soon as some entry
qualifies. -/
theorem FindMemoryType_throws_iff (typeFilter propertyFlags : Nat)
    (memProperties : VkPhysicalDeviceMemoryProperties)
    (hcount : memProperties.memoryTypeCount ≤ VK_MAX_MEMORY_TYPES) :
    (FindMemoryType typeFilter propertyFlags memProperties =
        Except.error "Failed to find suitable memory type!" ↔
      ¬ ∃ i, i < memProperties.memoryTypeCount ∧
        memoryTypeQualifies typeFilter propertyFlags memProperties i) ∧
    (memProperties.memoryTypeCount = 0 →
      FindMemoryType typeFilter propertyFlags memProperties =
        Except.error "Failed to find suitable memory type!") ∧
    ((∃ i, i < memProperties.memoryTypeCount ∧
        memoryTypeQualifies typeFilter propertyFlags memProperties i) →
      ∃ r, FindMemoryType typeFilter propertyFlags memProperties = Except.ok r) := by
  have hb : 0 + memProperties.memoryTypeCount ≤ 32 := by simpa using hcount
  have key : FindMemoryType typeFilter propertyFlags memProperties =
        Except.error "Failed to find suitable memory type!" ↔
      ¬ ∃ i, i < memProperties.memoryTypeCount ∧
        memoryTypeQualifies typeFilter propertyFlags memProperties i := by
    constructor
    · intro h
      rintro ⟨i, hi, hq⟩
      exact (FindMemoryType.loop_error typeFilter propertyFlags memProperties _ 0 _ hb h).2
        i (Nat.zero_le _) (by omega) hq
    · intro hno
      cases hr : FindMemoryType typeFilter propertyFlags memProperties with
      | error e =>
        rw [(FindMemoryType.loop_error typeFilter propertyFlags memProperties _ 0 e hb hr).1]
      | ok r =>
        obtain ⟨_, h2, h3, _⟩ :=
          FindMemoryType.loop_ok typeFilter propertyFlags memProperties _ 0 r hb hr
        exact absurd ⟨r, by omega, h3⟩ hno
  refine ⟨key, ?_, ?_⟩
  · intro h0
    apply key.mpr
    rintro ⟨i, hi, _⟩
    omega
  · intro hex
    cases hr : FindMemoryType typeFilter propertyFlags memProperties with
    | ok r => exact ⟨r, rfl⟩
    | error e =>
      have he := (FindMemoryType.loop_error typeFilter propertyFlags memProperties _ 0 e hb hr).1
      subst he
      exact absurd hex (key.mp hr)

theorem FindMemoryType_throws_iff_witness :
    FindMemoryType 6 6 { memoryTypeCount := 0, memoryTypes := fun _ => ⟨6, 0⟩ } =
        Except.error "Failed to find suitable memory type!" ∧
    ¬ ∃ i, i < 2 ∧ memoryTypeQualifies 1 6
        { memoryTypeCount := 2, memoryTypes := fun _ => ⟨1, 0⟩ } i :=
  ⟨(FindMemoryType_throws_iff 6 6 { memoryTypeCount := 0, memoryTypes := fun _ => ⟨6, 0⟩ }
      (by decide)).2.1 rfl,
   (FindMemoryType_throws_iff 1 6 { memoryTypeCount := 2, memoryTypes := fun _ => ⟨1, 0⟩ }
      (by decide)).1.mp rfl⟩

/-! ## Theorems: image layout transitions -/

theorem TransitionImageLayout.accessMasks_eq_none (oldLayout newLayout : VkImageLayout)
    (h : (oldLayout, newLayout) ∉ handledTransitions) :
    TransitionImageLayout.accessMasks oldLayout newLayout = none := by
  simp only [handledTransitions, List.mem_cons, Prod.mk.injEq, List.mem_singleton,
    List.not_mem_nil, or_false, not_or] at h
  obtain ⟨h1, h2, h3, h4⟩ := h
  simp only [TransitionImageLayout.accessMasks, if_neg h1, if_neg h2, if_neg h3, if_neg h4]

/-- C7: `TransitionImageLayout` is a closed lookup on `(oldLayout, newLayout)`.
For the four handled pairs it returns normally and appends one barrier command
with one image barrier whose access masks are (HOST_WRITE, TRANSFER_READ),
(HOST_WRITE, TRANSFER_WRITE), (TRANSFER_WRITE, SHADER_READ) and
(0, DEPTH_STENCIL_ATTACHMENT_READ | WRITE) respectively; for every other pair
it throws and leaves the command buffer as it was. -/
theorem TransitionImageLayout_closed_lookup (image : Nat) (oldLayout newLayout : VkImageLayout)
    (commandBuffer : CommandBuffer) :
    (oldLayout = VK_IMAGE_LAYOUT_PREINITIALIZED →
      newLayout = VK_IMAGE_LAYOUT_TRANSFER_SRC_OPTIMAL →
      (TransitionImageLayout image oldLayout newLayout commandBuffer).1 = Except.ok () ∧
      recordsOneBarrier commandBuffer
        (TransitionImageLayout image oldLayout newLayout commandBuffer).2
        VK_ACCESS_HOST_WRITE_BIT VK_ACCESS_TRANSFER_READ_BIT) ∧
    (oldLayout = VK_IMAGE_LAYOUT_PREINITIALIZED →
      newLayout = VK_IMAGE_LAYOUT_TRANSFER_DST_OPTIMAL →
      (TransitionImageLayout image oldLayout newLayout commandBuffer).1 = Except.ok () ∧
      recordsOneBarrier commandBuffer
        (TransitionImageLayout image oldLayout newLayout commandBuffer).2
        VK_ACCESS_HOST_WRITE_BIT VK_ACCESS_TRANSFER_WRITE_BIT) ∧
    (oldLayout = VK_IMAGE_LAYOUT_TRANSFER_DST_OPTIMAL →
      newLayout = VK_IMAGE_LAYOUT_SHADER_READ_ONLY_OPTIMAL →
      (TransitionImageLayout image oldLayout newLayout commandBuffer).1 = Except.ok () ∧
      recordsOneBarrier commandBuffer
        (TransitionImageLayout image oldLayout newLayout commandBuffer).2
        VK_ACCESS_TRANSFER_WRITE_BIT VK_ACCESS_SHADER_READ_BIT) ∧
    (oldLayout = VK_IMAGE_LAYOUT_UNDEFINED →
      newLayout = VK_IMAGE_LAYOUT_DEPTH_STENCIL_ATTACHMENT_OPTIMAL →
      (TransitionImageLayout image oldLayout newLayout commandBuffer).1 = Except.ok () ∧
      recordsOneBarrier commandBuffer
        (TransitionImageLayout image oldLayout newLayout commandBuffer).2
        0 (VK_ACCESS_DEPTH_STENCIL_ATTACHMENT_READ_BIT |||
          VK_ACCESS_DEPTH_STENCIL_ATTACHMENT_WRITE_BIT)) ∧
    ((oldLayout, newLayout) ∉ handledTransitions →
      TransitionImageLayout image oldLayout newLayout commandBuffer =
        (Except.error "Failed to handle iamge layout transition!", commandBuffer)) := by
  refine ⟨?_, ?_, ?_, ?_, ?_⟩
  · rintro rfl rfl
    exact ⟨rfl, _, _, rfl, rfl, rfl, rfl⟩
  · rintro rfl rfl
    exact ⟨rfl, _, _, rfl, rfl, rfl, rfl⟩
  · rintro rfl rfl
    exact ⟨rfl, _, _, rfl, rfl, rfl, rfl⟩
  · rintro rfl rfl
    exact ⟨rfl, _, _, rfl, rfl, rfl, rfl⟩
  · intro h
    simp only [TransitionImageLayout,
      TransitionImageLayout.accessMasks_eq_none oldLayout newLayout h]

theorem TransitionImageLayout_closed_lookup_witness :
    ((TransitionImageLayout 1 VK_IMAGE_LAYOUT_PREINITIALIZED
          VK_IMAGE_LAYOUT_TRANSFER_SRC_OPTIMAL []).1 = Except.ok () ∧
      recordsOneBarrier []
        (TransitionImageLayout 1 VK_IMAGE_LAYOUT_PREINITIALIZED
          VK_IMAGE_LAYOUT_TRANSFER_SRC_OPTIMAL []).2
        VK_ACCESS_HOST_WRITE_BIT VK_ACCESS_TRANSFER_READ_BIT) ∧
    ((TransitionImageLayout 1 VK_IMAGE_LAYOUT_PREINITIALIZED
          VK_IMAGE_LAYOUT_TRANSFER_DST_OPTIMAL []).1 = Except.ok () ∧
      recordsOneBarrier []
        (TransitionImageLayout 1 VK_IMAGE_LAYOUT_PREINITIALIZED
          VK_IMAGE_LAYOUT_TRANSFER_DST_OPTIMAL []).2
        VK_ACCESS_HOST_WRITE_BIT VK_ACCESS_TRANSFER_WRITE_BIT) ∧
    ((TransitionImageLayout 1 VK_IMAGE_LAYOUT_TRANSFER_DST_OPTIMAL
          VK_IMAGE_LAYOUT_SHADER_READ_ONLY_OPTIMAL []).1 = Except.ok () ∧
      recordsOneBarrier []
        (TransitionImageLayout 1 VK_IMAGE_LAYOUT_TRANSFER_DST_OPTIMAL
          VK_IMAGE_LAYOUT_SHADER_READ_ONLY_OPTIMAL []).2
        VK_ACCESS_TRANSFER_WRITE_BIT VK_ACCESS_SHADER_READ_BIT) ∧
    ((TransitionImageLayout 1 VK_IMAGE_LAYOUT_UNDEFINED
          VK_IMAGE_LAYOUT_DEPTH_STENCIL_ATTACHMENT_OPTIMAL []).1 = Except.ok () ∧
      recordsOneBarrier []
        (TransitionImageLayout 1 VK_IMAGE_LAYOUT_UNDEFINED
          VK_IMAGE_LAYOUT_DEPTH_STENCIL_ATTACHMENT_OPTIMAL []).2
        0 (VK_ACCESS_DEPTH_STENCIL_ATTACHMENT_READ_BIT |||
          VK_ACCESS_DEPTH_STENCIL_ATTACHMENT_WRITE_BIT)) ∧
    TransitionImageLayout 1 VK_IMAGE_LAYOUT_UNDEFINED
        VK_IMAGE_LAYOUT_SHADER_READ_ONLY_OPTIMAL [] =
      (Except.error "Failed to handle iamge layout transition!", []) :=
  ⟨(TransitionImageLayout_closed_lookup 1 VK_IMAGE_LAYOUT_PREINITIALIZED
      VK_IMAGE_LAYOUT_TRANSFER_SRC_OPTIMAL []).1 rfl rfl,
   (TransitionImageLayout_closed_lookup 1 VK_IMAGE_LAYOUT_PREINITIALIZED
      VK_IMAGE_LAYOUT_TRANSFER_DST_OPTIMAL []).2.1 rfl rfl,
   (TransitionImageLayout_closed_lookup 1 VK_IMAGE_LAYOUT_TRANSFER_DST_OPTIMAL
      VK_IMAGE_LAYOUT_SHADER_READ_ONLY_OPTIMAL []).2.2.1 rfl rfl,
   (TransitionImageLayout_closed_lookup 1 VK_IMAGE_LAYOUT_UNDEFINED
      VK_IMAGE_LAYOUT_DEPTH_STENCIL_ATTACHMENT_OPTIMAL []).2.2.2.1 rfl rfl,
   (TransitionImageLayout_closed_lookup 1 VK_IMAGE_LAYOUT_UNDEFINED
      VK_IMAGE_LAYOUT_SHADER_READ_ONLY_OPTIMAL []).2.2.2.2 (by decide)⟩

/-! ## Theorems: depth-format selection -/

theorem land_depth_bit_ne_zero_iff (features : Nat) :
    features &&& VK_FORMAT_FEATURE_DEPTH_STENCIL_ATTACHMENT_BIT ≠ 0 ↔
      features.testBit 9 = true := by
  have h : VK_FORMAT_FEATURE_DEPTH_STENCIL_ATTACHMENT_BIT = 2 ^ 9 := by norm_num
  rw [h, Nat.and_two_pow]
  cases features.testBit 9 <;> simp

theorem FindSuitableFormat_optimal_depth (formatProperties : VkFormat → VkFormatProperties)
    (candidates : List VkFormat) :
    FindSuitableFormat formatProperties candidates VK_IMAGE_TILING_OPTIMAL
        VK_FORMAT_FEATURE_DEPTH_STENCIL_ATTACHMENT_BIT =
      match candidates.find? (fun f => decide (depthAttachable formatProperties f)) with
      | some f => Except.ok f
      | none => Except.error "Failed to find suitable format!" := by
  induction candidates with
  | nil => rfl
  | cons format rest ih =>
    unfold FindSuitableFormat
    have hlin : ¬ (VK_IMAGE_TILING_OPTIMAL = VK_IMAGE_TILING_LINEAR ∧
        ((formatProperties format).linearTilingFeatures &&&
          VK_FORMAT_FEATURE_DEPTH_STENCIL_ATTACHMENT_BIT) ≠ 0) := by
      rintro ⟨h, _⟩
      exact absurd h (by decide)
    rw [if_neg hlin]
    by_cases hq : depthAttachable formatProperties format
    · have hopt : VK_IMAGE_TILING_OPTIMAL = VK_IMAGE_TILING_OPTIMAL ∧
          ((formatProperties format).optimalTilingFeatures &&&
            VK_FORMAT_FEATURE_DEPTH_STENCIL_ATTACHMENT_BIT) ≠ 0 :=
        ⟨rfl, (land_depth_bit_ne_zero_iff _).mpr hq⟩
      rw [if_pos hopt]
      simp [List.find?, hq]
    · have hopt : ¬ (VK_IMAGE_TILING_OPTIMAL = VK_IMAGE_TILING_OPTIMAL ∧
          ((formatProperties format).optimalTilingFeatures &&&
            VK_FORMAT_FEATURE_DEPTH_STENCIL_ATTACHMENT_BIT) ≠ 0) :=
        fun h => hq ((land_depth_bit_ne_zero_iff _).mp h.2)
      rw [if_neg hopt, ih]
      simp [List.find?, hq]

/-- C8: for every device format-support table, `SelectDepthImageFormat` returns
the first format of `[D32_SFLOAT, D32_SFLOAT_S8_UINT, D24_UNORM_S8_UINT]` whose
optimal-tiling features include the depth-stencil-attachment feature, and it
throws its runtime error exactly when none of the three qualifies. -/
theorem SelectDepthImageFormat_first_qualifying
    (formatProperties : VkFormat → VkFormatProperties) :
    (SelectDepthImageFormat formatProperties =
      match depthCandidates.find? (fun f => decide (depthAttachable formatProperties f)) with
      | some f => Except.ok f
      | none => Except.error "Failed to find suitable format!") ∧
    (SelectDepthImageFormat formatProperties = Except.error "Failed to find suitable format!" ↔
      ∀ f ∈ depthCandidates, ¬ depthAttachable formatProperties f) := by
  have h := FindSuitableFormat_optimal_depth formatProperties depthCandidates
  have hsel : SelectDepthImageFormat formatProperties =
      FindSuitableFormat formatProperties depthCandidates VK_IMAGE_TILING_OPTIMAL
        VK_FORMAT_FEATURE_DEPTH_STENCIL_ATTACHMENT_BIT := rfl
  rw [hsel, h]
  refine ⟨rfl, ?_⟩
  cases hf : depthCandidates.find? (fun f => decide (depthAttachable formatProperties f)) with
  | none =>
    simp only [true_iff]
    intro f hm
    have := List.find?_eq_none.mp hf f hm
    simpa using this
  | some f =>
    have hfq := List.find?_some hf
    have hfm := List.mem_of_find?_eq_some hf
    simp only [false_iff, reduceCtorEq]
    intro hall
    exact hall f hfm (by simpa using hfq)

theorem SelectDepthImageFormat_first_qualifying_witness :
    SelectDepthImageFormat
        (fun f => if f = VK_FORMAT_D32_SFLOAT then ⟨0, 0, 0⟩ else ⟨0, 0x200, 0⟩) =
      Except.ok VK_FORMAT_D32_SFLOAT_S8_UINT ∧
    ∀ f ∈ depthCandidates, ¬ depthAttachable (fun _ => ⟨0x200, 0x1, 0⟩) f :=
  ⟨(SelectDepthImageFormat_first_qualifying
      (fun f => if f = VK_FORMAT_D32_SFLOAT then ⟨0, 0, 0⟩ else ⟨0, 0x200, 0⟩)).1,
   (SelectDepthImageFormat_first_qualifying (fun _ => ⟨0x200, 0x1, 0⟩)).2.mp rfl⟩

/-! ## Theorems: the frame tick -/

theorem RecreateSwapChain.run_append (throws : Call → Bool) (steps trace : List Call) :
    RecreateSwapChain.run throws steps trace =
      ((RecreateSwapChain.run throws steps []).1,
        trace ++ (RecreateSwapChain.run throws steps []).2) := by
  induction steps generalizing trace with
  | nil => simp [RecreateSwapChain.run]
  | cons step rest ih =>
    unfold RecreateSwapChain.run
    by_cases ht : throws step = true
    · simp [ht]
    · simp only [ht, Bool.false_eq_true, if_false, List.nil_append]
      rw [ih (trace ++ [step]), ih [step]]
      simp

theorem RecreateSwapChain.run_mem (throws : Call → Bool) (steps : List Call) :
    ∀ c ∈ (RecreateSwapChain.run throws steps []).2, c ∈ steps := by
  induction steps with
  | nil => simp [RecreateSwapChain.run]
  | cons step rest ih =>
    intro c hc
    unfold RecreateSwapChain.run at hc
    by_cases ht : throws step = true
    · simp [ht] at hc
      simp [hc]
    · simp only [ht, Bool.false_eq_true, if_false, List.nil_append] at hc
      rw [RecreateSwapChain.run_append] at hc
      simp only [List.mem_append, List.mem_singleton] at hc
      rcases hc with hc | hc
      · simp [hc]
      · exact List.mem_cons_of_mem _ (ih c hc)

theorem RecreateSwapChain.run_no_throw (throws : Call → Bool) (steps : List Call)
    (h : ∀ c, throws c = false) :
    RecreateSwapChain.run throws steps [] = (Except.ok (), steps) := by
  induction steps with
  | nil => rfl
  | cons step rest ih =>
    unfold RecreateSwapChain.run
    simp only [h step, Bool.false_eq_true, if_false, List.nil_append]
    rw [RecreateSwapChain.run_append, ih]
    rfl

theorem RecreateSwapChain_append (throws : Call → Bool) (trace : List Call) :
    RecreateSwapChain throws trace =
      ((RecreateSwapChain throws []).1, trace ++ (RecreateSwapChain throws []).2) := by
  unfold RecreateSwapChain
  rw [RecreateSwapChain.run_append throws _ (trace ++ [Call.vkDeviceWaitIdle]),
    RecreateSwapChain.run_append throws _ ([] ++ [Call.vkDeviceWaitIdle])]
  simp

theorem RecreateSwapChain_calls (throws : Call → Bool) :
    ∃ body, (RecreateSwapChain throws []).2 = Call.vkDeviceWaitIdle :: body ∧
      ∀ c ∈ body, c ∈ RecreateSwapChain.steps := by
  refine ⟨(RecreateSwapChain.run throws RecreateSwapChain.steps []).2, ?_,
    RecreateSwapChain.run_mem throws _⟩
  unfold RecreateSwapChain
  rw [RecreateSwapChain.run_append]
  rfl

theorem RecreateSwapChain_rebuildCount (throws : Call → Bool) :
    rebuildCount (RecreateSwapChain throws []).2 = 1 := by
  obtain ⟨body, hb, hmem⟩ := RecreateSwapChain_calls throws
  rw [hb]
  unfold rebuildCount
  have h0 : body.count Call.vkDeviceWaitIdle = 0 := by
    apply List.count_eq_zero.mpr
    intro hm
    exact absurd (hmem _ hm) (by decide)
  simp [h0]

theorem RecreateSwapChain_no_queue_call (throws : Call → Bool) :
    ∀ c ∈ (RecreateSwapChain throws []).2, c.isSubmitOrPresent = false := by
  obtain ⟨body, hb, hmem⟩ := RecreateSwapChain_calls throws
  rw [hb]
  intro c hc
  rcases List.mem_cons.mp hc with hc | hc
  · subst hc; rfl
  · have := hmem c hc
    simp only [RecreateSwapChain.steps, List.mem_cons, List.mem_singleton,
      List.not_mem_nil, or_false] at this
    rcases this with h | h | h | h | h | h | h <;> subst h <;> rfl

theorem callsAfterPresent_append (before after : List Call) (i : Nat)
    (h : ∀ c ∈ before, ∀ k, c ≠ Call.vkQueuePresentKHR k) :
    callsAfterPresent (before ++ Call.vkQueuePresentKHR i :: after) = after := by
  induction before with
  | nil => rfl
  | cons c rest ih =>
    have hc := h c (List.mem_cons_self _ _)
    have hrest := ih (fun x hx => h x (List.mem_cons_of_mem _ hx))
    cases c <;> first
      | exact absurd rfl (hc _)
      | simpa [callsAfterPresent] using hrest

/-- The trace of a tick that got as far as a successful submit: a part
`before` that ends with the submit and holds one rebuild exactly when the
acquisition was stale, then the present call, then the reaction to the
present result. -/
theorem DrawFrame_after_submit (d : Driver)
    (hsub : Call.vkQueueSubmit d.imageIndex ∈ (DrawFrame d).2)
    (hok : d.submitResult = VK_SUCCESS) :
    ∃ before : List Call,
      (∀ c ∈ before, ∀ k, c ≠ Call.vkQueuePresentKHR k) ∧
      rebuildCount before = (if d.acquireResult = VK_ERROR_OUT_OF_DATE_KHR then 1 else 0) ∧
      DrawFrame d =
        (if d.presentResult = VK_ERROR_OUT_OF_DATE_KHR ∨ d.presentResult = VK_SUBOPTIMAL_KHR then
          match (RecreateSwapChain d.presentRebuildThrows []).1 with
          | Except.error e =>
            (Except.error e, before ++ Call.vkQueuePresentKHR d.imageIndex ::
              (RecreateSwapChain d.presentRebuildThrows []).2)
          | Except.ok _ =>
            (Except.ok (), before ++ Call.vkQueuePresentKHR d.imageIndex ::
              ((RecreateSwapChain d.presentRebuildThrows []).2 ++ [Call.countFrame]))
        else if d.presentResult ≠ VK_SUCCESS then
          (Except.error "Failed to present swap chain image!",
            before ++ Call.vkQueuePresentKHR d.imageIndex :: [])
        else
          (Except.ok (), before ++ Call.vkQueuePresentKHR d.imageIndex :: [Call.countFrame])) := by
  have hA := RecreateSwapChain_append d.acquireRebuildThrows [Call.vkAcquireNextImageKHR]
  have hP := fun tr => RecreateSwapChain_append d.presentRebuildThrows tr
  have hcountA := RecreateSwapChain_rebuildCount d.acquireRebuildThrows
  have hqA := RecreateSwapChain_no_queue_call d.acquireRebuildThrows
  have hsubmit : ¬ d.submitResult ≠ VK_SUCCESS := fun h => h hok
  by_cases h1 : d.acquireResult = VK_ERROR_OUT_OF_DATE_KHR
  · cases hra : (RecreateSwapChain d.acquireRebuildThrows []).1 with
    | error e =>
      exfalso
      have hD : DrawFrame d = (Except.error e, [Call.vkAcquireNextImageKHR] ++
          (RecreateSwapChain d.acquireRebuildThrows []).2) := by
        simp only [DrawFrame, if_pos h1, hA, hra]
      rw [hD] at hsub
      simp only [List.mem_append, List.mem_singleton, reduceCtorEq, false_or] at hsub
      have := hqA _ hsub
      simp [Call.isSubmitOrPresent] at this
    | ok u =>
      refine ⟨[Call.vkAcquireNextImageKHR] ++ (RecreateSwapChain d.acquireRebuildThrows []).2 ++
        [Call.vkQueueSubmit d.imageIndex], ?_, ?_, ?_⟩
      · intro c hc k hk
        subst hk
        simp only [List.mem_append, List.mem_singleton, reduceCtorEq, false_or, or_false] at hc
        have := hqA _ hc
        simp [Call.isSubmitOrPresent] at this
      · simp only [rebuildCount, List.count_append] at hcountA ⊢
        rw [hcountA, if_pos h1]
        simp
      · simp only [DrawFrame, if_pos h1, hA, hra, if_neg hsubmit]
        by_cases hp1 : d.presentResult = VK_ERROR_OUT_OF_DATE_KHR ∨
            d.presentResult = VK_SUBOPTIMAL_KHR
        · rw [if_pos hp1, if_pos hp1, hP]
          cases hrp : (RecreateSwapChain d.presentRebuildThrows []).1 <;> simp
        · rw [if_neg hp1, if_neg hp1]
          by_cases hp2 : d.presentResult ≠ VK_SUCCESS
          · rw [if_pos hp2, if_pos hp2]
          · rw [if_neg hp2, if_neg hp2]
            simp
  · by_cases h2 : d.acquireResult ≠ VK_SUCCESS ∧ d.acquireResult ≠ VK_SUBOPTIMAL_KHR
    · exfalso
      have hD : DrawFrame d =
          (Except.error "Failed to acquire swap chain image!", [Call.vkAcquireNextImageKHR]) := by
        simp only [DrawFrame, if_neg h1, if_pos h2]
      rw [hD] at hsub
      simp at hsub
    · refine ⟨[Call.vkAcquireNextImageKHR] ++ [Call.vkQueueSubmit d.imageIndex], ?_, ?_, ?_⟩
      · intro c hc k hk
        subst hk
        simp at hc
      · rw [if_neg h1]
        rfl
      · simp only [DrawFrame, if_neg h1, if_neg h2, if_neg hsubmit]
        by_cases hp1 : d.presentResult = VK_ERROR_OUT_OF_DATE_KHR ∨
            d.presentResult = VK_SUBOPTIMAL_KHR
        · rw [if_pos hp1, if_pos hp1, hP]
          cases hrp : (RecreateSwapChain d.presentRebuildThrows []).1 <;> simp
        · rw [if_neg hp1, if_neg hp1]
          by_cases hp2 : d.presentResult ≠ VK_SUCCESS
          · rw [if_pos hp2, if_pos hp2]
          · rw [if_neg hp2, if_neg hp2]
            simp

/-- C9 (the code at the failing input): when acquisition reports out-of-date
and every later call succeeds, `DrawFrame` rebuilds and then goes on to submit
command buffer `imageIndex` and to present: the tick does not end after the
rebuild. -/
theorem DrawFrame_stale_acquire_falls_through :
    DrawFrame staleAcquireDriver =
      (Except.ok (),
        [Call.vkAcquireNextImageKHR, Call.vkDeviceWaitIdle, Call.CreateSwapChain,
         Call.CreateSwapChainImageViews, Call.CreateRenderPass, Call.CreateGraphicsPipeline,
         Call.SetupDepthBufferingResources, Call.CreateFramebuffers, Call.CreateCommandBuffers,
         Call.vkQueueSubmit 0, Call.vkQueuePresentKHR 0, Call.countFrame]) ∧
    Call.vkQueueSubmit 0 ∈ (DrawFrame staleAcquireDriver).2 ∧
    Call.vkQueuePresentKHR 0 ∈ (DrawFrame staleAcquireDriver).2 := by
  refine ⟨rfl, ?_, ?_⟩ <;> decide

/-- C10: in a tick whose submit succeeded, what follows the present call is
decided by the present result.  Out-of-date or suboptimal: one rebuild and no
further submit or present (when no creation step throws, exactly the calls of
`RecreateSwapChain` followed by the frame counter, and the tick returns
normally).  Success: no rebuild, the tick returns normally.  Any other result:
the runtime error is thrown with no call after the present.  Over the whole
tick the number of rebuilds is one for a stale acquisition plus one for an
out-of-date or suboptimal present. -/
theorem DrawFrame_present_result (d : Driver)
    (hsub : Call.vkQueueSubmit d.imageIndex ∈ (DrawFrame d).2)
    (hok : d.submitResult = VK_SUCCESS) :
    (d.presentResult = VK_ERROR_OUT_OF_DATE_KHR ∨ d.presentResult = VK_SUBOPTIMAL_KHR →
        rebuildCount (callsAfterPresent (DrawFrame d).2) = 1 ∧
        (∀ c ∈ callsAfterPresent (DrawFrame d).2, c.isSubmitOrPresent = false) ∧
        ((∀ c, d.presentRebuildThrows c = false) →
          (DrawFrame d).1 = Except.ok () ∧
          callsAfterPresent (DrawFrame d).2 =
            Call.vkDeviceWaitIdle :: RecreateSwapChain.steps ++ [Call.countFrame])) ∧
    (d.presentResult = VK_SUCCESS →
        (DrawFrame d).1 = Except.ok () ∧
        callsAfterPresent (DrawFrame d).2 = [Call.countFrame]) ∧
    (d.presentResult ≠ VK_ERROR_OUT_OF_DATE_KHR → d.presentResult ≠ VK_SUBOPTIMAL_KHR →
      d.presentResult ≠ VK_SUCCESS →
        (DrawFrame d).1 = Except.error "Failed to present swap chain image!" ∧
        callsAfterPresent (DrawFrame d).2 = []) ∧
    rebuildCount (DrawFrame d).2 =
      (if d.acquireResult = VK_ERROR_OUT_OF_DATE_KHR then 1 else 0) +
      (if d.presentResult = VK_ERROR_OUT_OF_DATE_KHR ∨ d.presentResult = VK_SUBOPTIMAL_KHR
        then 1 else 0) := by
  obtain ⟨before, hnp, hcount, hD⟩ := DrawFrame_after_submit d hsub hok
  have hcountP := RecreateSwapChain_rebuildCount d.presentRebuildThrows
  have hqP := RecreateSwapChain_no_queue_call d.presentRebuildThrows
  have hwait : rebuildCount [Call.vkQueuePresentKHR d.imageIndex] = 0 := rfl
  have hframe : rebuildCount [Call.countFrame] = 0 := rfl
  have happ : ∀ a b : List Call, rebuildCount (a ++ b) = rebuildCount a + rebuildCount b := by
    intro a b
    simp [rebuildCount, List.count_append]
  have hcons : ∀ (c : Call) (b : List Call), c :: b = [c] ++ b := fun _ _ => rfl
  by_cases hp1 : d.presentResult = VK_ERROR_OUT_OF_DATE_KHR ∨ d.presentResult = VK_SUBOPTIMAL_KHR
  · rw [if_pos hp1] at hD
    rw [if_pos hp1]
    have hne : d.presentResult ≠ VK_SUCCESS := by
      rcases hp1 with h | h <;> rw [h] <;> decide
    cases hrp : (RecreateSwapChain d.presentRebuildThrows []).1 with
    | error e =>
      rw [hrp] at hD
      simp only at hD
      have hafter : callsAfterPresent (DrawFrame d).2 =
          (RecreateSwapChain d.presentRebuildThrows []).2 := by
        rw [hD]
        exact callsAfterPresent_append _ _ _ hnp
      refine ⟨fun _ => ⟨by rw [hafter, hcountP], by rw [hafter]; exact hqP, ?_⟩,
        fun h => absurd h hne, fun h1 h2 _ => absurd hp1 (by tauto), ?_⟩
      · intro hno
        exfalso
        have hrun := RecreateSwapChain.run_no_throw d.presentRebuildThrows
          RecreateSwapChain.steps hno
        have h1 : (RecreateSwapChain d.presentRebuildThrows []).1 = Except.ok () := by
          unfold RecreateSwapChain
          rw [RecreateSwapChain.run_append, hrun]
        rw [hrp] at h1
        cases h1
      · rw [hD]
        simp only
        rw [hcons, happ, happ, hcount, hwait, hcountP]
    | ok u =>
      rw [hrp] at hD
      simp only at hD
      have hafter : callsAfterPresent (DrawFrame d).2 =
          (RecreateSwapChain d.presentRebuildThrows []).2 ++ [Call.countFrame] := by
        rw [hD]
        exact callsAfterPresent_append _ _ _ hnp
      refine ⟨fun _ => ⟨by rw [hafter, happ, hcountP, hframe], ?_, ?_⟩,
        fun h => absurd h hne, fun h1 h2 _ => absurd hp1 (by tauto), ?_⟩
      · rw [hafter]
        intro c hc
        rcases List.mem_append.mp hc with hc | hc
        · exact hqP c hc
        · rw [List.mem_singleton.mp hc]; rfl
      · intro hno
        have hrun := RecreateSwapChain.run_no_throw d.presentRebuildThrows
          RecreateSwapChain.steps hno
        have h2 : (RecreateSwapChain d.presentRebuildThrows []).2 =
            Call.vkDeviceWaitIdle :: RecreateSwapChain.steps := by
          unfold RecreateSwapChain
          rw [RecreateSwapChain.run_append, hrun]
          rfl
        refine ⟨by rw [hD], ?_⟩
        rw [hafter, h2]
      · rw [hD]
        simp only
        rw [hcons, happ, happ, happ, hcount, hwait, hcountP, hframe]
  · rw [if_neg hp1] at hD
    rw [if_neg hp1]
    by_cases hp2 : d.presentResult ≠ VK_SUCCESS
    · rw [if_pos hp2] at hD
      have hafter : callsAfterPresent (DrawFrame d).2 = [] := by
        rw [hD]
        exact callsAfterPresent_append _ _ _ hnp
      refine ⟨fun h => absurd h hp1, fun h => absurd h hp2,
        fun _ _ _ => ⟨by rw [hD], hafter⟩, ?_⟩
      rw [hD]
      simp only
      rw [happ, hcount, hwait]
    · rw [if_neg hp2] at hD
      have hafter : callsAfterPresent (DrawFrame d).2 = [Call.countFrame] := by
        rw [hD]
        exact callsAfterPresent_append _ _ _ hnp
      refine ⟨fun h => absurd h hp1, fun _ => ⟨by rw [hD], hafter⟩,
        fun _ _ h3 => absurd h3 hp2, ?_⟩
      rw [hD]
      simp only
      rw [hcons, happ, happ, hcount]
      rfl

theorem DrawFrame_present_result_witness :
    (rebuildCount (callsAfterPresent (DrawFrame (presentDriver VK_SUBOPTIMAL_KHR)).2) = 1 ∧
      (∀ c ∈ callsAfterPresent (DrawFrame (presentDriver VK_SUBOPTIMAL_KHR)).2,
        c.isSubmitOrPresent = false) ∧
      ((∀ c, (presentDriver VK_SUBOPTIMAL_KHR).presentRebuildThrows c = false) →
        (DrawFrame (presentDriver VK_SUBOPTIMAL_KHR)).1 = Except.ok () ∧
        callsAfterPresent (DrawFrame (presentDriver VK_SUBOPTIMAL_KHR)).2 =
          Call.vkDeviceWaitIdle :: RecreateSwapChain.steps ++ [Call.countFrame])) ∧
    ((DrawFrame (presentDriver VK_SUCCESS)).1 = Except.ok () ∧
      callsAfterPresent (DrawFrame (presentDriver VK_SUCCESS)).2 = [Call.countFrame]) ∧
    ((DrawFrame (presentDriver VK_ERROR_DEVICE_LOST)).1 =
        Except.error "Failed to present swap chain image!" ∧
      callsAfterPresent (DrawFrame (presentDriver VK_ERROR_DEVICE_LOST)).2 = []) :=
  ⟨(DrawFrame_present_result (presentDriver VK_SUBOPTIMAL_KHR) (by decide) rfl).1
      (Or.inr rfl),
   (DrawFrame_present_result (presentDriver VK_SUCCESS) (by decide) rfl).2.1 rfl,
   (DrawFrame_present_result (presentDriver VK_ERROR_DEVICE_LOST) (by decide) rfl).2.2.1
      (by decide) (by decide) (by decide)⟩

/-- C11: an acquisition result other than success, suboptimal and out-of-date
makes `DrawFrame` throw right after the acquire call, with no submit, no
present and no rebuild; on success or suboptimal the call that follows the
acquire is the submit of command buffer `imageIndex`, with no rebuild in
between. -/
theorem DrawFrame_acquire_result (d : Driver) :
    (d.acquireResult ≠ VK_SUCCESS → d.acquireResult ≠ VK_SUBOPTIMAL_KHR →
      d.acquireResult ≠ VK_ERROR_OUT_OF_DATE_KHR →
        DrawFrame d =
          (Except.error "Failed to acquire swap chain image!", [Call.vkAcquireNextImageKHR])) ∧
    (d.acquireResult = VK_SUCCESS ∨ d.acquireResult = VK_SUBOPTIMAL_KHR →
      ∃ rest, (DrawFrame d).2 =
        Call.vkAcquireNextImageKHR :: Call.vkQueueSubmit d.imageIndex :: rest) := by
  constructor
  · intro h1 h2 h3
    simp only [DrawFrame, if_neg h3, if_pos (And.intro h1 h2)]
  · intro h
    have h3 : ¬ d.acquireResult = VK_ERROR_OUT_OF_DATE_KHR := by
      rcases h with h | h <;> rw [h] <;> decide
    have h12 : ¬ (d.acquireResult ≠ VK_SUCCESS ∧ d.acquireResult ≠ VK_SUBOPTIMAL_KHR) := by
      rintro ⟨h1, h2⟩
      rcases h with h | h
      · exact h1 h
      · exact h2 h
    simp only [DrawFrame, if_neg h3, if_neg h12]
    by_cases hs : d.submitResult ≠ VK_SUCCESS
    · rw [if_pos hs]
      exact ⟨[], rfl⟩
    · rw [if_neg hs]
      by_cases hp1 : d.presentResult = VK_ERROR_OUT_OF_DATE_KHR ∨
          d.presentResult = VK_SUBOPTIMAL_KHR
      · rw [if_pos hp1, RecreateSwapChain_append]
        cases (RecreateSwapChain d.presentRebuildThrows []).1 <;> exact ⟨_, rfl⟩
      · rw [if_neg hp1]
        by_cases hp2 : d.presentResult ≠ VK_SUCCESS
        · rw [if_pos hp2]
          exact ⟨_, rfl⟩
        · rw [if_neg hp2]
          exact ⟨_, rfl⟩

theorem DrawFrame_acquire_result_witness :
    DrawFrame
        { acquireResult := VK_ERROR_DEVICE_LOST, imageIndex := 2,
          acquireRebuildThrows := fun _ => false, submitResult := VK_SUCCESS,
          presentResult := VK_SUCCESS, presentRebuildThrows := fun _ => false } =
      (Except.error "Failed to acquire swap chain image!", [Call.vkAcquireNextImageKHR]) ∧
    ∃ rest, (DrawFrame (presentDriver VK_SUCCESS)).2 =
      Call.vkAcquireNextImageKHR :: Call.vkQueueSubmit 1 :: rest :=
  ⟨(DrawFrame_acquire_result
      { acquireResult := VK_ERROR_DEVICE_LOST, imageIndex := 2,
        acquireRebuildThrows := fun _ => false, submitResult := VK_SUCCESS,
        presentResult := VK_SUCCESS, presentRebuildThrows := fun _ => false }).1
      (by decide) (by decide) (by decide),
   (DrawFrame_acquire_result (presentDriver VK_SUCCESS)).2 (Or.inl rfl)⟩

/-! ## Theorems: adapter selection and queue families -/

/-- C13 (the code at the failing input): for an adapter whose graphics family
is 0 and whose presentation family is 1, `CreateSwapChain` still chooses
exclusive sharing with no family indices, because it compares the two fields of
the never-assigned class member `queueFamilyDesc` (both `-1`). -/
theorem CreateSwapChain_sharing_ignores_found_families :
    FindQueueFamilies splitFamiliesDevice = { graphicsFamily := 0, presentationFamily := 1 } ∧
    CreateSwapChain.sharing VulkanApp.queueFamilyDesc splitFamiliesDevice =
      { imageSharingMode := VK_SHARING_MODE_EXCLUSIVE,
        queueFamilyIndexCount := 0,
        pQueueFamilyIndices := [] } := by
  constructor <;> decide

/-- C14 (the code at the failing input): for an adapter whose graphics and
presentation family are both family 1, the queue-create array has one entry
(position 0) and `CreateLogicalDevice` writes the entry at index 1, outside the
array, leaving position 0 unwritten. -/
theorem CreateLogicalDevice_entry_indexed_by_family :
    FindQueueFamilies secondFamilyDevice = { graphicsFamily := 1, presentationFamily := 1 } ∧
    CreateLogicalDevice.queueCreateInfos (FindQueueFamilies secondFamilyDevice) =
      { slots := [none],
        outOfBounds :=
          [(1, { sType := VK_STRUCTURE_TYPE_DEVICE_QUEUE_CREATE_INFO,
                 queueFamilyIndex := 1, queueCount := 1, pQueuePriorities := [1] })] } := by
  constructor <;> decide

theorem toInt32_nonneg {i : Nat} (h : i < 2 ^ 31) : 0 ≤ toInt32 i := by
  unfold toInt32
  have h1 : i % 2 ^ 32 = i := Nat.mod_eq_of_lt (by omega)
  rw [h1, if_pos h]
  exact Int.ofNat_nonneg i

theorem land_graphics_bit_ne_zero_iff (flags : Nat) :
    flags &&& VK_QUEUE_GRAPHICS_BIT ≠ 0 ↔ flags.testBit 0 = true := by
  have h : VK_QUEUE_GRAPHICS_BIT = 2 ^ 0 := by norm_num
  rw [h, Nat.and_two_pow]
  cases flags.testBit 0 <;> simp

theorem QueueFamilyDesc.IsComplete_iff (q : QueueFamilyDesc) :
    q.IsComplete = true ↔ 0 ≤ q.graphicsFamily ∧ 0 ≤ q.presentationFamily := by
  simp [QueueFamilyDesc.IsComplete]

/-- The result of the family scan is complete exactly when a graphics family
and a presentation family are found, before or during the scan. -/
theorem FindQueueFamilies.loop_complete (families : List QueueFamily) (i : Nat)
    (familyDesc : QueueFamilyDesc) (hb : i + families.length ≤ 2 ^ 31) :
    (FindQueueFamilies.loop families i familyDesc).IsComplete = true ↔
      (0 ≤ familyDesc.graphicsFamily ∨
        ∃ f ∈ families, f.queueCount > 0 ∧ f.queueFlags.testBit 0 = true) ∧
      (0 ≤ familyDesc.presentationFamily ∨
        ∃ f ∈ families, f.queueCount > 0 ∧ f.presentationSupport = true) := by
  induction families generalizing i familyDesc with
  | nil =>
    simp [FindQueueFamilies.loop, QueueFamilyDesc.IsComplete_iff]
  | cons family rest ih =>
    have hi : 0 ≤ toInt32 i := toInt32_nonneg (by simp at hb; omega)
    have hrest : i + 1 + rest.length ≤ 2 ^ 31 := by simp at hb; omega
    have key : ∀ fd1 fd2 : QueueFamilyDesc,
        fd1 = (if family.queueCount > 0 ∧ (family.queueFlags &&& VK_QUEUE_GRAPHICS_BIT) ≠ 0
          then { familyDesc with graphicsFamily := toInt32 i } else familyDesc) →
        fd2 = (if family.queueCount > 0 ∧ family.presentationSupport = true
          then { fd1 with presentationFamily := toInt32 i } else fd1) →
        ((if fd2.IsComplete = true then fd2
            else FindQueueFamilies.loop rest (i + 1) fd2).IsComplete = true ↔
          (0 ≤ familyDesc.graphicsFamily ∨
            ∃ f ∈ family :: rest, f.queueCount > 0 ∧ f.queueFlags.testBit 0 = true) ∧
          (0 ≤ familyDesc.presentationFamily ∨
            ∃ f ∈ family :: rest, f.queueCount > 0 ∧ f.presentationSupport = true)) := by
      intro fd1 fd2 h1 h2
      have hg1 : 0 ≤ fd1.graphicsFamily ↔ 0 ≤ familyDesc.graphicsFamily ∨
          (family.queueCount > 0 ∧ family.queueFlags.testBit 0 = true) := by
        rw [h1, ← land_graphics_bit_ne_zero_iff]
        split
        · rename_i h
          simp only [hi, true_iff]
          exact Or.inr h
        · rename_i h
          simp only [h, or_false]
      have hp1 : fd1.presentationFamily = familyDesc.presentationFamily := by
        rw [h1]; split <;> rfl
      have hg2 : fd2.graphicsFamily = fd1.graphicsFamily := by
        rw [h2]; split <;> rfl
      have hp2 : 0 ≤ fd2.presentationFamily ↔ 0 ≤ fd1.presentationFamily ∨
          (family.queueCount > 0 ∧ family.presentationSupport = true) := by
        rw [h2]
        split
        · rename_i h
          simp only [hi, true_iff]
          exact Or.inr h
        · rename_i h
          simp only [h, or_false]
      rw [hp1] at hp2
      simp only [List.mem_cons, exists_eq_or_imp]
      by_cases hc : fd2.IsComplete = true
      · rw [if_pos hc]
        refine ⟨fun _ => ?_, fun _ => hc⟩
        rw [QueueFamilyDesc.IsComplete_iff, hg2] at hc
        obtain ⟨c1, c2⟩ := hc
        refine ⟨?_, ?_⟩
        · rcases hg1.mp c1 with h | h
          · exact Or.inl h
          · exact Or.inr (Or.inl h)
        · rcases hp2.mp c2 with h | h
          · exact Or.inl h
          · exact Or.inr (Or.inl h)
      · rw [if_neg hc, ih _ _ hrest, hg2, hg1, hp2, or_assoc, or_assoc]
    unfold FindQueueFamilies.loop
    exact key
      (if family.queueCount > 0 ∧ (family.queueFlags &&& VK_QUEUE_GRAPHICS_BIT) ≠ 0
        then { familyDesc with graphicsFamily := toInt32 i } else familyDesc)
      (if family.queueCount > 0 ∧ family.presentationSupport = true
        then { (if family.queueCount > 0 ∧ (family.queueFlags &&& VK_QUEUE_GRAPHICS_BIT) ≠ 0
          then { familyDesc with graphicsFamily := toInt32 i } else familyDesc) with
            presentationFamily := toInt32 i }
        else (if family.queueCount > 0 ∧ (family.queueFlags &&& VK_QUEUE_GRAPHICS_BIT) ≠ 0
          then { familyDesc with graphicsFamily := toInt32 i } else familyDesc))
      rfl rfl

theorem FindQueueFamilies_complete_iff (physicalDevice : PhysicalDevice)
    (hb : physicalDevice.queueFamilies.length ≤ 2 ^ 31) :
    (FindQueueFamilies physicalDevice).IsComplete = true ↔
      hasGraphicsFamily physicalDevice ∧ hasPresentationFamily physicalDevice := by
  unfold FindQueueFamilies hasGraphicsFamily hasPresentationFamily
  rw [FindQueueFamilies.loop_complete _ 0 _ (by omega)]
  have h1 : ¬ (0 : Int) ≤ ({} : QueueFamilyDesc).graphicsFamily := by decide
  have h2 : ¬ (0 : Int) ≤ ({} : QueueFamilyDesc).presentationFamily := by decide
  simp only [h1, h2, false_or]

theorem CheckDeviceExtensionSupport_iff (physicalDevice : PhysicalDevice) :
    CheckDeviceExtensionSupport physicalDevice = true ↔
      ∀ required ∈ gRequiredExtensions, required ∈ physicalDevice.extensions := by
  unfold CheckDeviceExtensionSupport
  simp only [List.all_eq_true, List.any_eq_true, beq_iff_eq]
  constructor
  · intro h r hr
    obtain ⟨x, hx, hxr⟩ := h r hr
    exact hxr ▸ hx
  · intro h r hr
    exact ⟨r, h r hr, rfl⟩

theorem IsPhysicalDeviceSuitable_iff (physicalDevice : PhysicalDevice)
    (hb : physicalDevice.queueFamilies.length ≤ 2 ^ 31) :
    IsPhysicalDeviceSuitable physicalDevice = true ↔ adapterQualifies physicalDevice := by
  unfold IsPhysicalDeviceSuitable adapterQualifies
  simp only [Bool.and_eq_true]
  rw [FindQueueFamilies_complete_iff physicalDevice hb]
  by_cases hext : CheckDeviceExtensionSupport physicalDevice = true
  · have hext2 := (CheckDeviceExtensionSupport_iff physicalDevice).mp hext
    simp only [hext, if_true, Bool.and_eq_true, Bool.not_eq_true', List.isEmpty_eq_false]
    tauto
  · have hext2 : ¬ ∀ required ∈ gRequiredExtensions, required ∈ physicalDevice.extensions :=
      fun h => hext ((CheckDeviceExtensionSupport_iff physicalDevice).mpr h)
    simp only [hext, if_false]
    constructor
    · rintro ⟨_, h⟩
      simp at h
    · rintro ⟨h, _⟩
      exact absurd h hext2

theorem PickPhysicalDevice.loop_eq_none (physicalDevices : List PhysicalDevice)
    (hfam : ∀ pd ∈ physicalDevices, pd.queueFamilies.length ≤ 2 ^ 31) :
    PickPhysicalDevice.loop physicalDevices none = none ↔
      ∀ pd ∈ physicalDevices, ¬ adapterQualifies pd := by
  induction physicalDevices with
  | nil => simp [PickPhysicalDevice.loop]
  | cons pd rest ih =>
    have hpd := IsPhysicalDeviceSuitable_iff pd (hfam pd (List.mem_cons_self _ _))
    have hrest := ih (fun x hx => hfam x (List.mem_cons_of_mem _ hx))
    unfold PickPhysicalDevice.loop
    by_cases hs : IsPhysicalDeviceSuitable pd = true
    · rw [if_pos hs]
      simp only [reduceCtorEq, false_iff]
      intro h
      exact h pd (List.mem_cons_self _ _) (hpd.mp hs)
    · rw [if_neg hs, hrest]
      simp only [List.mem_cons, forall_eq_or_imp]
      exact ⟨fun h => ⟨fun hq => hs (hpd.mpr hq), h⟩, fun h => h.2⟩

theorem PickPhysicalDevice.loop_first (before after : List PhysicalDevice)
    (pd : PhysicalDevice) (m : Option PhysicalDevice)
    (hfam : ∀ x ∈ before ++ pd :: after, x.queueFamilies.length ≤ 2 ^ 31)
    (hbefore : ∀ x ∈ before, ¬ adapterQualifies x) (hpd : adapterQualifies pd) :
    PickPhysicalDevice.loop (before ++ pd :: after) m = some pd := by
  induction before with
  | nil =>
    have h := (IsPhysicalDeviceSuitable_iff pd (hfam pd (by simp))).mpr hpd
    simp only [List.nil_append, PickPhysicalDevice.loop, if_pos h]
  | cons x rest ih =>
    have hx : ¬ IsPhysicalDeviceSuitable x = true := fun h =>
      hbefore x (List.mem_cons_self _ _)
        ((IsPhysicalDeviceSuitable_iff x (hfam x (by simp))).mp h)
    simp only [List.cons_append, PickPhysicalDevice.loop, if_neg hx]
    exact ih (fun y hy => hfam y (by simp at hy ⊢; exact Or.inr hy))
      (fun y hy => hbefore y (List.mem_cons_of_mem _ hy))

/-- C15: started with no adapter selected, `PickPhysicalDevice` selects the
first adapter in enumeration order that supports every required extension,
has a graphics family, has a presentation family and reports at least one
surface format and one present mode; it throws exactly when the list is empty
or no adapter meets the four conditions.  (Each adapter reports at most `2^31`
queue families, so that a family index fits the `int` fields.) -/
theorem PickPhysicalDevice_first_qualifying (physicalDevices : List PhysicalDevice)
    (hfam : ∀ pd ∈ physicalDevices, pd.queueFamilies.length ≤ 2 ^ 31) :
    (∀ before pd after, physicalDevices = before ++ pd :: after →
      (∀ x ∈ before, ¬ adapterQualifies x) → adapterQualifies pd →
        PickPhysicalDevice physicalDevices none = Except.ok pd) ∧
    ((∃ e, PickPhysicalDevice physicalDevices none = Except.error e) ↔
      physicalDevices = [] ∨ ∀ pd ∈ physicalDevices, ¬ adapterQualifies pd) := by
  constructor
  · intro before pd after hsplit hbefore hpd
    subst hsplit
    have hlen : ¬ (before ++ pd :: after).length = 0 := by simp
    simp only [PickPhysicalDevice, if_neg hlen,
      PickPhysicalDevice.loop_first before after pd none hfam hbefore hpd]
  · by_cases hlen : physicalDevices.length = 0
    · have hnil : physicalDevices = [] := List.length_eq_zero.mp hlen
      simp only [PickPhysicalDevice, if_pos hlen, hnil, true_or, iff_true]
      exact ⟨_, rfl⟩
    · have hne : physicalDevices ≠ [] := fun h => hlen (by rw [h]; rfl)
      have hnone := PickPhysicalDevice.loop_eq_none physicalDevices hfam
      simp only [PickPhysicalDevice, if_neg hlen, hne, false_or]
      cases hl : PickPhysicalDevice.loop physicalDevices none with
      | none =>
        exact ⟨fun _ => hnone.mp hl, fun _ => ⟨_, rfl⟩⟩
      | some pd =>
        constructor
        · rintro ⟨e, he⟩
          cases he
        · intro hall
          rw [hnone.mpr hall] at hl
          cases hl

theorem PickPhysicalDevice_first_qualifying_witness :
    PickPhysicalDevice [headlessDevice, splitFamiliesDevice, secondFamilyDevice] none =
      Except.ok splitFamiliesDevice ∧
    ((∃ e, PickPhysicalDevice [headlessDevice] none = Except.error e) ↔
      [headlessDevice] = [] ∨ ∀ pd ∈ [headlessDevice], ¬ adapterQualifies pd) :=
  ⟨(PickPhysicalDevice_first_qualifying
      [headlessDevice, splitFamiliesDevice, secondFamilyDevice] (by decide)).1
      [headlessDevice] splitFamiliesDevice [secondFamilyDevice] rfl
      (fun x hx hq => by
        rw [List.mem_singleton.mp hx] at hq
        exact absurd (hq.1 "VK_KHR_swapchain" (by decide)) (by decide))
      ((IsPhysicalDeviceSuitable_iff splitFamiliesDevice (by decide)).mp (by decide)),
   (PickPhysicalDevice_first_qualifying [headlessDevice] (by decide)).2⟩

/-! ## Theorems: the swap chain and the objects derived from it -/

theorem Except.bind_eq_ok {α β : Type} {x : Except String α} {f : α → Except String β} {b : β}
    (h : (x >>= f) = Except.ok b) : ∃ a, x = Except.ok a ∧ f a = Except.ok b := by
  cases x with
  | error e => cases h
  | ok a => exact ⟨a, rfl, h⟩

theorem Except.ok_bind {α β : Type} (a : α) (f : α → Except String β) :
    ((Except.ok a : Except String α) >>= f) = f a := rfl

theorem vectorResize_length {α : Type} (v : List α) (n : Nat) (value : α) :
    (vectorResize v n value).length = n := by
  simp only [vectorResize, List.length_append, List.length_take, List.length_replicate]
  omega

theorem CreateSwapChainImageViews.views_loop_length (platform : ChainPlatform)
    (remaining i : Nat) (views result : List Nat)
    (h : CreateSwapChainImageViews.loop platform remaining i views = Except.ok result) :
    result.length = views.length := by
  induction remaining generalizing i views with
  | zero =>
    unfold CreateSwapChainImageViews.loop at h
    rw [← Except.ok.inj h]
  | succ n ih =>
    unfold CreateSwapChainImageViews.loop at h
    split at h
    · cases h
    · rw [ih _ _ h, List.length_set]

theorem CreateSwapChainImageViews.views_loop_succeeds (platform : ChainPlatform)
    (hs : ∀ i, platform.createImageViewResult i = VK_SUCCESS)
    (remaining i : Nat) (views : List Nat) :
    ∃ result, CreateSwapChainImageViews.loop platform remaining i views = Except.ok result := by
  induction remaining generalizing i views with
  | zero => exact ⟨views, rfl⟩
  | succ n ih =>
    unfold CreateSwapChainImageViews.loop
    rw [if_neg (fun h => h (hs i))]
    exact ih _ _

theorem CreateFramebuffers.framebuffers_loop_length (platform : ChainPlatform)
    (remaining i : Nat) (framebuffers result : List Nat)
    (h : CreateFramebuffers.loop platform remaining i framebuffers = Except.ok result) :
    result.length = framebuffers.length := by
  induction remaining generalizing i framebuffers with
  | zero =>
    unfold CreateFramebuffers.loop at h
    rw [← Except.ok.inj h]
  | succ n ih =>
    unfold CreateFramebuffers.loop at h
    split at h
    · cases h
    · rw [ih _ _ h, List.length_set]

theorem CreateFramebuffers.framebuffers_loop_succeeds (platform : ChainPlatform)
    (hs : ∀ i, platform.createFramebufferResult i = VK_SUCCESS)
    (remaining i : Nat) (framebuffers : List Nat) :
    ∃ result, CreateFramebuffers.loop platform remaining i framebuffers = Except.ok result := by
  induction remaining generalizing i framebuffers with
  | zero => exact ⟨framebuffers, rfl⟩
  | succ n ih =>
    unfold CreateFramebuffers.loop
    rw [if_neg (fun h => h (hs i))]
    exact ih _ _

theorem CreateSwapChain.step_ok (platform : ChainPlatform) (st st1 : ChainState)
    (h : CreateSwapChain.step platform st = Except.ok st1) :
    st1.mSwapChainImages = platform.swapchainImages := by
  unfold CreateSwapChain.step CreateSwapChain.chain at h
  by_cases hr : platform.createSwapchainResult ≠ 0
  · simp only [if_pos hr] at h
    cases h
  · simp only [if_neg hr] at h
    rw [← Except.ok.inj h]

theorem CreateSwapChainImageViews_ok (platform : ChainPlatform) (st st1 : ChainState)
    (h : CreateSwapChainImageViews platform st = Except.ok st1) :
    st1.mSwapChainImageViews.length = st.mSwapChainImages.length ∧
      st1.mSwapChainImages = st.mSwapChainImages := by
  unfold CreateSwapChainImageViews at h
  cases hl : CreateSwapChainImageViews.loop platform st.mSwapChainImages.length 0
    (vectorResize st.mSwapChainImageViews st.mSwapChainImages.length VK_NULL_HANDLE) with
  | error e => simp only [hl] at h; cases h
  | ok views =>
  simp only [hl] at h
  rw [← Except.ok.inj h]
  exact ⟨by rw [CreateSwapChainImageViews.views_loop_length _ _ _ _ _ hl, vectorResize_length], rfl⟩

theorem CreateFramebuffers_ok (platform : ChainPlatform) (st st1 : ChainState)
    (h : CreateFramebuffers platform st = Except.ok st1) :
    st1.mFramebuffers.length = st.mSwapChainImageViews.length ∧
      st1.mSwapChainImageViews = st.mSwapChainImageViews ∧
      st1.mSwapChainImages = st.mSwapChainImages := by
  unfold CreateFramebuffers at h
  cases hl : CreateFramebuffers.loop platform st.mSwapChainImageViews.length 0
    (vectorResize st.mFramebuffers st.mSwapChainImageViews.length VK_NULL_HANDLE) with
  | error e => simp only [hl] at h; cases h
  | ok framebuffers =>
  simp only [hl] at h
  rw [← Except.ok.inj h]
  exact ⟨by rw [CreateFramebuffers.framebuffers_loop_length _ _ _ _ _ hl, vectorResize_length], rfl, rfl⟩

theorem otherStep_ok (platform : ChainPlatform) (step : OtherStep) (st st1 : ChainState)
    (h : otherStep platform step st = Except.ok st1) : st1 = st := by
  unfold otherStep at h
  split at h
  · cases h
  · exact (Except.ok.inj h).symm

theorem RecreateSwapChain.rebuild_ok (platform : ChainPlatform) (st st1 : ChainState)
    (h : RecreateSwapChain.chain platform st = Except.ok st1) :
    st1.countsAgree ∧ st1.mSwapChainImages = platform.swapchainImages := by
  unfold RecreateSwapChain.chain at h
  obtain ⟨s6, h, h7⟩ := Except.bind_eq_ok h
  obtain ⟨s5, h, h6⟩ := Except.bind_eq_ok h
  obtain ⟨s4, h, h5⟩ := Except.bind_eq_ok h
  obtain ⟨s3, h, h4⟩ := Except.bind_eq_ok h
  obtain ⟨s2, h, h3⟩ := Except.bind_eq_ok h
  obtain ⟨s1, h1, h2⟩ := Except.bind_eq_ok h
  have e7 := otherStep_ok _ _ _ _ h7
  have e5 := otherStep_ok _ _ _ _ h5
  have e4 := otherStep_ok _ _ _ _ h4
  have e3 := otherStep_ok _ _ _ _ h3
  subst e7 e5 e4 e3
  obtain ⟨f1, f2, f3⟩ := CreateFramebuffers_ok _ _ _ h6
  obtain ⟨v1, v2⟩ := CreateSwapChainImageViews_ok _ _ _ h2
  have c1 := CreateSwapChain.step_ok _ _ _ h1
  refine ⟨⟨f1.trans (by rw [f2]), ?_⟩, by rw [f3, v2, c1]⟩
  rw [f2, f3, v1, v2]

theorem InitVulkan.startup_ok (platform : ChainPlatform) (st st1 : ChainState)
    (h : InitVulkan.chain platform st = Except.ok st1) :
    st1.countsAgree ∧ st1.mSwapChainImages = platform.swapchainImages := by
  unfold InitVulkan.chain at h
  obtain ⟨s12, h, h13⟩ := Except.bind_eq_ok h
  obtain ⟨s11, h, h12⟩ := Except.bind_eq_ok h
  obtain ⟨s10, h, h11⟩ := Except.bind_eq_ok h
  obtain ⟨s9, h, h10⟩ := Except.bind_eq_ok h
  obtain ⟨s8, h, h9⟩ := Except.bind_eq_ok h
  obtain ⟨s7, h, h8⟩ := Except.bind_eq_ok h
  obtain ⟨s6, h, h7⟩ := Except.bind_eq_ok h
  obtain ⟨s5, h, h6⟩ := Except.bind_eq_ok h
  obtain ⟨s4, h, h5⟩ := Except.bind_eq_ok h
  obtain ⟨s3, h, h4⟩ := Except.bind_eq_ok h
  obtain ⟨s2, h, h3⟩ := Except.bind_eq_ok h
  obtain ⟨s1, h1, h2⟩ := Except.bind_eq_ok h
  have e13 := otherStep_ok _ _ _ _ h13
  have e12 := otherStep_ok _ _ _ _ h12
  have e11 := otherStep_ok _ _ _ _ h11
  have e10 := otherStep_ok _ _ _ _ h10
  have e9 := otherStep_ok _ _ _ _ h9
  have e7 := otherStep_ok _ _ _ _ h7
  have e6 := otherStep_ok _ _ _ _ h6
  have e5 := otherStep_ok _ _ _ _ h5
  have e4 := otherStep_ok _ _ _ _ h4
  have e3 := otherStep_ok _ _ _ _ h3
  subst e13 e12 e11 e10 e9 e7 e6 e5 e4 e3
  obtain ⟨f1, f2, f3⟩ := CreateFramebuffers_ok _ _ _ h8
  obtain ⟨v1, v2⟩ := CreateSwapChainImageViews_ok _ _ _ h2
  have c1 := CreateSwapChain.step_ok _ _ _ h1
  refine ⟨⟨f1.trans (by rw [f2]), ?_⟩, by rw [f3, v2, c1]⟩
  rw [f2, f3, v1, v2]

theorem CreateSwapChain.step_succeeds (platform : ChainPlatform) (st : ChainState)
    (hs : platform.succeeds) : ∃ st1, CreateSwapChain.step platform st = Except.ok st1 := by
  have hr : ¬ platform.createSwapchainResult ≠ 0 := fun h => h hs.1
  unfold CreateSwapChain.step CreateSwapChain.chain
  simp only [if_neg hr]
  exact ⟨_, rfl⟩

theorem CreateSwapChainImageViews_succeeds (platform : ChainPlatform) (st : ChainState)
    (hs : platform.succeeds) : ∃ st1, CreateSwapChainImageViews platform st = Except.ok st1 := by
  obtain ⟨views, hv⟩ := CreateSwapChainImageViews.views_loop_succeeds platform hs.2.1
    st.mSwapChainImages.length 0
    (vectorResize st.mSwapChainImageViews st.mSwapChainImages.length VK_NULL_HANDLE)
  unfold CreateSwapChainImageViews
  simp only [hv]
  exact ⟨_, rfl⟩

theorem CreateFramebuffers_succeeds (platform : ChainPlatform) (st : ChainState)
    (hs : platform.succeeds) : ∃ st1, CreateFramebuffers platform st = Except.ok st1 := by
  obtain ⟨framebuffers, hv⟩ := CreateFramebuffers.framebuffers_loop_succeeds platform hs.2.2.1
    st.mSwapChainImageViews.length 0
    (vectorResize st.mFramebuffers st.mSwapChainImageViews.length VK_NULL_HANDLE)
  unfold CreateFramebuffers
  simp only [hv]
  exact ⟨_, rfl⟩

theorem otherStep_succeeds (platform : ChainPlatform) (step : OtherStep) (st : ChainState)
    (hs : platform.succeeds) : otherStep platform step st = Except.ok st := by
  unfold otherStep
  rw [hs.2.2.2 step]
  rfl

theorem RecreateSwapChain.rebuild_succeeds (platform : ChainPlatform) (st : ChainState)
    (hs : platform.succeeds) : ∃ st1, RecreateSwapChain.chain platform st = Except.ok st1 := by
  obtain ⟨s1, h1⟩ := CreateSwapChain.step_succeeds platform st hs
  obtain ⟨s2, h2⟩ := CreateSwapChainImageViews_succeeds platform s1 hs
  obtain ⟨s3, h3⟩ := CreateFramebuffers_succeeds platform s2 hs
  refine ⟨s3, ?_⟩
  unfold RecreateSwapChain.chain
  rw [h1, Except.ok_bind, h2, Except.ok_bind, otherStep_succeeds _ _ _ hs, Except.ok_bind,
    otherStep_succeeds _ _ _ hs, Except.ok_bind, otherStep_succeeds _ _ _ hs, Except.ok_bind,
    h3, Except.ok_bind, otherStep_succeeds _ _ _ hs]

theorem InitVulkan.startup_succeeds (platform : ChainPlatform) (st : ChainState)
    (hs : platform.succeeds) : ∃ st1, InitVulkan.chain platform st = Except.ok st1 := by
  obtain ⟨s1, h1⟩ := CreateSwapChain.step_succeeds platform st hs
  obtain ⟨s2, h2⟩ := CreateSwapChainImageViews_succeeds platform s1 hs
  obtain ⟨s3, h3⟩ := CreateFramebuffers_succeeds platform s2 hs
  refine ⟨s3, ?_⟩
  unfold InitVulkan.chain
  rw [h1, Except.ok_bind, h2, Except.ok_bind, otherStep_succeeds _ _ _ hs, Except.ok_bind,
    otherStep_succeeds _ _ _ hs, Except.ok_bind, otherStep_succeeds _ _ _ hs, Except.ok_bind,
    otherStep_succeeds _ _ _ hs, Except.ok_bind, otherStep_succeeds _ _ _ hs, Except.ok_bind,
    h3, Except.ok_bind, otherStep_succeeds _ _ _ hs, Except.ok_bind,
    otherStep_succeeds _ _ _ hs, Except.ok_bind, otherStep_succeeds _ _ _ hs, Except.ok_bind,
    otherStep_succeeds _ _ _ hs, Except.ok_bind, otherStep_succeeds _ _ _ hs]

theorem rebuildSequence_ok (rebuilds : List ChainPlatform) (st st1 : ChainState)
    (hst : st.countsAgree)
    (h : rebuildSequence rebuilds st = Except.ok st1) : st1.countsAgree := by
  induction rebuilds generalizing st with
  | nil =>
    unfold rebuildSequence at h
    rw [← Except.ok.inj h]
    exact hst
  | cons platform rest ih =>
    unfold rebuildSequence at h
    obtain ⟨s, h1, h2⟩ := Except.bind_eq_ok h
    exact ih s (RecreateSwapChain.rebuild_ok platform st s h1).1 h2

theorem rebuildSequence_images (rebuilds : List ChainPlatform) (st st1 : ChainState)
    (last : ChainPlatform) (hst : st.mSwapChainImages = last.swapchainImages)
    (h : rebuildSequence rebuilds st = Except.ok st1) :
    st1.mSwapChainImages = (rebuilds.getLastD last).swapchainImages := by
  induction rebuilds generalizing st last with
  | nil =>
    unfold rebuildSequence at h
    rw [← Except.ok.inj h]
    exact hst
  | cons platform rest ih =>
    unfold rebuildSequence at h
    obtain ⟨s, h1, h2⟩ := Except.bind_eq_ok h
    have := ih s platform (RecreateSwapChain.rebuild_ok platform st s h1).2 h2
    rw [this, List.getLastD_cons]

theorem rebuildSequence_succeeds (rebuilds : List ChainPlatform) (st : ChainState)
    (hs : ∀ p ∈ rebuilds, p.succeeds) : ∃ st1, rebuildSequence rebuilds st = Except.ok st1 := by
  induction rebuilds generalizing st with
  | nil => exact ⟨st, rfl⟩
  | cons platform rest ih =>
    obtain ⟨s, h1⟩ := RecreateSwapChain.rebuild_succeeds platform st
      (hs platform (List.mem_cons_self _ _))
    obtain ⟨s2, h2⟩ := ih s (fun p hp => hs p (List.mem_cons_of_mem _ hp))
    refine ⟨s2, ?_⟩
    unfold rebuildSequence
    rw [h1, Except.ok_bind, h2]

/-- C12: whenever start-up followed by any sequence of rebuilds returns
normally, whatever image count the platform reports each time, the number of
framebuffers equals the number of swap-chain image views, which equals the
number of images of the chain created last; and the whole sequence does return
normally whenever no platform call fails. -/
theorem startThenRebuild_countsAgree (first : ChainPlatform) (rebuilds : List ChainPlatform) :
    (∀ st, startThenRebuild first rebuilds = Except.ok st →
      st.mFramebuffers.length = st.mSwapChainImageViews.length ∧
      st.mSwapChainImageViews.length = st.mSwapChainImages.length ∧
      st.mSwapChainImages = (rebuilds.getLastD first).swapchainImages) ∧
    (first.succeeds → (∀ p ∈ rebuilds, p.succeeds) →
      ∃ st, startThenRebuild first rebuilds = Except.ok st) := by
  constructor
  · intro st h
    unfold startThenRebuild at h
    obtain ⟨s, h1, h2⟩ := Except.bind_eq_ok h
    obtain ⟨hc, hi⟩ := InitVulkan.startup_ok first _ s h1
    have hc1 := rebuildSequence_ok rebuilds s st hc h2
    exact ⟨hc1.1, hc1.2, rebuildSequence_images rebuilds s st first hi h2⟩
  · intro hf hr
    obtain ⟨s, h1⟩ := InitVulkan.startup_succeeds first ChainState.initial hf
    obtain ⟨s2, h2⟩ := rebuildSequence_succeeds rebuilds s hr
    refine ⟨s2, ?_⟩
    unfold startThenRebuild
    rw [h1, Except.ok_bind, h2]

theorem startThenRebuild_countsAgree_witness :
    ∃ st, startThenRebuild (ChainPlatform.withImages 1 3)
        [ChainPlatform.withImages 2 3, ChainPlatform.withImages 3 3,
         ChainPlatform.withImages 4 2] = Except.ok st ∧
      st.mFramebuffers.length = st.mSwapChainImageViews.length ∧
      st.mSwapChainImageViews.length = st.mSwapChainImages.length ∧
      st.mSwapChainImages = (ChainPlatform.withImages 4 2).swapchainImages :=
  let ⟨st, h⟩ := (startThenRebuild_countsAgree (ChainPlatform.withImages 1 3)
      [ChainPlatform.withImages 2 3, ChainPlatform.withImages 3 3,
       ChainPlatform.withImages 4 2]).2
    ⟨rfl, fun _ => rfl, fun _ => rfl, fun _ => rfl⟩
    (fun p hp => by
      simp only [List.mem_cons, List.mem_singleton, List.not_mem_nil, or_false] at hp
      rcases hp with h | h | h <;> rw [h] <;>
        exact ⟨rfl, fun _ => rfl, fun _ => rfl, fun _ => rfl⟩)
  ⟨st, h, (startThenRebuild_countsAgree (ChainPlatform.withImages 1 3)
      [ChainPlatform.withImages 2 3, ChainPlatform.withImages 3 3,
       ChainPlatform.withImages 4 2]).1 st h⟩

/-- C18: `CreateSwapChain` passes the held chain (possibly null) as the
old-chain hint.  If creation fails it throws, and the held chain is the same
as before and no destroy call has been made.  If creation succeeds, the new
handle becomes the held chain, and a previously held non-null chain is
destroyed exactly once, after the create call. -/
theorem CreateSwapChain_replaces_chain (platform : ChainPlatform) (st : ChainState) :
    (platform.createSwapchainResult ≠ VK_SUCCESS →
      (CreateSwapChain.chain platform st).1 = Except.error "Failed to create swap chain!" ∧
      (CreateSwapChain.chain platform st).2.mSwapChain = st.mSwapChain ∧
      (CreateSwapChain.chain platform st).2.calls =
        st.calls ++ [ChainCall.vkCreateSwapchainKHR st.mSwapChain]) ∧
    (platform.createSwapchainResult = VK_SUCCESS →
      (CreateSwapChain.chain platform st).1 = Except.ok () ∧
      (CreateSwapChain.chain platform st).2.mSwapChain = platform.newSwapChain ∧
      (st.mSwapChain ≠ VK_NULL_HANDLE →
        (CreateSwapChain.chain platform st).2.calls =
          st.calls ++ [ChainCall.vkCreateSwapchainKHR st.mSwapChain,
            ChainCall.vkDestroySwapchainKHR st.mSwapChain]) ∧
      (st.mSwapChain = VK_NULL_HANDLE →
        (CreateSwapChain.chain platform st).2.calls =
          st.calls ++ [ChainCall.vkCreateSwapchainKHR VK_NULL_HANDLE])) := by
  constructor
  · intro h
    simp only [CreateSwapChain.chain, if_pos h, and_self]
  · intro h
    have hr : ¬ platform.createSwapchainResult ≠ 0 := fun hn => hn h
    simp only [CreateSwapChain.chain, if_neg hr, true_and]
    constructor
    · intro hn
      simp only [if_pos hn, List.append_assoc, List.singleton_append]
    · intro hn
      have hnn : ¬ st.mSwapChain ≠ VK_NULL_HANDLE := fun h => h hn
      rw [if_neg hnn, hn]

theorem CreateSwapChain_replaces_chain_witness :
    ((CreateSwapChain.chain
          { ChainPlatform.withImages 8 3 with createSwapchainResult := VK_ERROR_DEVICE_LOST }
          { ChainState.initial with mSwapChain := 7 }).1 =
        Except.error "Failed to create swap chain!" ∧
      (CreateSwapChain.chain
          { ChainPlatform.withImages 8 3 with createSwapchainResult := VK_ERROR_DEVICE_LOST }
          { ChainState.initial with mSwapChain := 7 }).2.mSwapChain = 7 ∧
      (CreateSwapChain.chain
          { ChainPlatform.withImages 8 3 with createSwapchainResult := VK_ERROR_DEVICE_LOST }
          { ChainState.initial with mSwapChain := 7 }).2.calls =
        [] ++ [ChainCall.vkCreateSwapchainKHR 7]) ∧
    (CreateSwapChain.chain (ChainPlatform.withImages 8 3)
        { ChainState.initial with mSwapChain := 7 }).2.calls =
      [] ++ [ChainCall.vkCreateSwapchainKHR 7, ChainCall.vkDestroySwapchainKHR 7] ∧
    (CreateSwapChain.chain (ChainPlatform.withImages 8 3) ChainState.initial).2.calls =
      [] ++ [ChainCall.vkCreateSwapchainKHR VK_NULL_HANDLE] :=
  ⟨(CreateSwapChain_replaces_chain
      { ChainPlatform.withImages 8 3 with createSwapchainResult := VK_ERROR_DEVICE_LOST }
      { ChainState.initial with mSwapChain := 7 }).1 (by decide),
   ((CreateSwapChain_replaces_chain (ChainPlatform.withImages 8 3)
      { ChainState.initial with mSwapChain := 7 }).2 rfl).2.2.1 (by decide),
   ((CreateSwapChain_replaces_chain (ChainPlatform.withImages 8 3)
      ChainState.initial).2 rfl).2.2.2 rfl⟩

/-! ## Theorems: descriptor layout and descriptor writes -/

theorem CreateDescriptorSet.fillMaps_spec (maps : List Texture)
    (filled blank : List VkDescriptorImageInfo) (written : List Nat)
    (hroom : maps.length ≤ blank.length) (hfit : filled.length + maps.length < 2 ^ 32) :
    CreateDescriptorSet.fillMaps maps
        { descImageInfo := filled ++ blank, descIndex := filled.length, written := written } =
      { descImageInfo :=
          filled ++ maps.map CreateDescriptorSet.imageInfo ++ blank.drop maps.length,
        descIndex := filled.length + maps.length,
        written := written ++ List.range' filled.length maps.length } := by
  induction maps generalizing filled blank written with
  | nil => simp [CreateDescriptorSet.fillMaps]
  | cons texture rest ih =>
    cases blank with
    | nil => simp at hroom
    | cons b bs =>
      have hroom1 : rest.length ≤ bs.length := by simpa using hroom
      have hlen : (filled ++ [CreateDescriptorSet.imageInfo texture]).length =
          filled.length + 1 := by simp
      have hfit1 : (filled ++ [CreateDescriptorSet.imageInfo texture]).length + rest.length
          < 2 ^ 32 := by
        rw [hlen]; simp only [List.length_cons] at hfit; omega
      have hmod : (filled.length + 1) % 2 ^ 32 = filled.length + 1 := by
        apply Nat.mod_eq_of_lt
        simp only [List.length_cons] at hfit; omega
      have hset : (filled ++ b :: bs).set filled.length (CreateDescriptorSet.imageInfo texture) =
          (filled ++ [CreateDescriptorSet.imageInfo texture]) ++ bs := by
        rw [List.set_append_right _ _ (le_refl _)]
        simp
      have hstep := ih (filled ++ [CreateDescriptorSet.imageInfo texture]) bs
        (written ++ [filled.length]) hroom1 hfit1
      unfold CreateDescriptorSet.fillMaps at hstep ⊢
      rw [List.foldl_cons]
      simp only [hset, hmod]
      rw [hlen] at hstep
      rw [hstep]
      simp only [List.map_cons, List.append_assoc, List.singleton_append, List.length_cons,
        List.drop_succ_cons, List.range'_succ, ImageInfoFill.mk.injEq, true_and, and_true]
      omega

theorem CreateDescriptorSet.imageInfos_eq (mat : Material)
    (hfit : mat.diffuseMaps.length + mat.normalMaps.length + mat.specularMaps.length < 2 ^ 32) :
    CreateDescriptorSet.imageInfos mat =
      { descImageInfo :=
          (mat.diffuseMaps ++ mat.normalMaps ++ mat.specularMaps).map
            CreateDescriptorSet.imageInfo,
        descIndex := mat.diffuseMaps.length + mat.normalMaps.length + mat.specularMaps.length,
        written := List.range
          (mat.diffuseMaps.length + mat.normalMaps.length + mat.specularMaps.length) } := by
  have hcount : mat.GetTextureCount =
      mat.diffuseMaps.length + mat.normalMaps.length + mat.specularMaps.length :=
    Nat.mod_eq_of_lt hfit
  unfold CreateDescriptorSet.imageInfos
  simp only [hcount, vectorResize, List.take_nil, List.length_nil, Nat.sub_zero,
    List.nil_append]
  have h1 := CreateDescriptorSet.fillMaps_spec mat.diffuseMaps []
    (List.replicate
      (mat.diffuseMaps.length + mat.normalMaps.length + mat.specularMaps.length)
      { sampler := 0, imageView := 0, imageLayout := 0 }) []
    (by simp; omega) (by simp; omega)
  simp only [List.nil_append, List.length_nil, Nat.zero_add] at h1
  rw [h1]
  have h2 := CreateDescriptorSet.fillMaps_spec mat.normalMaps
    (mat.diffuseMaps.map CreateDescriptorSet.imageInfo)
    ((List.replicate
      (mat.diffuseMaps.length + mat.normalMaps.length + mat.specularMaps.length)
      { sampler := 0, imageView := 0, imageLayout := 0 }).drop mat.diffuseMaps.length)
    (List.range' 0 mat.diffuseMaps.length)
    (by simp; omega) (by simp; omega)
  simp only [List.length_map] at h2
  rw [h2]
  have h3 := CreateDescriptorSet.fillMaps_spec mat.specularMaps
    (mat.diffuseMaps.map CreateDescriptorSet.imageInfo ++
      mat.normalMaps.map CreateDescriptorSet.imageInfo)
    (((List.replicate
      (mat.diffuseMaps.length + mat.normalMaps.length + mat.specularMaps.length)
      { sampler := 0, imageView := 0, imageLayout := 0 }).drop mat.diffuseMaps.length).drop
        mat.normalMaps.length)
    (List.range' 0 mat.diffuseMaps.length ++
      List.range' mat.diffuseMaps.length mat.normalMaps.length)
    (by simp; omega) (by simp; omega)
  simp only [List.length_map, List.length_append] at h3
  rw [h3]
  have hdrop : (((List.replicate
      (mat.diffuseMaps.length + mat.normalMaps.length + mat.specularMaps.length)
      ({ sampler := 0, imageView := 0, imageLayout := 0 } : VkDescriptorImageInfo)).drop
        mat.diffuseMaps.length).drop mat.normalMaps.length).drop mat.specularMaps.length
      = [] := by
    apply List.eq_nil_of_length_eq_zero
    simp only [List.length_drop, List.length_replicate]
    omega
  have hr : List.range' 0 mat.diffuseMaps.length ++
      List.range' mat.diffuseMaps.length mat.normalMaps.length ++
      List.range' (mat.diffuseMaps.length + mat.normalMaps.length) mat.specularMaps.length =
      List.range
        (mat.diffuseMaps.length + mat.normalMaps.length + mat.specularMaps.length) := by
    have e1 := List.range'_append_1 0 mat.diffuseMaps.length mat.normalMaps.length
    have e2 := List.range'_append_1 0 (mat.diffuseMaps.length + mat.normalMaps.length)
      mat.specularMaps.length
    simp only [Nat.zero_add] at e1 e2
    rw [e1, Nat.add_comm mat.normalMaps.length mat.diffuseMaps.length, e2,
      List.range_eq_range',
      Nat.add_comm mat.specularMaps.length
        (mat.diffuseMaps.length + mat.normalMaps.length)]
  rw [hdrop, hr]
  simp only [List.append_nil, List.map_append]

theorem CreateDescriptorSet.imageWrites_eq (mat : Material)
    (hfit : mat.diffuseMaps.length + mat.normalMaps.length + mat.specularMaps.length < 2 ^ 32) :
    CreateDescriptorSet.imageWrites mat =
      [(1, 0, mat.diffuseMaps.length),
       (2, mat.diffuseMaps.length, mat.normalMaps.length),
       (3, mat.diffuseMaps.length + mat.normalMaps.length, mat.specularMaps.length)] := by
  have hd : mat.diffuseMaps.length % 2 ^ 32 = mat.diffuseMaps.length :=
    Nat.mod_eq_of_lt (by omega)
  have hn : mat.normalMaps.length % 2 ^ 32 = mat.normalMaps.length :=
    Nat.mod_eq_of_lt (by omega)
  have hs : mat.specularMaps.length % 2 ^ 32 = mat.specularMaps.length :=
    Nat.mod_eq_of_lt (by omega)
  simp only [CreateDescriptorSet.imageWrites, CreateDescriptorSet.writeDescSets, hd, hn, hs]
  rfl

theorem getElem?_append_three {α : Type} (xs ys zs : List α) (k : Nat) (x : α) :
    (xs[k]? = some x → (xs ++ ys ++ zs)[k]? = some x) ∧
    (ys[k]? = some x → (xs ++ ys ++ zs)[xs.length + k]? = some x) ∧
    (zs[k]? = some x → (xs ++ ys ++ zs)[xs.length + ys.length + k]? = some x) := by
  refine ⟨fun h => ?_, fun h => ?_, fun h => ?_⟩
  · have hk : k < xs.length := (List.getElem?_eq_some.mp h).1
    rw [List.getElem?_append_left (by rw [List.length_append]; omega),
      List.getElem?_append_left hk]
    exact h
  · have hk : k < ys.length := (List.getElem?_eq_some.mp h).1
    rw [List.getElem?_append_left (by rw [List.length_append]; omega),
      List.getElem?_append_right (Nat.le_add_right _ _), Nat.add_sub_cancel_left]
    exact h
  · rw [List.getElem?_append_right (by rw [List.length_append]; omega), List.length_append,
      Nat.add_sub_cancel_left]
    exact h

/-- C16: for a material with `d` diffuse, `n` normal and `s` specular maps
(`d + n + s` fitting the `unsigned int` of `GetTextureCount`), the backing
array of `CreateDescriptorSet` has length `d + n + s`; its entry at position
`k` carries the image view and the sampler of diffuse map `k`, its entry at
`d + k` those of normal map `k`, and its entry at `d + n + k` those of specular
map `k`, each with the shader-read-only layout, so that the array is the
diffuse maps, then the normal maps, then the specular maps in material order;
the positions written are `0, 1, ..., d+n+s-1`, each once and each inside the
array; and the image-array writes are binding 1 at offset 0 with count `d`,
binding 2 at offset `d` with count `n`, binding 3 at offset `d + n` with
count `s`. -/
theorem CreateDescriptorSet_image_array_layout (mat : Material)
    (hfit : mat.diffuseMaps.length + mat.normalMaps.length + mat.specularMaps.length < 2 ^ 32) :
    (CreateDescriptorSet.imageInfos mat).descImageInfo =
      (mat.diffuseMaps ++ mat.normalMaps ++ mat.specularMaps).map
        (fun texture =>
          ({ sampler := texture.sampler, imageView := texture.imageView,
             imageLayout := VK_IMAGE_LAYOUT_SHADER_READ_ONLY_OPTIMAL } :
            VkDescriptorImageInfo)) ∧
    (∀ (k : Nat) (texture : Texture),
      (mat.diffuseMaps[k]? = some texture →
        (CreateDescriptorSet.imageInfos mat).descImageInfo[k]? =
          some { sampler := texture.sampler, imageView := texture.imageView,
                 imageLayout := VK_IMAGE_LAYOUT_SHADER_READ_ONLY_OPTIMAL }) ∧
      (mat.normalMaps[k]? = some texture →
        (CreateDescriptorSet.imageInfos mat).descImageInfo[mat.diffuseMaps.length + k]? =
          some { sampler := texture.sampler, imageView := texture.imageView,
                 imageLayout := VK_IMAGE_LAYOUT_SHADER_READ_ONLY_OPTIMAL }) ∧
      (mat.specularMaps[k]? = some texture →
        (CreateDescriptorSet.imageInfos mat).descImageInfo[
            mat.diffuseMaps.length + mat.normalMaps.length + k]? =
          some { sampler := texture.sampler, imageView := texture.imageView,
                 imageLayout := VK_IMAGE_LAYOUT_SHADER_READ_ONLY_OPTIMAL })) ∧
    (CreateDescriptorSet.imageInfos mat).descImageInfo.length =
      mat.diffuseMaps.length + mat.normalMaps.length + mat.specularMaps.length ∧
    (CreateDescriptorSet.imageInfos mat).written =
      List.range (mat.diffuseMaps.length + mat.normalMaps.length + mat.specularMaps.length) ∧
    (∀ k ∈ (CreateDescriptorSet.imageInfos mat).written,
      k < (CreateDescriptorSet.imageInfos mat).descImageInfo.length) ∧
    CreateDescriptorSet.imageWrites mat =
      [(1, 0, mat.diffuseMaps.length),
       (2, mat.diffuseMaps.length, mat.normalMaps.length),
       (3, mat.diffuseMaps.length + mat.normalMaps.length, mat.specularMaps.length)] := by
  have hfill := CreateDescriptorSet.imageInfos_eq mat hfit
  have harr : (CreateDescriptorSet.imageInfos mat).descImageInfo =
      (mat.diffuseMaps ++ mat.normalMaps ++ mat.specularMaps).map
        (fun texture =>
          ({ sampler := texture.sampler, imageView := texture.imageView,
             imageLayout := VK_IMAGE_LAYOUT_SHADER_READ_ONLY_OPTIMAL } :
            VkDescriptorImageInfo)) := by
    rw [hfill]
    rfl
  have hlen : (CreateDescriptorSet.imageInfos mat).descImageInfo.length =
      mat.diffuseMaps.length + mat.normalMaps.length + mat.specularMaps.length := by
    rw [harr, List.length_map, List.length_append, List.length_append]
  have hwr : (CreateDescriptorSet.imageInfos mat).written =
      List.range (mat.diffuseMaps.length + mat.normalMaps.length + mat.specularMaps.length) := by
    rw [hfill]
  refine ⟨harr, ?_, hlen, hwr, ?_, CreateDescriptorSet.imageWrites_eq mat hfit⟩
  · intro k texture
    have h3 := getElem?_append_three mat.diffuseMaps mat.normalMaps mat.specularMaps k texture
    refine ⟨fun h => ?_, fun h => ?_, fun h => ?_⟩
    · rw [harr, List.getElem?_map, h3.1 h]
      rfl
    · rw [harr, List.getElem?_map, h3.2.1 h]
      rfl
    · rw [harr, List.getElem?_map, h3.2.2 h]
      rfl
  · intro k hk
    rw [hwr] at hk
    rw [hlen]
    exact List.mem_range.mp hk

theorem CreateDescriptorSet_image_array_layout_witness :
    (CreateDescriptorSet.imageInfos barrelMaterial).descImageInfo =
      (barrelMaterial.diffuseMaps ++ barrelMaterial.normalMaps ++
        barrelMaterial.specularMaps).map
        (fun texture =>
          ({ sampler := texture.sampler, imageView := texture.imageView,
             imageLayout := VK_IMAGE_LAYOUT_SHADER_READ_ONLY_OPTIMAL } :
            VkDescriptorImageInfo)) ∧
    (CreateDescriptorSet.imageInfos barrelMaterial).descImageInfo[2 + 1]? =
      some { sampler := 24, imageView := 14,
             imageLayout := VK_IMAGE_LAYOUT_SHADER_READ_ONLY_OPTIMAL } ∧
    (CreateDescriptorSet.imageInfos barrelMaterial).written = List.range (2 + 2 + 2) ∧
    CreateDescriptorSet.imageWrites barrelMaterial = [(1, 0, 2), (2, 2, 2), (3, 2 + 2, 2)] :=
  ⟨(CreateDescriptorSet_image_array_layout barrelMaterial (by decide)).1,
   ((CreateDescriptorSet_image_array_layout barrelMaterial (by decide)).2.1 1 ⟨14, 24⟩).2.1 rfl,
   (CreateDescriptorSet_image_array_layout barrelMaterial (by decide)).2.2.2.1,
   (CreateDescriptorSet_image_array_layout barrelMaterial (by decide)).2.2.2.2.2⟩

/-- C17 (as stated, refuted): the sampler arrays of the layout are not sized
to the material; for a material with a single diffuse map the layout still
declares two descriptors for each of bindings 1, 2 and 3. -/
theorem CreateDescriptorSetLayout_not_material_sized :
    ¬ (∀ mat : Material, CreateDescriptorSetLayout.bindings = materialSizedLayout mat) := by
  intro h
  have h1 := h singleMapMaterial
  revert h1
  decide

/-- C17 (amended): `CreateDescriptorSetLayout` declares exactly five bindings
numbered 0 to 4: binding 0 a uniform buffer (count 1, vertex stage), bindings
1, 2, 3 combined-image-sampler arrays (fragment stage) with the fixed
descriptor count 2 each, binding 4 a uniform buffer (count 1, fragment stage);
the layout is the material-sized one, and its sampler counts equal the counts
written by `CreateDescriptorSet`, exactly when the material has 2 diffuse, 2
normal and 2 specular maps. -/
theorem CreateDescriptorSetLayout_fixed_counts (mat : Material) :
    CreateDescriptorSetLayout.bindings =
      [{ binding := 0, descriptorType := VK_DESCRIPTOR_TYPE_UNIFORM_BUFFER,
         descriptorCount := 1, stageFlags := VK_SHADER_STAGE_VERTEX_BIT },
       { binding := 1, descriptorType := VK_DESCRIPTOR_TYPE_COMBINED_IMAGE_SAMPLER,
         descriptorCount := 2, stageFlags := VK_SHADER_STAGE_FRAGMENT_BIT },
       { binding := 2, descriptorType := VK_DESCRIPTOR_TYPE_COMBINED_IMAGE_SAMPLER,
         descriptorCount := 2, stageFlags := VK_SHADER_STAGE_FRAGMENT_BIT },
       { binding := 3, descriptorType := VK_DESCRIPTOR_TYPE_COMBINED_IMAGE_SAMPLER,
         descriptorCount := 2, stageFlags := VK_SHADER_STAGE_FRAGMENT_BIT },
       { binding := 4, descriptorType := VK_DESCRIPTOR_TYPE_UNIFORM_BUFFER,
         descriptorCount := 1, stageFlags := VK_SHADER_STAGE_FRAGMENT_BIT }] ∧
    (CreateDescriptorSetLayout.bindings = materialSizedLayout mat ↔
      mat.diffuseMaps.length = 2 ∧ mat.normalMaps.length = 2 ∧ mat.specularMaps.length = 2) ∧
    (mat.diffuseMaps.length + mat.normalMaps.length + mat.specularMaps.length < 2 ^ 32 →
      ((CreateDescriptorSet.imageWrites mat).map (fun w => (w.1, w.2.2)) =
          (CreateDescriptorSetLayout.bindings.filter
            (fun b => b.descriptorType == VK_DESCRIPTOR_TYPE_COMBINED_IMAGE_SAMPLER)).map
            (fun b => (b.binding, b.descriptorCount)) ↔
        mat.diffuseMaps.length = 2 ∧ mat.normalMaps.length = 2 ∧
          mat.specularMaps.length = 2)) := by
  refine ⟨rfl, ?_, ?_⟩
  · simp only [CreateDescriptorSetLayout.bindings, materialSizedLayout, List.cons.injEq,
      VkDescriptorSetLayoutBinding.mk.injEq, true_and, and_true]
    constructor
    · rintro ⟨h1, h2, h3⟩
      exact ⟨h1.symm, h2.symm, h3.symm⟩
    · rintro ⟨h1, h2, h3⟩
      exact ⟨h1.symm, h2.symm, h3.symm⟩
  · intro hfit
    rw [CreateDescriptorSet.imageWrites_eq mat hfit]
    simp only [CreateDescriptorSetLayout.bindings, List.map_cons, List.map_nil]
    constructor
    · intro h
      have h' : [(1, mat.diffuseMaps.length), (2, mat.normalMaps.length),
          (3, mat.specularMaps.length)] = [(1, 2), (2, 2), (3, 2)] := h
      simp only [List.cons.injEq, Prod.mk.injEq, true_and, and_true] at h'
      exact h'
    · rintro ⟨h1, h2, h3⟩
      rw [h1, h2, h3]
      rfl

theorem CreateDescriptorSetLayout_fixed_counts_witness :
    (CreateDescriptorSet.imageWrites barrelMaterial).map (fun w => (w.1, w.2.2)) =
        (CreateDescriptorSetLayout.bindings.filter
          (fun b => b.descriptorType == VK_DESCRIPTOR_TYPE_COMBINED_IMAGE_SAMPLER)).map
          (fun b => (b.binding, b.descriptorCount)) ↔
      barrelMaterial.diffuseMaps.length = 2 ∧ barrelMaterial.normalMaps.length = 2 ∧
        barrelMaterial.specularMaps.length = 2 :=
  (CreateDescriptorSetLayout_fixed_counts barrelMaterial).2.2 (by decide)

/-! ## Theorems: the one-shot transfer command buffer -/

theorem FlushAndResetCommandBuffer_ok_iff (results : FlushResults) (h : SetupHandle) :
    (FlushAndResetCommandBuffer results h).1 = Except.ok () ↔
      results.endResult = VK_SUCCESS ∧ results.resetResult = VK_SUCCESS := by
  unfold FlushAndResetCommandBuffer
  by_cases he : results.endResult ≠ VK_SUCCESS
  · rw [if_pos he]
    constructor
    · intro hc
      simp at hc
    · intro hc
      exact absurd hc.1 he
  · rw [if_neg he]
    by_cases hr : results.resetResult ≠ VK_SUCCESS
    · simp only [if_pos hr]
      constructor
      · intro hc
        simp at hc
      · intro hc
        exact absurd hc.2 hr
    · simp only [if_neg hr]
      constructor
      · intro _
        exact ⟨not_not.mp he, not_not.mp hr⟩
      · intro _
        trivial

theorem FlushAndResetCommandBuffer_calls (results : FlushResults) (h : SetupHandle) :
    ∃ extra, (FlushAndResetCommandBuffer results h).2.calls = h.calls ++ extra ∧
      (∀ s, TransferCall.vkCmd s ∉ extra) ∧
      ((FlushAndResetCommandBuffer results h).1 = Except.ok () →
        extra = [TransferCall.vkEndCommandBuffer, TransferCall.vkQueueSubmit,
          TransferCall.vkQueueWaitIdle, TransferCall.vkResetCommandBuffer,
          TransferCall.vkBeginCommandBuffer]) := by
  unfold FlushAndResetCommandBuffer
  by_cases he : results.endResult ≠ VK_SUCCESS
  · simp only [if_pos he]
    exact ⟨[TransferCall.vkEndCommandBuffer], rfl, by simp, fun hc => by cases hc⟩
  · simp only [if_neg he]
    by_cases hr : results.resetResult ≠ VK_SUCCESS
    · simp only [if_pos hr]
      refine ⟨[TransferCall.vkEndCommandBuffer, TransferCall.vkQueueSubmit,
        TransferCall.vkQueueWaitIdle, TransferCall.vkResetCommandBuffer], ?_, by simp,
        fun hc => by cases hc⟩
      simp [vkResetCommandBuffer, vkQueueWaitIdle, vkQueueSubmit, vkEndCommandBuffer]
    · simp only [if_neg hr]
      refine ⟨[TransferCall.vkEndCommandBuffer, TransferCall.vkQueueSubmit,
        TransferCall.vkQueueWaitIdle, TransferCall.vkResetCommandBuffer,
        TransferCall.vkBeginCommandBuffer], ?_, by simp, fun _ => rfl⟩
      simp [vkBeginCommandBuffer, vkResetCommandBuffer, vkQueueWaitIdle, vkQueueSubmit,
        vkEndCommandBuffer]

theorem FlushAndResetCommandBuffer_state (results : FlushResults) (h : SetupHandle)
    (hrec : h.state = CommandBufferState.recording)
    (hok : (FlushAndResetCommandBuffer results h).1 = Except.ok ())
    (hun : results.uncheckedSucceed) :
    (FlushAndResetCommandBuffer results h).2.state = CommandBufferState.recording := by
  obtain ⟨he, hr⟩ := (FlushAndResetCommandBuffer_ok_iff results h).mp hok
  obtain ⟨hs, hw, hb⟩ := hun
  simp [FlushAndResetCommandBuffer, vkBeginCommandBuffer, vkResetCommandBuffer,
    vkQueueWaitIdle, vkQueueSubmit, vkEndCommandBuffer, hrec, he, hr, hs, hw, hb]

theorem runTransfer_recording (ops : List TransferOp) (h : SetupHandle)
    (hrec : h.state = CommandBufferState.recording) (hlog : h.appendsWhileRecording)
    (hun : ∀ op ∈ ops, op.uncheckedSucceed) :
    (runTransfer ops h).2.appendsWhileRecording ∧
      ((runTransfer ops h).1 = Except.ok () →
        (runTransfer ops h).2.state = CommandBufferState.recording) := by
  induction ops generalizing h with
  | nil => exact ⟨hlog, fun _ => hrec⟩
  | cons op rest ih =>
    have hrest : ∀ o ∈ rest, o.uncheckedSucceed := fun o ho => hun o (List.mem_cons_of_mem _ ho)
    cases op with
    | append =>
      unfold runTransfer
      apply ih (vkCmd h) hrec _ hrest
      intro s hs
      simp only [vkCmd, List.mem_append, List.mem_singleton, TransferCall.vkCmd.injEq] at hs
      rcases hs with hs | hs
      · exact hlog s hs
      · rw [hs, hrec]
    | flush results =>
      have hres : results.uncheckedSucceed := hun _ (List.mem_cons_self _ _)
      obtain ⟨extra, hcalls, hnone, _⟩ := FlushAndResetCommandBuffer_calls results h
      have hlog1 : (FlushAndResetCommandBuffer results h).2.appendsWhileRecording := by
        intro s hs
        rw [hcalls, List.mem_append] at hs
        rcases hs with hs | hs
        · exact hlog s hs
        · exact absurd hs (hnone s)
      unfold runTransfer
      cases hf : FlushAndResetCommandBuffer results h with
      | mk r h1 =>
        rw [hf] at hlog1
        cases r with
        | error e => exact ⟨hlog1, fun hc => by cases hc⟩
        | ok u =>
          have hst := FlushAndResetCommandBuffer_state results h hrec (by rw [hf]) hres
          rw [hf] at hst
          exact ih h1 hst hlog1 hrest

/-- C19 (as stated, refuted): a flush can return normally and leave the handle
outside the recording state; when the final `vkBeginCommandBuffer` reports
`VK_ERROR_OUT_OF_HOST_MEMORY` the flush returns normally with the handle in
the initial state. -/
theorem FlushAndResetCommandBuffer_begin_result_ignored :
    ¬ (∀ (results : FlushResults) (h : SetupHandle),
        h.state = CommandBufferState.recording →
        (FlushAndResetCommandBuffer results h).1 = Except.ok () →
        (FlushAndResetCommandBuffer results h).2.state = CommandBufferState.recording) := by
  intro hall
  have h1 := hall { FlushResults.allSuccess with beginResult := VK_ERROR_OUT_OF_HOST_MEMORY }
    SetupHandle.fresh rfl rfl
  revert h1
  decide

/-- C19 (amended): provided the calls whose result the code does not inspect
succeed (`vkBeginCommandBuffer`, and in a flush also `vkQueueSubmit` and
`vkQueueWaitIdle`), the one-shot handle is recording after creation; a flush of
a recording handle returns normally exactly when `vkEndCommandBuffer` and
`vkResetCommandBuffer` succeed, has then called end, submit, wait-idle, reset
and begin in this order, and leaves the handle recording again; and over every
sequence of appends and flushes every command is appended to a recording
handle. -/
theorem transfer_handle_recording (allocateResult : VkResult) (ops : List TransferOp) :
    (∀ h, CreateCommandBuffer allocateResult VK_SUCCESS = Except.ok h →
      h.state = CommandBufferState.recording) ∧
    (∀ (results : FlushResults) (h : SetupHandle), h.state = CommandBufferState.recording →
      ((FlushAndResetCommandBuffer results h).1 = Except.ok () ↔
        results.endResult = VK_SUCCESS ∧ results.resetResult = VK_SUCCESS) ∧
      ((FlushAndResetCommandBuffer results h).1 = Except.ok () →
        (FlushAndResetCommandBuffer results h).2.calls =
          h.calls ++ [TransferCall.vkEndCommandBuffer, TransferCall.vkQueueSubmit,
            TransferCall.vkQueueWaitIdle, TransferCall.vkResetCommandBuffer,
            TransferCall.vkBeginCommandBuffer]) ∧
      ((FlushAndResetCommandBuffer results h).1 = Except.ok () → results.uncheckedSucceed →
        (FlushAndResetCommandBuffer results h).2.state = CommandBufferState.recording)) ∧
    (∀ h : SetupHandle, h.state = CommandBufferState.recording → h.appendsWhileRecording →
      (∀ op ∈ ops, op.uncheckedSucceed) →
      (runTransfer ops h).2.appendsWhileRecording ∧
      ((runTransfer ops h).1 = Except.ok () →
        (runTransfer ops h).2.state = CommandBufferState.recording)) := by
  refine ⟨?_, ?_, ?_⟩
  · intro h hc
    unfold CreateCommandBuffer at hc
    split at hc
    · cases hc
    · rw [← Except.ok.inj hc]
      rfl
  · intro results h hrec
    refine ⟨FlushAndResetCommandBuffer_ok_iff results h, ?_,
      FlushAndResetCommandBuffer_state results h hrec⟩
    intro hok
    obtain ⟨extra, hcalls, _, hextra⟩ := FlushAndResetCommandBuffer_calls results h
    rw [hcalls, hextra hok]
  · intro h hrec hlog hun
    exact runTransfer_recording ops h hrec hlog hun

theorem transfer_handle_recording_witness :
    SetupHandle.fresh.state = CommandBufferState.recording ∧
    (runTransfer
        [TransferOp.append, TransferOp.flush FlushResults.allSuccess, TransferOp.append,
         TransferOp.append, TransferOp.flush FlushResults.allSuccess]
        SetupHandle.fresh).2.appendsWhileRecording ∧
    ((runTransfer
        [TransferOp.append, TransferOp.flush FlushResults.allSuccess, TransferOp.append,
         TransferOp.append, TransferOp.flush FlushResults.allSuccess]
        SetupHandle.fresh).1 = Except.ok () →
      (runTransfer
        [TransferOp.append, TransferOp.flush FlushResults.allSuccess, TransferOp.append,
         TransferOp.append, TransferOp.flush FlushResults.allSuccess]
        SetupHandle.fresh).2.state = CommandBufferState.recording) :=
  ⟨(transfer_handle_recording VK_SUCCESS []).1 SetupHandle.fresh rfl,
   (transfer_handle_recording VK_SUCCESS
      [TransferOp.append, TransferOp.flush FlushResults.allSuccess, TransferOp.append,
       TransferOp.append, TransferOp.flush FlushResults.allSuccess]).2.2
      SetupHandle.fresh rfl
      (fun s hs => by simp [SetupHandle.fresh] at hs)
      (fun op hop => by
        simp only [List.mem_cons, List.mem_singleton, List.not_mem_nil, or_false] at hop
        rcases hop with h | h | h | h | h <;> subst h <;> trivial)⟩

/-! ## Theorems: writing to buffer memory -/

/-- C20 (as stated, refuted): the round trip does not hold for every write to
host-visible memory; when `vkMapMemory` reports `VK_ERROR_MEMORY_MAP_FAILED`,
which the code does not inspect, no mapping exists and the copy has no defined
outcome, so nothing reads back as `data`. -/
theorem WriteToBufferMemory_map_result_ignored :
    ¬ (∀ (mapResult : VkResult) (mBufferMemory : DeviceMemory) (data : List Nat) (size : Nat),
        mBufferMemory.hostVisible = true → data.length = size →
        size ≤ mBufferMemory.bytes.length →
        ∃ mapped after,
          WriteToBufferMemory mapResult mBufferMemory data size = some (mapped, after) ∧
          mapped = data ∧
          after.bytes.take size = data ∧
          after.bytes.drop size = mBufferMemory.bytes.drop size) := by
  intro h
  obtain ⟨mapped, after, h1, _⟩ := h VK_ERROR_MEMORY_MAP_FAILED
    { bytes := [9, 9, 9, 9, 9], hostVisible := true } [1, 2, 3] 3 rfl rfl (by decide)
  have h2 : WriteToBufferMemory VK_ERROR_MEMORY_MAP_FAILED
      { bytes := [9, 9, 9, 9, 9], hostVisible := true } [1, 2, 3] 3 = none := rfl
  rw [h2] at h1
  cases h1

/-- C20 (amended): for host-visible memory and `size` bytes of data, `size` not
exceeding the allocation, and provided the `vkMapMemory` call succeeds (the
code does not inspect its result), `WriteToBufferMemory` produces a mapped
region that reads back as `data` before the unmap, and leaves a memory whose
bytes `[0, size)` are `data` and whose bytes from `size` on, and total length,
are unchanged. -/
theorem WriteToBufferMemory_round_trip (mapResult : VkResult) (mBufferMemory : DeviceMemory)
    (data : List Nat) (size : Nat) (hmapResult : mapResult = VK_SUCCESS)
    (hvis : mBufferMemory.hostVisible = true) (hlen : data.length = size)
    (hsize : size ≤ mBufferMemory.bytes.length) :
    ∃ mapped after, WriteToBufferMemory mapResult mBufferMemory data size = some (mapped, after) ∧
      mapped = data ∧
      after.bytes.take size = data ∧
      after.bytes.drop size = mBufferMemory.bytes.drop size ∧
      after.bytes.length = mBufferMemory.bytes.length ∧
      after.hostVisible = mBufferMemory.hostVisible := by
  subst hmapResult
  have hmap : vkMapMemory VK_SUCCESS mBufferMemory 0 size =
      some (mBufferMemory.bytes.take size) := by
    unfold vkMapMemory
    rw [if_pos ⟨rfl, hvis, by omega⟩]
    rfl
  have htake : (mBufferMemory.bytes.take size).length = size := by
    rw [List.length_take]; omega
  have hcpy : memcpy (mBufferMemory.bytes.take size) data size = some data := by
    unfold memcpy
    rw [if_pos ⟨by omega, by omega⟩]
    have h1 : data.take size = data := List.take_of_length_le (by omega)
    have h2 : (mBufferMemory.bytes.take size).drop size = [] :=
      List.drop_eq_nil_of_le (by omega)
    rw [h1, h2, List.append_nil]
  refine ⟨data, { mBufferMemory with bytes := data ++ mBufferMemory.bytes.drop size }, ?_,
    rfl, ?_, ?_, ?_, rfl⟩
  · unfold WriteToBufferMemory
    simp only [hmap, hcpy]
  · show (data ++ mBufferMemory.bytes.drop size).take size = data
    rw [List.take_append_of_le_length (by omega), List.take_of_length_le (by omega)]
  · show (data ++ mBufferMemory.bytes.drop size).drop size = mBufferMemory.bytes.drop size
    rw [← hlen, List.drop_left]
  · show (data ++ mBufferMemory.bytes.drop size).length = mBufferMemory.bytes.length
    rw [List.length_append, List.length_drop]
    omega

theorem WriteToBufferMemory_round_trip_witness :
    ∃ mapped after,
      WriteToBufferMemory VK_SUCCESS { bytes := [9, 9, 9, 9, 9], hostVisible := true }
        [1, 2, 3] 3 = some (mapped, after) ∧
      mapped = [1, 2, 3] ∧
      after.bytes.take 3 = [1, 2, 3] ∧
      after.bytes.drop 3 = [9, 9] ∧
      after.bytes.length = 5 ∧
      after.hostVisible = true :=
  WriteToBufferMemory_round_trip VK_SUCCESS { bytes := [9, 9, 9, 9, 9], hostVisible := true }
    [1, 2, 3] 3 rfl rfl rfl (by decide)

/-! ## Theorems: the handle wrapper and the `Buffer` -/

/-- C21 (as stated, refuted): a `Buffer` holding handle 5 and memory 9 is not
torn down handle first; the first release call of its destructor is
`vkFreeMemory` on the memory. -/
theorem Buffer_destructor_not_handle_first :
    ¬ (∀ buffer memory : Nat, buffer ≠ VK_NULL_HANDLE → memory ≠ VK_NULL_HANDLE →
        (Buffer.created buffer memory).destructor [] =
          [{ deleter := DeleteFn.vkDestroyBuffer, object := buffer },
           { deleter := DeleteFn.vkFreeMemory, object := memory }]) := by
  intro h
  have h1 := h 5 9 (by decide) (by decide)
  revert h1
  decide

/-- C21 (amended): whenever a `Buffer` that owns both a handle and backing
memory is torn down, both are released in the same teardown, each exactly once,
the backing memory first (`vkFreeMemory`) and the buffer handle second
(`vkDestroyBuffer`). -/
theorem Buffer_destructor_memory_then_handle (buffer memory : Nat)
    (released : List ReleaseCall)
    (hb : buffer ≠ VK_NULL_HANDLE) (hm : memory ≠ VK_NULL_HANDLE) :
    (Buffer.created buffer memory).destructor released =
      released ++
        [{ deleter := DeleteFn.vkFreeMemory, object := memory },
         { deleter := DeleteFn.vkDestroyBuffer, object := buffer }] := by
  simp only [Buffer.destructor, Buffer.created, VulkanDeleter.destructor, VulkanDeleter.Cleanup,
    if_pos hb, if_pos hm, List.append_assoc, List.singleton_append]

theorem Buffer_destructor_memory_then_handle_witness :
    (Buffer.created 5 9).destructor [] =
      [] ++
        [{ deleter := DeleteFn.vkFreeMemory, object := 9 },
         { deleter := DeleteFn.vkDestroyBuffer, object := 5 }] :=
  Buffer_destructor_memory_then_handle 5 9 [] (by decide) (by decide)

/-- C29: for every wrapper state, `Cleanup` invokes the deleter once on the
held handle when it is non-null and not at all when it is null, and leaves the
held handle null; `operator&` is `Cleanup`, so a store through it releases the
old handle once before the new one is held; and a `Cleanup` (or destruction)
right after a `Cleanup` releases nothing. -/
theorem VulkanDeleter_handle_discipline (d : VulkanDeleter) (released : List ReleaseCall)
    (newObject : Nat) :
    (d.mObject ≠ VK_NULL_HANDLE →
      (d.Cleanup released).2 = released ++ [{ deleter := d.mDeleter, object := d.mObject }]) ∧
    (d.mObject = VK_NULL_HANDLE → (d.Cleanup released).2 = released) ∧
    (d.Cleanup released).1.mObject = VK_NULL_HANDLE ∧
    d.addressOf released = d.Cleanup released ∧
    (d.store released newObject).1.mObject = newObject ∧
    (d.store released newObject).2 = (d.Cleanup released).2 ∧
    (d.Cleanup released).1.Cleanup (d.Cleanup released).2 = d.Cleanup released ∧
    (d.Cleanup released).1.destructor (d.Cleanup released).2 = (d.Cleanup released).2 := by
  refine ⟨?_, ?_, rfl, rfl, rfl, rfl, ?_, ?_⟩
  · intro h
    simp only [VulkanDeleter.Cleanup, if_pos h]
  · intro h
    have hn : ¬ d.mObject ≠ VK_NULL_HANDLE := fun hc => hc h
    simp only [VulkanDeleter.Cleanup, if_neg hn]
  · simp [VulkanDeleter.Cleanup]
  · simp [VulkanDeleter.destructor, VulkanDeleter.Cleanup]

theorem VulkanDeleter_handle_discipline_witness :
    ((VulkanDeleter.mk 7 DeleteFn.vkDestroyImageView).Cleanup []).2 =
      [] ++ [{ deleter := DeleteFn.vkDestroyImageView, object := 7 }] ∧
    ((VulkanDeleter.mk 0 DeleteFn.vkDestroyImageView).Cleanup []).2 = [] :=
  ⟨(VulkanDeleter_handle_discipline (VulkanDeleter.mk 7 DeleteFn.vkDestroyImageView) [] 8).1
      (by decide),
   (VulkanDeleter_handle_discipline (VulkanDeleter.mk 0 DeleteFn.vkDestroyImageView) [] 8).2.1
      rfl⟩

/-! ## Theorems: debug callback, asset loading, process entry, resize -/

/-- C22 (the code at the failing input): with the debug flag not set,
`SetupDebugCallback` still makes the registration call; when the debug-report
extension was not requested (so its entry point is not found) it throws, and
when the entry point exists and succeeds a callback is registered. -/
theorem SetupDebugCallback_not_gated :
    GetRequiredExtensions false ["VK_KHR_surface"] = ["VK_KHR_surface"] ∧
    SetupDebugCallback false true none =
      (Except.error "Failed to setup debug callback!", true) ∧
    SetupDebugCallback false true (some VK_SUCCESS) = (Except.ok (), true) := by
  refine ⟨rfl, rfl, rfl⟩

/-- C23 (the code at the failing input): a shader file that cannot be opened
makes `Shader::Load` throw, but a texture file whose pixels cannot be loaded
makes `Texture::CreateTextureImage` return `false` and `Texture::Create` return
normally with `mIsLoaded = false`; nothing is thrown. -/
theorem Texture_Create_missing_file_returns :
    Shader.Load false false VK_SUCCESS = Except.error "Failed to open shader file!" ∧
    Texture.CreateTextureImage false false = Except.ok false ∧
    Texture.Create false false VK_SUCCESS VK_SUCCESS = Except.ok false := by
  refine ⟨rfl, rfl, rfl⟩

/-- C26: `main` returns exit code 0 when `Run` completes and when `Run` throws a
runtime error; in the latter case the message is what it writes to standard
error, and in the former it writes nothing. -/
theorem main_exit_code (run : Except String Unit) :
    (main run).1 = 0 ∧
    (∀ what, run = Except.error what → (main run).2 = [what]) ∧
    (run = Except.ok () → (main run).2 = []) := by
  refine ⟨?_, ?_, ?_⟩
  · cases run <;> rfl
  · intro what h
    rw [h]
    rfl
  · intro h
    rw [h]
    rfl

theorem main_exit_code_witness :
    (main (Except.error "Failed to create swap chain!")).2 = ["Failed to create swap chain!"] ∧
    (main (Except.ok ())).2 = [] :=
  ⟨(main_exit_code (Except.error "Failed to create swap chain!")).2.1 _ rfl,
   (main_exit_code (Except.ok ())).2.2 rfl⟩

/-- C30: a resize notification with width 0 or height 0 returns without making
any call and leaves the chain members as they were; a notification with both
dimensions non-zero performs exactly one `RecreateSwapChain`. -/
theorem OnWindowResized_degenerate (newWidth newHeight : Int) (throws : Call → Bool)
    (trace : List Call) (platform : ChainPlatform) (st : ChainState) :
    (newWidth = 0 ∨ newHeight = 0 →
      OnWindowResized newWidth newHeight throws trace = (Except.ok (), trace) ∧
      OnWindowResized.chain newWidth newHeight platform st = Except.ok st) ∧
    (newWidth ≠ 0 → newHeight ≠ 0 →
      OnWindowResized newWidth newHeight throws trace = RecreateSwapChain throws trace ∧
      (OnWindowResized newWidth newHeight throws trace).2 =
        trace ++ (RecreateSwapChain throws []).2 ∧
      rebuildCount (RecreateSwapChain throws []).2 = 1 ∧
      OnWindowResized.chain newWidth newHeight platform st =
        RecreateSwapChain.chain platform st) := by
  constructor
  · intro h
    simp only [OnWindowResized, OnWindowResized.chain, if_pos h, and_self]
  · intro hw hh
    have h : ¬ (newWidth = 0 ∨ newHeight = 0) := by
      rintro (h | h)
      · exact hw h
      · exact hh h
    simp only [OnWindowResized, OnWindowResized.chain, if_neg h, true_and, and_true]
    exact ⟨by rw [RecreateSwapChain_append], RecreateSwapChain_rebuildCount throws⟩

theorem OnWindowResized_degenerate_witness :
    (OnWindowResized 0 600 (fun _ => false) [Call.countFrame] =
        (Except.ok (), [Call.countFrame]) ∧
      OnWindowResized.chain 0 600 (ChainPlatform.withImages 2 3) ChainState.initial =
        Except.ok ChainState.initial) ∧
    rebuildCount (RecreateSwapChain (fun _ => false) []).2 = 1 :=
  ⟨(OnWindowResized_degenerate 0 600 (fun _ => false) [Call.countFrame]
      (ChainPlatform.withImages 2 3) ChainState.initial).1 (Or.inl rfl),
   ((OnWindowResized_degenerate 800 600 (fun _ => false) [Call.countFrame]
      (ChainPlatform.withImages 2 3) ChainState.initial).2 (by decide) (by decide)).2.2.1⟩

/-! ## Theorems: queue-family search -/

theorem toInt32_toNat {i : Nat} (h : i < 2 ^ 31) : (toInt32 i).toNat = i := by
  unfold toInt32
  have h1 : i % 2 ^ 32 = i := Nat.mod_eq_of_lt (by omega)
  rw [h1, if_pos h]
  exact Int.toNat_natCast i

theorem FindQueueFamilies.loop_valid (all : List QueueFamily) (families : List QueueFamily)
    (before : List QueueFamily) (familyDesc : QueueFamilyDesc)
    (hall : all = before ++ families) (hb : before.length + families.length ≤ 2 ^ 31)
    (hv : familyDesc.validFor all) :
    (FindQueueFamilies.loop families before.length familyDesc).validFor all := by
  induction families generalizing before familyDesc with
  | nil => exact hv
  | cons family rest ih =>
    have hlt : before.length < 2 ^ 31 := by simp at hb; omega
    have hget : all[(toInt32 before.length).toNat]? = some family := by
      rw [toInt32_toNat hlt, hall, List.getElem?_append_right (Nat.le_refl _), Nat.sub_self]
      exact List.getElem?_cons_zero
    have hi : 0 ≤ toInt32 before.length := toInt32_nonneg hlt
    have hnext : (before ++ [family]).length = before.length + 1 := by simp
    have key : ∀ fd1 fd2 : QueueFamilyDesc,
        fd1 = (if family.queueCount > 0 ∧ (family.queueFlags &&& VK_QUEUE_GRAPHICS_BIT) ≠ 0
          then { familyDesc with graphicsFamily := toInt32 before.length } else familyDesc) →
        fd2 = (if family.queueCount > 0 ∧ family.presentationSupport = true
          then { fd1 with presentationFamily := toInt32 before.length } else fd1) →
        (if fd2.IsComplete = true then fd2
          else FindQueueFamilies.loop rest (before.length + 1) fd2).validFor all := by
      intro fd1 fd2 h1 h2
      have hv1 : fd1.validFor all := by
        rw [h1]
        split
        · rename_i hg
          refine ⟨fun _ => ⟨family, hget, hg.1, (land_graphics_bit_ne_zero_iff _).mp hg.2⟩, hv.2⟩
        · exact hv
      have hv2 : fd2.validFor all := by
        rw [h2]
        split
        · rename_i hp
          exact ⟨hv1.1, fun _ => ⟨family, hget, hp.1, hp.2⟩⟩
        · exact hv1
      by_cases hc : fd2.IsComplete = true
      · rw [if_pos hc]
        exact hv2
      · rw [if_neg hc, ← hnext]
        apply ih (before ++ [family]) fd2
        · rw [hall]; simp
        · rw [hnext]; simp at hb; omega
        · exact hv2
    unfold FindQueueFamilies.loop
    exact key
      (if family.queueCount > 0 ∧ (family.queueFlags &&& VK_QUEUE_GRAPHICS_BIT) ≠ 0
        then { familyDesc with graphicsFamily := toInt32 before.length } else familyDesc)
      (if family.queueCount > 0 ∧ family.presentationSupport = true
        then { (if family.queueCount > 0 ∧ (family.queueFlags &&& VK_QUEUE_GRAPHICS_BIT) ≠ 0
          then { familyDesc with graphicsFamily := toInt32 before.length }
          else familyDesc) with
            presentationFamily := toInt32 before.length }
        else (if family.queueCount > 0 ∧ (family.queueFlags &&& VK_QUEUE_GRAPHICS_BIT) ≠ 0
          then { familyDesc with graphicsFamily := toInt32 before.length } else familyDesc))
      rfl rfl

/-- C27: for every list of queue families (at most `2^31` of them, so that a
family index fits the `int` fields), the result of `FindQueueFamilies` is
complete exactly when some family with queues has graphics capability and some
family with queues supports presentation; and an index of the result that is
`>= 0` is a position of the list whose family has queues and the corresponding
capability. -/
theorem FindQueueFamilies_result (physicalDevice : PhysicalDevice)
    (hb : physicalDevice.queueFamilies.length ≤ 2 ^ 31) :
    ((FindQueueFamilies physicalDevice).IsComplete = true ↔
      (∃ f ∈ physicalDevice.queueFamilies, f.queueCount > 0 ∧ f.queueFlags.testBit 0 = true) ∧
      (∃ f ∈ physicalDevice.queueFamilies, f.queueCount > 0 ∧ f.presentationSupport = true)) ∧
    (0 ≤ (FindQueueFamilies physicalDevice).graphicsFamily →
      ∃ f, physicalDevice.queueFamilies[(FindQueueFamilies physicalDevice).graphicsFamily.toNat]? =
          some f ∧ f.queueCount > 0 ∧ f.queueFlags.testBit 0 = true) ∧
    (0 ≤ (FindQueueFamilies physicalDevice).presentationFamily →
      ∃ f, physicalDevice.queueFamilies[
            (FindQueueFamilies physicalDevice).presentationFamily.toNat]? = some f ∧
          f.queueCount > 0 ∧ f.presentationSupport = true) := by
  have hv := FindQueueFamilies.loop_valid physicalDevice.queueFamilies
    physicalDevice.queueFamilies [] {} rfl (by simpa using hb)
    ⟨fun h => absurd h (by decide), fun h => absurd h (by decide)⟩
  exact ⟨FindQueueFamilies_complete_iff physicalDevice hb, hv.1, hv.2⟩

theorem FindQueueFamilies_result_witness :
    ((FindQueueFamilies splitFamiliesDevice).IsComplete = true ↔
      (∃ f ∈ splitFamiliesDevice.queueFamilies,
        f.queueCount > 0 ∧ f.queueFlags.testBit 0 = true) ∧
      (∃ f ∈ splitFamiliesDevice.queueFamilies,
        f.queueCount > 0 ∧ f.presentationSupport = true)) ∧
    ∃ f, splitFamiliesDevice.queueFamilies[
          (FindQueueFamilies splitFamiliesDevice).presentationFamily.toNat]? = some f ∧
        f.queueCount > 0 ∧ f.presentationSupport = true :=
  ⟨(FindQueueFamilies_result splitFamiliesDevice (by decide)).1,
   (FindQueueFamilies_result splitFamiliesDevice (by decide)).2.2 (by decide)⟩

/-! ## Theorems: pre-recorded command buffers -/

theorem CreateCommandBuffers.drawSubMeshes_eq (subMeshes : List SubMesh) :
    CreateCommandBuffers.drawSubMeshes subMeshes =
      subMeshes.flatMap (fun subMesh =>
        [RecordedCmd.vkCmdPushConstants subMesh.textureIndex,
         RecordedCmd.vkCmdDrawIndexed subMesh.indexCount 1 subMesh.baseIndex 0 0]) := by
  induction subMeshes with
  | nil => rfl
  | cons subMesh rest ih =>
    rw [CreateCommandBuffers.drawSubMeshes, ih, List.flatMap_cons]
    rfl

theorem CreateCommandBuffers.record_loop (endResult : Nat → VkResult)
    (subMeshes : List SubMesh) (mFramebuffers : List Nat) (remaining : Nat) :
    ∀ (i : Nat) (bufs : List (List RecordedCmd)),
      (CreateCommandBuffers.loop endResult subMeshes mFramebuffers remaining i bufs).2.length =
          bufs.length ∧
      ((∀ j, i ≤ j → j < i + remaining → endResult j = VK_SUCCESS) →
        (CreateCommandBuffers.loop endResult subMeshes mFramebuffers remaining i bufs).1 =
          .ok ()) ∧
      ((CreateCommandBuffers.loop endResult subMeshes mFramebuffers remaining i bufs).1 =
          .ok () →
        ∀ j, j < bufs.length →
          (CreateCommandBuffers.loop endResult subMeshes mFramebuffers remaining i bufs).2[j]? =
            if i ≤ j ∧ j < i + remaining then
              some (bufs.getD j [] ++
                CreateCommandBuffers.record (mFramebuffers.getD j 0) subMeshes)
            else bufs[j]?) := by
  induction remaining with
  | zero =>
    intro i bufs
    refine ⟨rfl, fun _ => rfl, fun _ j _ => ?_⟩
    have : ¬ (i ≤ j ∧ j < i + 0) := by omega
    rw [if_neg this]
    rfl
  | succ remaining ih =>
    intro i bufs
    unfold CreateCommandBuffers.loop
    by_cases he : endResult i ≠ VK_SUCCESS
    · simp only [if_pos he]
      refine ⟨by simp, fun h => absurd (h i (Nat.le_refl _) (by omega)) he, fun h => ?_⟩
      exact absurd h (by intro h; cases h)
    · simp only [if_neg he]
      have ih1 := ih (i + 1) (bufs.set i
        (bufs.getD i [] ++ CreateCommandBuffers.record (mFramebuffers.getD i 0) subMeshes))
      refine ⟨by rw [ih1.1, List.length_set], fun h => ih1.2.1 (fun j h1 h2 => h j (by omega)
        (by omega)), fun h j hj => ?_⟩
      rw [ih1.2.2 h j (by rw [List.length_set]; exact hj)]
      by_cases hij : i = j
      · subst hij
        have h1 : ¬ (i + 1 ≤ i ∧ i < i + 1 + remaining) := by omega
        have h2 : i ≤ i ∧ i < i + (remaining + 1) := by omega
        rw [if_neg h1, if_pos h2, List.getElem?_set_self hj]
      · by_cases hr : i + 1 ≤ j ∧ j < i + 1 + remaining
        · have h2 : i ≤ j ∧ j < i + (remaining + 1) := by omega
          rw [if_pos hr, if_pos h2]
          simp only [List.getD_eq_getElem?_getD, List.getElem?_set_ne hij]
        · have h2 : ¬ (i ≤ j ∧ j < i + (remaining + 1)) := by omega
          rw [if_neg hr, if_neg h2, List.getElem?_set_ne hij]

/-- C28: `CreateCommandBuffers` always leaves as many command buffers as there
are framebuffers; it returns normally when the allocation and every
`vkEndCommandBuffer` succeed; and when it returns normally, command buffer `i`
holds exactly: begin, the render pass begun on framebuffer `i`, the four binds,
then for each submesh in order one push of its `textureIndex` followed by one
`vkCmdDrawIndexed(indexCount, 1, baseIndex, 0, 0)`, then the two end commands.
Hence for a chain state whose framebuffer, view and image counts agree, every
image index below the image count is a position of the command-buffer list. -/
theorem CreateCommandBuffers_track_framebuffers (allocateResult : VkResult)
    (endResult : Nat → VkResult) (subMeshes : List SubMesh) (mFramebuffers : List Nat)
    (mCommandBuffers : List (List RecordedCmd)) :
    (CreateCommandBuffers allocateResult endResult subMeshes mFramebuffers
        mCommandBuffers).2.length = mFramebuffers.length ∧
    (allocateResult = VK_SUCCESS → (∀ i, i < mFramebuffers.length → endResult i = VK_SUCCESS) →
      (CreateCommandBuffers allocateResult endResult subMeshes mFramebuffers
        mCommandBuffers).1 = .ok ()) ∧
    ((CreateCommandBuffers allocateResult endResult subMeshes mFramebuffers
        mCommandBuffers).1 = .ok () →
      ∀ (i framebuffer : Nat), mFramebuffers[i]? = some framebuffer →
        (CreateCommandBuffers allocateResult endResult subMeshes mFramebuffers
          mCommandBuffers).2[i]? =
          some ([RecordedCmd.vkBeginCommandBuffer,
                 RecordedCmd.vkCmdBeginRenderPass framebuffer,
                 RecordedCmd.vkCmdBindPipeline,
                 RecordedCmd.vkCmdBindVertexBuffers,
                 RecordedCmd.vkCmdBindIndexBuffer,
                 RecordedCmd.vkCmdBindDescriptorSets] ++
                subMeshes.flatMap (fun subMesh =>
                  [RecordedCmd.vkCmdPushConstants subMesh.textureIndex,
                   RecordedCmd.vkCmdDrawIndexed subMesh.indexCount 1 subMesh.baseIndex 0 0]) ++
                [RecordedCmd.vkCmdEndRenderPass, RecordedCmd.vkEndCommandBuffer])) ∧
    (∀ st : ChainState, st.countsAgree → st.mFramebuffers = mFramebuffers →
      ∀ imageIndex, imageIndex < st.mSwapChainImages.length →
        imageIndex < (CreateCommandBuffers allocateResult endResult subMeshes mFramebuffers
          mCommandBuffers).2.length) := by
  have hlen0 : ((vectorResize mCommandBuffers mFramebuffers.length []).map
      (fun _ => ([] : List RecordedCmd))).length = mFramebuffers.length := by
    rw [List.length_map, vectorResize_length]
  have hloop := CreateCommandBuffers.record_loop endResult subMeshes mFramebuffers
    ((vectorResize mCommandBuffers mFramebuffers.length []).map
      (fun _ => ([] : List RecordedCmd))).length 0
    ((vectorResize mCommandBuffers mFramebuffers.length []).map
      (fun _ => ([] : List RecordedCmd)))
  have hlen : (CreateCommandBuffers allocateResult endResult subMeshes mFramebuffers
      mCommandBuffers).2.length = mFramebuffers.length := by
    unfold CreateCommandBuffers
    by_cases ha : allocateResult ≠ VK_SUCCESS
    · simp only [if_pos ha]
      exact vectorResize_length _ _ _
    · simp only [if_neg ha]
      rw [hloop.1, hlen0]
  refine ⟨hlen, ?_, ?_, ?_⟩
  · intro ha hend
    unfold CreateCommandBuffers
    have ha2 : ¬ allocateResult ≠ VK_SUCCESS := fun h => h ha
    simp only [if_neg ha2]
    exact hloop.2.1 (fun j _ h2 => hend j (by rw [hlen0] at h2; omega))
  · intro hok i framebuffer hfb
    have hi : i < mFramebuffers.length := (List.getElem?_eq_some.mp hfb).1
    unfold CreateCommandBuffers at hok ⊢
    by_cases ha : allocateResult ≠ VK_SUCCESS
    · simp only [if_pos ha] at hok
      cases hok
    · simp only [if_neg ha] at hok ⊢
      rw [hloop.2.2 hok i (by rw [hlen0]; exact hi)]
      have hcond : 0 ≤ i ∧ i < 0 + ((vectorResize mCommandBuffers mFramebuffers.length []).map
          (fun _ => ([] : List RecordedCmd))).length := by
        rw [hlen0]; omega
      rw [if_pos hcond]
      have hold : ((vectorResize mCommandBuffers mFramebuffers.length []).map
          (fun _ => ([] : List RecordedCmd))).getD i [] = [] := by
        rw [List.getD_eq_getElem?_getD, List.getElem?_map]
        cases (vectorResize mCommandBuffers mFramebuffers.length [])[i]? <;> rfl
      have hfbD : mFramebuffers.getD i 0 = framebuffer := by
        rw [List.getD_eq_getElem?_getD, hfb]
        rfl
      rw [hold, hfbD, List.nil_append, CreateCommandBuffers.record,
        CreateCommandBuffers.drawSubMeshes_eq]
  · intro st hc hfb imageIndex hi
    rw [hlen, ← hfb, hc.1, hc.2]
    exact hi

theorem CreateCommandBuffers_track_framebuffers_witness :
    (CreateCommandBuffers VK_SUCCESS (fun _ => VK_SUCCESS) twoSubMeshes
        threeImageState.mFramebuffers []).1 = .ok () ∧
    (CreateCommandBuffers VK_SUCCESS (fun _ => VK_SUCCESS) twoSubMeshes
        threeImageState.mFramebuffers []).2[2]? =
      some ([RecordedCmd.vkBeginCommandBuffer,
             RecordedCmd.vkCmdBeginRenderPass 32,
             RecordedCmd.vkCmdBindPipeline,
             RecordedCmd.vkCmdBindVertexBuffers,
             RecordedCmd.vkCmdBindIndexBuffer,
             RecordedCmd.vkCmdBindDescriptorSets] ++
            twoSubMeshes.flatMap (fun subMesh =>
              [RecordedCmd.vkCmdPushConstants subMesh.textureIndex,
               RecordedCmd.vkCmdDrawIndexed subMesh.indexCount 1 subMesh.baseIndex 0 0]) ++
            [RecordedCmd.vkCmdEndRenderPass, RecordedCmd.vkEndCommandBuffer]) ∧
    2 < (CreateCommandBuffers VK_SUCCESS (fun _ => VK_SUCCESS) twoSubMeshes
        threeImageState.mFramebuffers []).2.length :=
  ⟨(CreateCommandBuffers_track_framebuffers VK_SUCCESS (fun _ => VK_SUCCESS) twoSubMeshes
      threeImageState.mFramebuffers []).2.1 rfl (fun _ _ => rfl),
   (CreateCommandBuffers_track_framebuffers VK_SUCCESS (fun _ => VK_SUCCESS) twoSubMeshes
      threeImageState.mFramebuffers []).2.2.1 rfl 2 32 rfl,
   (CreateCommandBuffers_track_framebuffers VK_SUCCESS (fun _ => VK_SUCCESS) twoSubMeshes
      threeImageState.mFramebuffers []).2.2.2 threeImageState ⟨rfl, rfl⟩ rfl 2 (by decide)⟩

/-! ## Theorems: per-material index ranges -/

theorem toInt32_of_lt {i : Nat} (h : i < 2 ^ 31) : toInt32 i = (i : Int) := by
  unfold toInt32
  have h1 : i % 2 ^ 32 = i := Nat.mod_eq_of_lt (by omega)
  rw [h1, if_pos h]

theorem toUInt32_eq_iff {z : Int} (i : Nat) (h0 : 0 ≤ z) (h1 : z < 2 ^ 31) :
    toUInt32 z = i ↔ z = (i : Int) := by
  unfold toUInt32
  rw [Int.emod_eq_of_lt h0 (by omega)]
  omega

theorem Mesh.Load.advance_eq (ids : List Int) (i : Nat) (hlen : ids.length < 2 ^ 32) :
    ∀ (fuel : Nat) (pre suf : List Int), ids = pre ++ suf → suf.length ≤ fuel →
      Mesh.Load.advance ids i fuel pre.length =
        pre.length + (suf.takeWhile (fun id => decide (toUInt32 id = i))).length := by
  intro fuel
  induction fuel with
  | zero =>
    intro pre suf _ hf
    have : suf = [] := List.length_eq_zero.mp (Nat.le_zero.mp hf)
    subst this
    rfl
  | succ fuel ih =>
    intro pre suf hids hf
    cases suf with
    | nil =>
      have hl : ¬ (pre.length < ids.length ∧ toUInt32 (ids.getD pre.length 0) = i) := by
        rw [hids]; simp
      rw [Mesh.Load.advance, if_neg hl]
      rfl
    | cons x rest =>
      have hlt : pre.length < ids.length := by rw [hids]; simp
      have hget : ids.getD pre.length 0 = x := by
        rw [hids, List.getD_eq_getElem?_getD, List.getElem?_append_right (Nat.le_refl _),
          Nat.sub_self, List.getElem?_cons_zero]
        rfl
      have hmod : (pre.length + 1) % 2 ^ 32 = (pre ++ [x]).length := by
        rw [List.length_append, List.length_singleton]
        exact Nat.mod_eq_of_lt (by omega)
      by_cases hx : toUInt32 x = i
      · rw [Mesh.Load.advance, if_pos ⟨hlt, by rw [hget]; exact hx⟩, hmod,
          ih (pre ++ [x]) rest (by rw [hids]; simp) (by simpa using hf),
          List.takeWhile_cons_of_pos (by simpa using hx)]
        simp only [List.length_append, List.length_cons, List.length_nil]
        omega
      · rw [Mesh.Load.advance, if_neg (by rw [hget]; exact fun h => hx h.2),
          List.takeWhile_cons_of_neg (by simpa using hx)]
        rfl

theorem Mesh.Load.split_run (i : Nat) (suf : List Int) (hs : suf.Pairwise (· ≤ ·))
    (hr : ∀ id ∈ suf, (i : Int) ≤ id ∧ id < 2 ^ 31) :
    ∃ t d, suf = t ++ d ∧ t = suf.takeWhile (fun id => decide (toUInt32 id = i)) ∧
      (∀ x ∈ t, x = (i : Int)) ∧ d.Pairwise (· ≤ ·) ∧
      (∀ x ∈ d, ((i + 1 : Nat) : Int) ≤ x ∧ x < 2 ^ 31) := by
  refine ⟨suf.takeWhile (fun id => decide (toUInt32 id = i)),
    suf.dropWhile (fun id => decide (toUInt32 id = i)),
    (List.takeWhile_append_dropWhile _ _).symm, rfl, ?_, ?_, ?_⟩
  · intro x hx
    have h1 := List.mem_takeWhile_imp hx
    have h2 := hr x ((List.takeWhile_sublist _).subset hx)
    exact (toUInt32_eq_iff i (by omega) h2.2).mp (by simpa using h1)
  · exact hs.sublist (List.dropWhile_sublist _)
  · have hd : (suf.dropWhile (fun id => decide (toUInt32 id = i))).Pairwise (· ≤ ·) :=
      hs.sublist (List.dropWhile_sublist _)
    have hmem : ∀ x ∈ suf.dropWhile (fun id => decide (toUInt32 id = i)), x ∈ suf :=
      fun x hx => (List.dropWhile_sublist _).subset hx
    cases hdw : suf.dropWhile (fun id => decide (toUInt32 id = i)) with
    | nil => intro x hx; cases hx
    | cons y rest =>
      rw [hdw] at hd hmem
      have hy := hr y (hmem y (List.mem_cons_self _ _))
      have hny : ¬ toUInt32 y = i := by
        have := List.head_dropWhile_not (fun id => decide (toUInt32 id = i)) suf
          (by rw [hdw]; exact List.cons_ne_nil _ _)
        simp only [hdw, List.head_cons] at this
        simpa using this
      have hyi : y ≠ (i : Int) := fun h => hny ((toUInt32_eq_iff i (by omega) hy.2).mpr h)
      intro x hx
      have hx2 := hr x (hmem x hx)
      rcases List.mem_cons.mp hx with h | h
      · subst h
        exact ⟨by omega, hx2.2⟩
      · have := (List.pairwise_cons.mp hd).1 x h
        exact ⟨by omega, hx2.2⟩

theorem Mesh.Load.count_split (i : Nat) (t d : List Int) (ht : ∀ x ∈ t, x = (i : Int))
    (hd : ∀ x ∈ d, ((i + 1 : Nat) : Int) ≤ x ∧ x < 2 ^ 31) :
    (t ++ d).countP (fun id => decide (id < (i : Int))) = 0 ∧
    (t ++ d).count (i : Int) = t.length ∧
    ∀ k : Nat, i + 1 ≤ k →
      (t ++ d).countP (fun id => decide (id < (k : Int))) =
          t.length + d.countP (fun id => decide (id < (k : Int))) ∧
      (t ++ d).count (k : Int) = d.count (k : Int) := by
  refine ⟨?_, ?_, ?_⟩
  · rw [List.countP_eq_zero]
    intro a ha
    rcases List.mem_append.mp ha with h | h
    · have := ht a h
      simp only [decide_eq_true_eq]
      omega
    · have := hd a h
      simp only [decide_eq_true_eq]
      omega
  · rw [List.count_append, List.count_eq_length.mpr (fun b hb => (ht b hb).symm),
      List.count_eq_zero.mpr, Nat.add_zero]
    intro h
    have := hd _ h
    omega
  · intro k hk
    constructor
    · rw [List.countP_append, List.countP_eq_length.mpr]
      intro a ha
      have := ht a ha
      simp only [decide_eq_true_eq]
      omega
    · rw [List.count_append, List.count_eq_zero.mpr, Nat.zero_add]
      intro h
      have := ht _ h
      omega

theorem Mesh.Load.subMeshes_eq (ids : List Int) (hlen : 3 * ids.length < 2 ^ 32) :
    ∀ (remaining i : Nat) (pre suf : List Int), ids = pre ++ suf → suf.Pairwise (· ≤ ·) →
      (∀ id ∈ suf, (i : Int) ≤ id ∧ id < 2 ^ 31) → i + remaining ≤ 2 ^ 31 →
      Mesh.Load.subMeshes ids remaining i pre.length =
        (List.range' i remaining).map (fun (k : Nat) =>
          { baseIndex := 3 * (pre.length + suf.countP (fun id => decide (id < (k : Int)))),
            indexCount := 3 * suf.count (k : Int),
            textureIndex := (k : Int) }) := by
  intro remaining
  induction remaining with
  | zero => intro i pre suf _ _ _ _; rfl
  | succ remaining ih =>
    intro i pre suf hids hs hr hi
    obtain ⟨t, d, hsuf, htake, ht, hdp, hd⟩ := Mesh.Load.split_run i suf hs hr
    have hadv : Mesh.Load.advance ids i ids.length pre.length = (pre ++ t).length := by
      rw [Mesh.Load.advance_eq ids i (by omega) ids.length pre suf hids
        (by rw [hids]; simp), ← htake, List.length_append]
    have hlen2 : pre.length + t.length + d.length = ids.length := by
      rw [hids, hsuf]; simp only [List.length_append]; omega
    obtain ⟨hc0, hci, hck⟩ := Mesh.Load.count_split i t d ht hd
    rw [Mesh.Load.subMeshes, hadv, ih (i + 1) (pre ++ t) d (by rw [hids, hsuf, List.append_assoc])
      hdp hd (by omega), List.range'_succ, List.map_cons, hsuf, hc0, hci,
      toInt32_of_lt (by omega)]
    have hb : pre.length * 3 % 2 ^ 32 = 3 * (pre.length + 0) := by
      rw [Nat.mod_eq_of_lt (by omega)]; omega
    have hc : ((pre ++ t).length * 3 % 2 ^ 32 + 2 ^ 32 - 3 * (pre.length + 0)) % 2 ^ 32 =
        3 * t.length := by
      have h2 : (pre.length + t.length) * 3 % 2 ^ 32 = (pre.length + t.length) * 3 :=
        Nat.mod_eq_of_lt (by omega)
      rw [List.length_append, h2]
      omega
    have htail : (List.range' (i + 1) remaining).map (fun (k : Nat) =>
          ({ baseIndex := 3 * ((pre ++ t).length +
                d.countP (fun id => decide (id < (k : Int)))),
             indexCount := 3 * d.count (k : Int),
             textureIndex := (k : Int) } : SubMesh)) =
        (List.range' (i + 1) remaining).map (fun (k : Nat) =>
          ({ baseIndex := 3 * (pre.length +
                (t ++ d).countP (fun id => decide (id < (k : Int)))),
             indexCount := 3 * (t ++ d).count (k : Int),
             textureIndex := (k : Int) } : SubMesh)) := by
      apply List.map_congr_left
      intro k hk
      have hk1 : i + 1 ≤ k := (List.mem_range'_1.mp hk).1
      obtain ⟨e1, e2⟩ := hck k hk1
      rw [e1, e2, List.length_append, Nat.add_assoc]
    rw [hb, hc, htail]

theorem Mesh.Load.countP_lt_succ (ids : List Int) (i : Nat) :
    ids.countP (fun id => decide (id < ((i + 1 : Nat) : Int))) =
      ids.countP (fun id => decide (id < (i : Int))) + ids.count (i : Int) := by
  induction ids with
  | nil => rfl
  | cons x rest ih =>
    rw [List.countP_cons, List.countP_cons, List.count_cons, ih]
    by_cases h1 : x < (i : Int)
    · have h2 : x < ((i + 1 : Nat) : Int) := by omega
      have h3 : ¬ x = (i : Int) := by omega
      have e1 : decide (x < (i : Int)) = true := decide_eq_true h1
      have e2 : decide (x < ((i + 1 : Nat) : Int)) = true := decide_eq_true h2
      have e3 : (x == (i : Int)) = false := beq_false_of_ne h3
      rw [e1, e2, e3]
      simp only [if_true, Bool.false_eq_true, if_false]
      omega
    · by_cases h3 : x = (i : Int)
      · have h2 : x < ((i + 1 : Nat) : Int) := by omega
        have e1 : decide (x < (i : Int)) = false := decide_eq_false h1
        have e2 : decide (x < ((i + 1 : Nat) : Int)) = true := decide_eq_true h2
        have e3 : (x == (i : Int)) = true := beq_iff_eq.mpr h3
        rw [e1, e2, e3]
        simp only [if_true, Bool.false_eq_true, if_false]
        omega
      · have h2 : ¬ x < ((i + 1 : Nat) : Int) := by omega
        have e1 : decide (x < (i : Int)) = false := decide_eq_false h1
        have e2 : decide (x < ((i + 1 : Nat) : Int)) = false := decide_eq_false h2
        have e3 : (x == (i : Int)) = false := beq_false_of_ne h3
        rw [e1, e2, e3]
        simp only [if_true, Bool.false_eq_true, if_false]
        omega

theorem Mesh.Load.sum_counts (ids : List Int) (m : Nat) :
    ((List.range m).map (fun i => 3 * ids.count ((i : Nat) : Int))).sum =
      3 * ids.countP (fun id => decide (id < (m : Int))) - 3 * ids.countP (fun id => decide (id < 0)) := by
  induction m with
  | zero => simp
  | succ m ih =>
    rw [List.range_succ, List.map_append, List.sum_append, ih, Mesh.Load.countP_lt_succ]
    simp only [List.map_cons, List.map_nil, List.sum_cons, List.sum_nil]
    have : ids.countP (fun id => decide (id < 0)) ≤ ids.countP (fun id => decide (id < (m : Int))) := by
      apply List.countP_mono_left
      intro x _ hx
      simp only [decide_eq_true_eq] at hx ⊢
      omega
    omega

theorem Mesh.Load.computeSubMeshes_eq (material_ids : List Int) (materialCount : Nat)
    (hsorted : material_ids.Pairwise (· ≤ ·))
    (hids : ∀ id ∈ material_ids, 0 ≤ id ∧ id < 2 ^ 31)
    (hfaces : 3 * material_ids.length < 2 ^ 32)
    (hmaterials : materialCount ≤ 2 ^ 31) :
    Mesh.Load.computeSubMeshes material_ids materialCount =
      (List.range materialCount).map (fun (i : Nat) =>
        ({ baseIndex := 3 * material_ids.countP (fun id => decide (id < (i : Int))),
           indexCount := 3 * material_ids.count (i : Int),
           textureIndex := (i : Int) } : SubMesh)) := by
  have h := Mesh.Load.subMeshes_eq material_ids hfaces materialCount 0 [] material_ids rfl
    hsorted (fun id hid => ⟨by simpa using (hids id hid).1, (hids id hid).2⟩) (by omega)
  simp only [List.length_nil, Nat.zero_add] at h
  rw [Mesh.Load.computeSubMeshes, h, List.range_eq_range']

/-- C24 (as stated, refuted): for the non-decreasing id list `[-1, 0]` and one
material, submesh 0 gets `indexCount = 0`, although one face has material id 0:
the scan for material 0 stops at the leading `-1` and never reaches that face. -/
theorem Mesh_Load_negative_id_stops_scan :
    ¬ (∀ (material_ids : List Int) (materialCount : Nat),
        material_ids.Pairwise (· ≤ ·) →
        ∀ (i : Nat) (subMesh : SubMesh),
          (Mesh.Load.computeSubMeshes material_ids materialCount)[i]? = some subMesh →
          subMesh.indexCount = 3 * material_ids.count (i : Int)) := by
  intro h
  have h1 := h [-1, 0] 1 (by decide) 0 { baseIndex := 0, indexCount := 0, textureIndex := 0 }
    (by decide)
  revert h1
  decide

/-- C24 (amended): for `m <= 2^31` materials and a per-face material-id list
that is non-decreasing, has no negative id, and has fewer than `2^32 / 3`
faces, `Mesh::Load` computes `m` submeshes; submesh `i` has `textureIndex = i`
and `indexCount = 3 * (number of faces with id i)`; every `baseIndex` and
`indexCount` is a multiple of 3; `baseIndex_0 = 0` and
`baseIndex_{i+1} = baseIndex_i + indexCount_i`; and when every id is below `m`
the index counts add up to `3 * faceCount`. -/
theorem Mesh_Load_subMesh_ranges (material_ids : List Int) (materialCount : Nat)
    (hsorted : material_ids.Pairwise (· ≤ ·))
    (hids : ∀ id ∈ material_ids, 0 ≤ id ∧ id < 2 ^ 31)
    (hfaces : 3 * material_ids.length < 2 ^ 32)
    (hmaterials : materialCount ≤ 2 ^ 31) :
    (Mesh.Load.computeSubMeshes material_ids materialCount).length = materialCount ∧
    (∀ i : Nat, i < materialCount →
      ∃ subMesh, (Mesh.Load.computeSubMeshes material_ids materialCount)[i]? = some subMesh ∧
        subMesh.textureIndex = (i : Int) ∧
        subMesh.indexCount = 3 * material_ids.count (i : Int) ∧
        3 ∣ subMesh.baseIndex ∧ 3 ∣ subMesh.indexCount) ∧
    (∀ subMesh, (Mesh.Load.computeSubMeshes material_ids materialCount)[0]? = some subMesh →
      subMesh.baseIndex = 0) ∧
    (∀ (i : Nat) (a b : SubMesh),
      (Mesh.Load.computeSubMeshes material_ids materialCount)[i]? = some a →
      (Mesh.Load.computeSubMeshes material_ids materialCount)[i + 1]? = some b →
      b.baseIndex = a.baseIndex + a.indexCount) ∧
    ((∀ id ∈ material_ids, id < (materialCount : Int)) →
      ((Mesh.Load.computeSubMeshes material_ids materialCount).map
        (fun subMesh => subMesh.indexCount)).sum = 3 * material_ids.length) := by
  have hcl := Mesh.Load.computeSubMeshes_eq material_ids materialCount hsorted hids hfaces
    hmaterials
  have key : ∀ (i : Nat) (a : SubMesh),
      (Mesh.Load.computeSubMeshes material_ids materialCount)[i]? = some a →
      i < materialCount ∧
      a = { baseIndex := 3 * material_ids.countP (fun id => decide (id < (i : Int))),
            indexCount := 3 * material_ids.count (i : Int),
            textureIndex := (i : Int) } := by
    intro i a h
    rw [hcl] at h
    obtain ⟨hi, e⟩ := List.getElem?_eq_some.mp h
    have hi2 : i < materialCount := by simpa using hi
    refine ⟨hi2, ?_⟩
    rw [← e, List.getElem_map, List.getElem_range]
  have hlen : (Mesh.Load.computeSubMeshes material_ids materialCount).length =
      materialCount := by
    rw [hcl, List.length_map, List.length_range]
  refine ⟨hlen, ?_, ?_, ?_, ?_⟩
  · intro i hi
    have hsome : (Mesh.Load.computeSubMeshes material_ids materialCount)[i]? =
        some ((Mesh.Load.computeSubMeshes material_ids materialCount)[i]) :=
      List.getElem?_eq_getElem (by rw [hlen]; exact hi)
    refine ⟨_, hsome, ?_⟩
    rw [(key i _ hsome).2]
    exact ⟨rfl, rfl, Dvd.intro _ rfl, Dvd.intro _ rfl⟩
  · intro subMesh h
    rw [(key 0 subMesh h).2]
    have : material_ids.countP (fun id => decide (id < ((0 : Nat) : Int))) = 0 := by
      rw [List.countP_eq_zero]
      intro a ha
      have := (hids a ha).1
      simp only [decide_eq_true_eq]
      omega
    show 3 * material_ids.countP (fun id => decide (id < ((0 : Nat) : Int))) = 0
    rw [this]
  · intro i a b ha hb
    rw [(key i a ha).2, (key (i + 1) b hb).2]
    show 3 * material_ids.countP (fun id => decide (id < ((i + 1 : Nat) : Int))) =
      3 * material_ids.countP (fun id => decide (id < (i : Int))) +
        3 * material_ids.count (i : Int)
    rw [Mesh.Load.countP_lt_succ]
    omega
  · intro hall
    rw [hcl, List.map_map]
    have hsum := Mesh.Load.sum_counts material_ids materialCount
    have h0 : material_ids.countP (fun id => decide (id < 0)) = 0 := by
      rw [List.countP_eq_zero]
      intro a ha
      have := (hids a ha).1
      simp only [decide_eq_true_eq]
      omega
    have hm : material_ids.countP (fun id => decide (id < (materialCount : Int))) =
        material_ids.length := by
      rw [List.countP_eq_length]
      intro a ha
      simpa using hall a ha
    rw [h0, hm] at hsum
    exact hsum

theorem Mesh_Load_subMesh_ranges_witness :
    (Mesh.Load.computeSubMeshes [0, 0, 1] 2).length = 2 ∧
    ((Mesh.Load.computeSubMeshes [0, 0, 1] 2).map (fun subMesh => subMesh.indexCount)).sum =
      3 * [(0 : Int), 0, 1].length :=
  ⟨(Mesh_Load_subMesh_ranges [0, 0, 1] 2 (by decide) (by decide) (by decide) (by decide)).1,
   (Mesh_Load_subMesh_ranges [0, 0, 1] 2 (by decide) (by decide) (by decide)
      (by decide)).2.2.2.2 (by decide)⟩

/-! ## Theorems: vertex de-duplication -/

theorem Mesh.Load.dedup_append_singleton {α : Type} [DecidableEq α] (p : List α) (v : α) :
    Mesh.Load.dedup (p ++ [v]) = Mesh.Load.addVertex (Mesh.Load.dedup p) v := by
  simp only [Mesh.Load.dedup, List.foldl_append, List.foldl_cons, List.foldl_nil]

theorem Mesh.Load.addVertex_new {α : Type} [DecidableEq α] (st : Mesh.Load.DedupState α)
    (v : α) (h : st.uniqueVertices.lookup v = none) (hn : st.mVertexData.length < 2 ^ 32) :
    Mesh.Load.addVertex st v =
      { uniqueVertices := (v, st.mVertexData.length) :: st.uniqueVertices,
        mVertexData := st.mVertexData ++ [v],
        mIndexData := st.mIndexData ++ [st.mVertexData.length] } := by
  unfold Mesh.Load.addVertex
  simp only [if_pos h, List.lookup_cons_self, Nat.mod_eq_of_lt hn, Option.getD_some]

theorem Mesh.Load.addVertex_old {α : Type} [DecidableEq α] (st : Mesh.Load.DedupState α)
    (v : α) (n : Nat) (h : st.uniqueVertices.lookup v = some n) :
    Mesh.Load.addVertex st v =
      { uniqueVertices := st.uniqueVertices,
        mVertexData := st.mVertexData,
        mIndexData := st.mIndexData ++ [n] } := by
  unfold Mesh.Load.addVertex
  have h2 : ¬ st.uniqueVertices.lookup v = none := by rw [h]; exact fun h => by cases h
  simp only [if_neg h2]
  rw [h]
  rfl

theorem Mesh.Load.dedup_invariant {α : Type} [DecidableEq α] (vertices : List α)
    (hk : vertices.length < 2 ^ 32) :
    (∀ v, (Mesh.Load.dedup vertices).uniqueVertices.lookup v = none ↔
      v ∉ (Mesh.Load.dedup vertices).mVertexData) ∧
    (∀ v n, (Mesh.Load.dedup vertices).uniqueVertices.lookup v = some n →
      (Mesh.Load.dedup vertices).mVertexData[n]? = some v) ∧
    (Mesh.Load.dedup vertices).mVertexData.Nodup ∧
    (∀ v, v ∈ (Mesh.Load.dedup vertices).mVertexData ↔ v ∈ vertices) ∧
    (Mesh.Load.dedup vertices).mIndexData.length = vertices.length ∧
    (∀ (j i : Nat) (v : α), (Mesh.Load.dedup vertices).mIndexData[j]? = some i →
      vertices[j]? = some v → (Mesh.Load.dedup vertices).mVertexData[i]? = some v) ∧
    (Mesh.Load.dedup vertices).mVertexData.Pairwise
      (fun a b => vertices.indexOf a < vertices.indexOf b) ∧
    (Mesh.Load.dedup vertices).mVertexData.length ≤ vertices.length := by
  induction vertices using List.reverseRecOn with
  | nil =>
    refine ⟨fun v => ?_, fun v n h => ?_, List.nodup_nil, fun v => Iff.rfl, rfl,
      fun j i v h => ?_, List.Pairwise.nil, Nat.le_refl _⟩
    · exact ⟨fun _ h => (by cases h), fun _ => rfl⟩
    · cases h
    · cases h
  | append_singleton p v ih =>
    have hp : p.length < 2 ^ 32 := by
      rw [List.length_append, List.length_singleton] at hk; omega
    obtain ⟨i1, i2, i3, i4, i5, i6, i7, i8⟩ := ih hp
    rw [Mesh.Load.dedup_append_singleton]
    have hmono : ∀ (l : List α) (i : Nat) (w : α), l[i]? = some w → (l ++ [v])[i]? = some w := by
      intro l i w h
      rw [List.getElem?_append_left (List.getElem?_eq_some.mp h).1]
      exact h
    have hidx : ∀ x, x ∈ p → (p ++ [v]).indexOf x = p.indexOf x :=
      fun x hx => List.indexOf_append_of_mem hx
    have hpair : (Mesh.Load.dedup p).mVertexData.Pairwise
        (fun a b => (p ++ [v]).indexOf a < (p ++ [v]).indexOf b) := by
      refine i7.imp_of_mem ?_
      intro a b ha hb hab
      rw [hidx a ((i4 a).mp ha), hidx b ((i4 b).mp hb)]
      exact hab
    have hjcases : ∀ (idx : List Nat) (n j i : Nat) (w : α), idx.length = p.length →
        (idx ++ [n])[j]? = some i → (p ++ [v])[j]? = some w →
        (idx[j]? = some i ∧ p[j]? = some w) ∨ (i = n ∧ w = v) := by
      intro idx n j i w hl h1 h2
      by_cases hj : j < p.length
      · rw [List.getElem?_append_left (by rw [hl]; exact hj)] at h1
        rw [List.getElem?_append_left hj] at h2
        exact Or.inl ⟨h1, h2⟩
      · have hj2 : p.length ≤ j := Nat.le_of_not_lt hj
        rw [List.getElem?_append_right (by rw [hl]; exact hj2)] at h1
        rw [List.getElem?_append_right hj2] at h2
        have hz : j - p.length = 0 := by
          by_contra hne
          rw [List.getElem?_eq_none (by simp; omega)] at h2
          cases h2
        rw [hl, hz, List.getElem?_cons_zero] at h1
        rw [hz, List.getElem?_cons_zero] at h2
        exact Or.inr ⟨(Option.some.inj h1).symm, (Option.some.inj h2).symm⟩
    cases hl : (Mesh.Load.dedup p).uniqueVertices.lookup v with
    | none =>
      have hv1 : v ∉ (Mesh.Load.dedup p).mVertexData := (i1 v).mp hl
      have hv2 : v ∉ p := fun h => hv1 ((i4 v).mpr h)
      rw [Mesh.Load.addVertex_new _ v hl (by omega)]
      refine ⟨?_, ?_, ?_, ?_, ?_, ?_, ?_, ?_⟩
      · intro w
        show List.lookup w ((v, _) :: _) = none ↔ w ∉ _ ++ [v]
        rw [List.lookup_cons]
        by_cases hw : w = v
        · subst hw
          simp
        · have : (w == v) = false := beq_false_of_ne hw
          rw [this]
          simp only [List.mem_append, List.mem_singleton, hw, or_false]
          exact i1 w
      · intro w n
        show List.lookup w ((v, _) :: _) = some n → (_ ++ [v])[n]? = some w
        rw [List.lookup_cons]
        by_cases hw : w = v
        · subst hw
          simp only [beq_self_eq_true]
          intro h
          rw [← Option.some.inj h, List.getElem?_append_right (Nat.le_refl _), Nat.sub_self,
            List.getElem?_cons_zero]
        · have : (w == v) = false := beq_false_of_ne hw
          rw [this]
          exact fun h => hmono _ n w (i2 w n h)
      · show (_ ++ [v]).Nodup
        rw [List.nodup_append]
        refine ⟨i3, List.nodup_singleton v, ?_⟩
        intro a ha hb
        rw [List.mem_singleton] at hb
        subst hb
        exact hv1 ha
      · intro w
        show w ∈ _ ++ [v] ↔ w ∈ p ++ [v]
        rw [List.mem_append, List.mem_append, i4 w]
      · show (_ ++ [_]).length = (p ++ [v]).length
        simp only [List.length_append, List.length_singleton, i5]
      · intro j i w h1 h2
        show (_ ++ [v])[i]? = some w
        rcases hjcases _ _ j i w i5 h1 h2 with ⟨h3, h4⟩ | ⟨h3, h4⟩
        · exact hmono _ i w (i6 j i w h3 h4)
        · rw [h3, h4, List.getElem?_append_right (Nat.le_refl _), Nat.sub_self,
            List.getElem?_cons_zero]
      · show (_ ++ [v]).Pairwise _
        rw [List.pairwise_append]
        refine ⟨hpair, List.pairwise_singleton _ _, ?_⟩
        intro a ha b hb
        rw [List.mem_singleton] at hb
        subst hb
        rw [hidx a ((i4 a).mp ha), List.indexOf_append_of_not_mem hv2, List.indexOf_cons_self]
        have := List.indexOf_lt_length.mpr ((i4 a).mp ha)
        omega
      · show (_ ++ [v]).length ≤ (p ++ [v]).length
        rw [List.length_append, List.length_append]
        omega
    | some n =>
      have hn : (Mesh.Load.dedup p).mVertexData[n]? = some v := i2 v n hl
      have hv1 : v ∈ (Mesh.Load.dedup p).mVertexData := List.getElem?_mem hn
      rw [Mesh.Load.addVertex_old _ v n hl]
      refine ⟨i1, i2, i3, ?_, ?_, ?_, hpair, ?_⟩
      · intro w
        show w ∈ (Mesh.Load.dedup p).mVertexData ↔ w ∈ p ++ [v]
        rw [List.mem_append, List.mem_singleton, i4 w]
        constructor
        · exact Or.inl
        · rintro (h | h)
          · exact h
          · rw [h]; exact (i4 v).mp hv1
      · show (_ ++ [_]).length = (p ++ [v]).length
        simp only [List.length_append, List.length_singleton, i5]
      · intro j i w h1 h2
        show (Mesh.Load.dedup p).mVertexData[i]? = some w
        rcases hjcases _ _ j i w i5 h1 h2 with ⟨h3, h4⟩ | ⟨h3, h4⟩
        · exact i6 j i w h3 h4
        · rw [h3, h4]; exact hn
      · show (Mesh.Load.dedup p).mVertexData.length ≤ (p ++ [v]).length
        rw [List.length_append]
        omega

/-- C25: for every sequence of fewer than `2^32` face-corner vertices (of a
type with decidable equality), the vertex loop of `Mesh::Load` produces an
index list of the same length; every index is a position of the produced vertex
list; the vertex stored at `index[j]` is `v_j`; the vertex list has no two
equal entries and holds exactly the vertices of the input; and its entries are
in the order of their first occurrence in the input. -/
theorem Mesh_Load_vertex_dedup {α : Type} [DecidableEq α] (vertices : List α)
    (hk : vertices.length < 2 ^ 32) :
    (Mesh.Load.dedup vertices).mIndexData.length = vertices.length ∧
    (∀ index ∈ (Mesh.Load.dedup vertices).mIndexData,
      index < (Mesh.Load.dedup vertices).mVertexData.length) ∧
    (∀ (j : Nat) (v : α), vertices[j]? = some v →
      ∃ index, (Mesh.Load.dedup vertices).mIndexData[j]? = some index ∧
        (Mesh.Load.dedup vertices).mVertexData[index]? = some v) ∧
    (Mesh.Load.dedup vertices).mVertexData.Nodup ∧
    (∀ v, v ∈ (Mesh.Load.dedup vertices).mVertexData ↔ v ∈ vertices) ∧
    (Mesh.Load.dedup vertices).mVertexData.Pairwise
      (fun a b => vertices.indexOf a < vertices.indexOf b) := by
  obtain ⟨_, _, i3, i4, i5, i6, i7, _⟩ := Mesh.Load.dedup_invariant vertices hk
  refine ⟨i5, ?_, ?_, i3, i4, i7⟩
  · intro index hmem
    obtain ⟨j, hj⟩ := List.mem_iff_getElem?.mp hmem
    have hjl : j < vertices.length := by
      rw [← i5]; exact (List.getElem?_eq_some.mp hj).1
    exact (List.getElem?_eq_some.mp (i6 j index _ hj (List.getElem?_eq_getElem hjl))).1
  · intro j v hv
    have hjl : j < (Mesh.Load.dedup vertices).mIndexData.length := by
      rw [i5]; exact (List.getElem?_eq_some.mp hv).1
    exact ⟨_, List.getElem?_eq_getElem hjl, i6 j _ v (List.getElem?_eq_getElem hjl) hv⟩

theorem Mesh_Load_vertex_dedup_witness :
    (Mesh.Load.dedup [7, 8, 7]).mIndexData.length = [7, 8, 7].length ∧
    (Mesh.Load.dedup [7, 8, 7]).mVertexData.Nodup ∧
    (Mesh.Load.dedup [7, 8, 7]).mVertexData.Pairwise
      (fun a b => [7, 8, 7].indexOf a < [7, 8, 7].indexOf b) :=
  ⟨(Mesh_Load_vertex_dedup [7, 8, 7] (by decide)).1,
   (Mesh_Load_vertex_dedup [7, 8, 7] (by decide)).2.2.2.1,
   (Mesh_Load_vertex_dedup [7, 8, 7] (by decide)).2.2.2.2.2⟩

end VulkanObj
